import Mathlib

/-!
LabGuard+ : sensor-data protocol of the hub node

Shallow embedding of `esp32_controller/src/main.cpp` (the hub) and of the
parts of `src/main.cpp` (the sensor node) that build the lines the hub reads
and that handle the lines the hub sends.

Conventions of the embedding

* An Arduino `String` is a `List Char`; the `String` member functions used by
  the program (`startsWith`, `indexOf`, `substring`, `toInt`, `toFloat`) are
  library code and are modelled after the Arduino core (`WString.cpp`), which
  implements them with `strncmp`, `strstr`, `atol` and `atof`.
* `int` and `long` are 32 bits on both boards.  `toInt` saturates the way
  `strtol` does; the `unsigned long` counter `dataPoints` wraps modulo `2^32`.
  The `int` counter of a tracker is incremented without wrap (signed overflow
  has no defined result).
* A `float` is a value of `Flt`: not-a-number, the two infinities, or an exact
  rational.  Arithmetic on finite values is exact (no rounding, no overflow to
  infinity); hexadecimal floating literals are not recognised by `toFloat`.
  The temperature that the hub reads from a line is kept as the exact value
  of its text.  The temperature threshold that the sensor node reads from a
  line of the hub is rounded to the 24 bits of a `float` (`Flt.toFloat32`),
  the `double` that `atof` returns for its text being taken as exact.
* `millis()` is an input of the step (`now`).
* The conversion `String(x)` of a `float` is library code that is taken as a
  parameter (`floatText`); that of an integer gives its decimal digits.
-/

namespace LabGuard

/-! ## Floating point values -/

/-- A `float`: NaN, minus infinity, a finite value, plus infinity. -/
inductive Flt where
  | nan
  | ninf
  | fin (q : ℚ)
  | pinf
  deriving DecidableEq

namespace Flt

/-- The test `isnan(x)`. -/
def isnan : Flt → Bool
  | nan => true
  | _ => false

/-- Conversion `int → float`. -/
def ofInt (i : Int) : Flt := fin (i : ℚ)

/-- Addition `a + b` of two floats. -/
def add : Flt → Flt → Flt
  | nan, _ => nan
  | _, nan => nan
  | pinf, ninf => nan
  | ninf, pinf => nan
  | pinf, _ => pinf
  | _, pinf => pinf
  | ninf, _ => ninf
  | _, ninf => ninf
  | fin a, fin b => fin (a + b)

/-- Comparison `a < b` of two floats; false as soon as one side is NaN. -/
def lt : Flt → Flt → Bool
  | nan, _ => false
  | _, nan => false
  | _, ninf => false
  | ninf, _ => true
  | pinf, _ => false
  | fin _, pinf => true
  | fin a, fin b => decide (a < b)

/-- Division `a / n` of a float by an `int` (converted to `float`). -/
def divInt : Flt → Int → Flt
  | nan, _ => nan
  | fin a, n =>
    if n = 0 then (if 0 < a then pinf else if a < 0 then ninf else nan)
    else fin (a / (n : ℚ))
  | pinf, n => if 0 ≤ n then pinf else ninf
  | ninf, n => if 0 ≤ n then ninf else pinf

end Flt

/-- Rounding of a rational to the nearest integer, a tie going to the even
integer. -/
def roundHalfEven (q : ℚ) : Int :=
  if q - ⌊q⌋ < 1 / 2 then ⌊q⌋
  else if 1 / 2 < q - ⌊q⌋ then ⌊q⌋ + 1
  else if ⌊q⌋ % 2 = 0 then ⌊q⌋ else ⌊q⌋ + 1

/-- The conversion `double → float` that an assignment to a `float` variable
makes: a finite value is rounded to the nearest value with a significand of
24 bits, a tie going to the even significand.  The range of the exponent is not
modelled (no overflow to an infinity, no subnormal values). -/
def Flt.toFloat32 : Flt → Flt
  | Flt.fin q =>
    if q = 0 then Flt.fin 0
    else Flt.fin (roundHalfEven (q / 2 ^ (Int.log 2 |q| - 23)) * 2 ^ (Int.log 2 |q| - 23))
  | x => x

/-! ## Arduino `String` member functions -/

/-- The call `s.startsWith(pre)`. -/
def startsWith (s pre : List Char) : Bool := pre.isPrefixOf s

/-- The C function `strstr(hay, pat)`: offset of the first occurrence of `pat`. -/
def strstr (pat : List Char) : List Char → Option Nat
  | [] => if pat.isEmpty then some 0 else none
  | c :: cs => if pat.isPrefixOf (c :: cs) then some 0 else (strstr pat cs).map (· + 1)

/-- The call `s.indexOf(pat, fromIndex)`; `none` stands for the result `-1`. -/
def indexOfFrom (s pat : List Char) (fromIndex : Nat) : Option Nat :=
  if fromIndex ≥ s.length then none
  else (strstr pat (s.drop fromIndex)).map (· + fromIndex)

/-- The call `s.indexOf(pat)`, which is `s.indexOf(pat, 0)`. -/
def indexOf (s pat : List Char) : Option Nat := indexOfFrom s pat 0

/-- The call `s.substring(left, right)`: the characters at `left ≤ i < right`. -/
def substring (s : List Char) (left right : Nat) : List Char :=
  let l := if left > right then right else left
  let r := if left > right then left else right
  if l ≥ s.length then [] else (s.take r).drop l

/-- The call `s.substring(left)`, which is `s.substring(left, s.length())`. -/
def substringFrom (s : List Char) (left : Nat) : List Char :=
  substring s left s.length

/-- The C predicate `isspace`. -/
def isSpace (c : Char) : Bool := c = ' ' || (9 ≤ c.toNat && c.toNat ≤ 13)

/-- Value of a run of decimal digits. -/
def digitsToNat (ds : List Char) : Nat :=
  ds.foldl (fun a c => a * 10 + (c.toNat - 48)) 0

/-- Largest value of a `long`. -/
def LONG_MAX : Int := 2147483647

/-- Smallest value of a `long`. -/
def LONG_MIN : Int := -2147483648

/-- The C function `atol`: optional white space, optional sign, decimal digits;
the result saturates at the bounds of `long`. -/
def atol (s : List Char) : Int :=
  match s.dropWhile isSpace with
  | [] => 0
  | c :: r =>
    if c = '-' then max LONG_MIN (-(digitsToNat (r.takeWhile Char.isDigit) : Int))
    else if c = '+' then min LONG_MAX (digitsToNat (r.takeWhile Char.isDigit) : Int)
    else min LONG_MAX (digitsToNat ((c :: r).takeWhile Char.isDigit) : Int)

/-- The call `s.toInt()`. -/
def toInt (s : List Char) : Int := atol s

/-- Digits of the fraction of a decimal literal, given the text behind its
integer digits. -/
def fractionDigits (r : List Char) : List Char :=
  match r with
  | c :: t => if c = '.' then t.takeWhile Char.isDigit else []
  | [] => []

/-- Text behind the mantissa of a decimal literal, given the text behind its
integer digits. -/
def afterMantissa (r : List Char) : List Char :=
  match r with
  | c :: t => if c = '.' then t.dropWhile Char.isDigit else c :: t
  | [] => []

/-- Value of the exponent part `e`, `e+` or `e-` with digits, at the head of
the text; `0` when there is none. -/
def exponentValue (r : List Char) : Int :=
  match r with
  | c :: t =>
    if c = 'e' ∨ c = 'E' then
      match t with
      | sg :: u =>
        if sg = '-' then -(digitsToNat (u.takeWhile Char.isDigit) : Int)
        else if sg = '+' then (digitsToNat (u.takeWhile Char.isDigit) : Int)
        else (digitsToNat ((sg :: u).takeWhile Char.isDigit) : Int)
      | [] => 0
    else 0
  | [] => 0

/-- Unsigned part of a decimal floating literal: digits, optional fraction,
optional exponent.  Without a digit in the mantissa nothing is converted. -/
def decimalValue (s : List Char) : ℚ :=
  let ip := s.takeWhile Char.isDigit
  let fp := fractionDigits (s.dropWhile Char.isDigit)
  if ip.isEmpty && fp.isEmpty then 0
  else
    let m := digitsToNat (ip ++ fp)
    let e := exponentValue (afterMantissa (s.dropWhile Char.isDigit))
    if 0 ≤ e then mkRat ((m * 10 ^ e.toNat : Nat) : Int) (10 ^ fp.length)
    else mkRat (m : Int) (10 ^ (fp.length + (-e).toNat))

/-- Unsigned part of what `atof` reads: `inf`, `nan` or a decimal literal. -/
def unsignedFloat (s : List Char) : Flt :=
  if startsWith (s.map Char.toLower) "inf".toList then Flt.pinf
  else if startsWith (s.map Char.toLower) "nan".toList then Flt.nan
  else Flt.fin (decimalValue s)

/-- Sign change of a float. -/
def Flt.neg : Flt → Flt
  | Flt.nan => Flt.nan
  | Flt.ninf => Flt.pinf
  | Flt.fin q => Flt.fin (-q)
  | Flt.pinf => Flt.ninf

/-- The C function `atof`: optional white space, optional sign, then `inf`,
`nan` or a decimal literal; `0` when nothing can be converted. -/
def atof (s : List Char) : Flt :=
  match s.dropWhile isSpace with
  | [] => Flt.fin 0
  | c :: r =>
    if c = '-' then Flt.neg (unsignedFloat r)
    else if c = '+' then unsignedFloat r
    else unsignedFloat (c :: r)

/-- The call `s.toFloat()`. -/
def toFloat (s : List Char) : Flt := atof s

/-! ## State of the hub -/

/-- The struct `SensorData` with its initial values. -/
structure SensorData where
  temperature : Flt := Flt.fin 0
  gasLevel : Int := 0
  soundLevel : Int := 0
  motionDetected : Bool := false
  irTriggered : Bool := false
  lightLevel : Int := 0
  distance : Int := 0
  deriving DecidableEq

/-- The struct `SensorStats` with its initial values. -/
structure SensorStats where
  current : Flt := Flt.nan
  average : Flt := Flt.nan
  maximum : Flt := Flt.nan
  minimum : Flt := Flt.nan
  count : Int := 0
  sum : Flt := Flt.fin 0
  deriving DecidableEq

/-- The globals of the hub that `parseSensorData` reads or writes. -/
structure Hub where
  sensorData : SensorData := {}
  TEMP_THRESHOLD : Int := 40
  GAS_THRESHOLD : Int := 350
  SOUND_THRESHOLD : Int := 80
  tempStats : SensorStats := {}
  gasStats : SensorStats := {}
  soundStats : SensorStats := {}
  lightStats : SensorStats := {}
  distStats : SensorStats := {}
  activeAlerts : List String := []
  dataPoints : Nat := 0
  lastSensorUpdate : Nat := 0
  isOnline : Bool := false
  deriving DecidableEq

/-- The six statements that `parseSensorData` runs on a channel's tracker after
it has stored the sample `x` of that channel (lines 287-292 for temperature,
and the same for gas, sound, light and distance). -/
def updateStats (st : SensorStats) (x : Flt) : SensorStats :=
  { current := x
    sum := Flt.add st.sum x
    count := st.count + 1
    maximum := if st.maximum.isnan || Flt.lt st.maximum x then x else st.maximum
    minimum := if st.minimum.isnan || Flt.lt x st.minimum then x else st.minimum
    average := Flt.divInt (Flt.add st.sum x) (st.count + 1) }

/-- The tail of `parseSensorData` (lines 359-366): the alert list is cleared and
rebuilt from the reading and the three thresholds. -/
def rebuildAlerts (d : SensorData) (tempThreshold gasThreshold soundThreshold : Int) :
    List String :=
  let a : List String := []
  let a := if Flt.lt (Flt.ofInt tempThreshold) d.temperature then a ++ ["TEMP_HIGH"] else a
  let a := if d.gasLevel > gasThreshold then a ++ ["GAS_LEAK"] else a
  let a := if d.soundLevel = soundThreshold then a ++ ["SOUND_EVENT"] else a
  let a := if d.motionDetected then a ++ ["MOTION_PIR"] else a
  let a := if d.irTriggered then a ++ ["IR_TRIGGERED"] else a
  let a := if d.distance > 0 ∧ d.distance < 200 then a ++ ["PRESENCE_DETECTED"] else a
  let a := if d.lightLevel < 100 then a ++ ["ROOM_DARK"] else a
  a

/-- The block `int tempIndex = ...` of `parseSensorData` (lines 282-294). -/
def fieldTEMP (data : List Char) (s : Hub) : Hub :=
  match indexOf data "TEMP=".toList with
  | some tempIndex =>
    match indexOfFrom data ",".toList tempIndex with
    | some commaIndex =>
      let temperature := toFloat (substring data (tempIndex + 5) commaIndex)
      { s with
        sensorData := { s.sensorData with temperature := temperature }
        tempStats := updateStats s.tempStats temperature }
    | none => s
  | none => s

/-- The block `int gasIndex = ...` of `parseSensorData` (lines 295-307). -/
def fieldGAS (data : List Char) (s : Hub) : Hub :=
  match indexOf data "GAS=".toList with
  | some gasIndex =>
    match indexOfFrom data ",".toList gasIndex with
    | some commaIndex =>
      let gasLevel := toInt (substring data (gasIndex + 4) commaIndex)
      { s with
        sensorData := { s.sensorData with gasLevel := gasLevel }
        gasStats := updateStats s.gasStats (Flt.ofInt gasLevel) }
    | none => s
  | none => s

/-- The block `int soundIndex = ...` of `parseSensorData` (lines 308-320). -/
def fieldSOUND (data : List Char) (s : Hub) : Hub :=
  match indexOf data "SOUND=".toList with
  | some soundIndex =>
    match indexOfFrom data ",".toList soundIndex with
    | some commaIndex =>
      let soundLevel := toInt (substring data (soundIndex + 6) commaIndex)
      { s with
        sensorData := { s.sensorData with soundLevel := soundLevel }
        soundStats := updateStats s.soundStats (Flt.ofInt soundLevel) }
    | none => s
  | none => s

/-- The block `int pirIndex = ...` of `parseSensorData` (lines 321-325). -/
def fieldPIR (data : List Char) (s : Hub) : Hub :=
  match indexOf data "PIR=".toList with
  | some pirIndex =>
    match indexOfFrom data ",".toList pirIndex with
    | some commaIndex =>
      { s with
        sensorData := { s.sensorData with
          motionDetected := decide (toInt (substring data (pirIndex + 4) commaIndex) = 1) } }
    | none => s
  | none => s

/-- The block `int irIndex = ...` of `parseSensorData` (lines 326-330). -/
def fieldIR (data : List Char) (s : Hub) : Hub :=
  match indexOf data "IR=".toList with
  | some irIndex =>
    match indexOfFrom data ",".toList irIndex with
    | some commaIndex =>
      { s with
        sensorData := { s.sensorData with
          irTriggered := decide (toInt (substring data (irIndex + 3) commaIndex) = 0) } }
    | none => s
  | none => s

/-- The block `int lightIndex = ...` of `parseSensorData` (lines 331-343). -/
def fieldLIGHT (data : List Char) (s : Hub) : Hub :=
  match indexOf data "LIGHT=".toList with
  | some lightIndex =>
    match indexOfFrom data ",".toList lightIndex with
    | some commaIndex =>
      let lightLevel := toInt (substring data (lightIndex + 6) commaIndex)
      { s with
        sensorData := { s.sensorData with lightLevel := lightLevel }
        lightStats := updateStats s.lightStats (Flt.ofInt lightLevel) }
    | none => s
  | none => s

/-- The block `int distIndex = ...` of `parseSensorData` (lines 344-353); it
looks for no comma and reads the text up to the end of the line. -/
def fieldDIST (data : List Char) (s : Hub) : Hub :=
  match indexOf data "DIST=".toList with
  | some distIndex =>
    let distance := toInt (substringFrom data (distIndex + 5))
    { s with
      sensorData := { s.sensorData with distance := distance }
      distStats := updateStats s.distStats (Flt.ofInt distance) }
  | none => s

/-- The body of `if (data.startsWith("DATA:"))` in `parseSensorData`
(lines 281-356): the prefix is cut off, the seven blocks run in the order of
the source, then the connectivity bookkeeping. -/
def parseFields (s : Hub) (line : List Char) (now : Nat) : Hub :=
  let data := substringFrom line 5
  let s := fieldTEMP data s
  let s := fieldGAS data s
  let s := fieldSOUND data s
  let s := fieldPIR data s
  let s := fieldIR data s
  let s := fieldLIGHT data s
  let s := fieldDIST data s
  { s with
    lastSensorUpdate := now
    isOnline := true
    dataPoints := (s.dataPoints + 1) % 2 ^ 32 }

/-- The function `parseSensorData(data)`; `now` is the value of `millis()`. -/
def parseSensorData (s : Hub) (data : List Char) (now : Nat) : Hub :=
  let s := if startsWith data "DATA:".toList then parseFields s data now else s
  { s with
    activeAlerts :=
      rebuildAlerts s.sensorData s.TEMP_THRESHOLD s.GAS_THRESHOLD s.SOUND_THRESHOLD }

/-- The hub right after start-up: the initial values of its globals. -/
def Hub.init : Hub := {}

/-! ## Vocabulary of the specification -/

/-- The seven alert kinds in the order in which they are evaluated. -/
def alertKinds : List String :=
  ["TEMP_HIGH", "GAS_LEAK", "SOUND_EVENT", "MOTION_PIR", "IR_TRIGGERED",
   "PRESENCE_DETECTED", "ROOM_DARK"]

/-- The rules of the specification (section 4.2): each alert kind with its
condition on the reading and the thresholds, in evaluation order. -/
def alertRules (d : SensorData) (tempThreshold gasThreshold soundThreshold : Int) :
    List (String × Bool) :=
  [ ("TEMP_HIGH", Flt.lt (Flt.ofInt tempThreshold) d.temperature),
    ("GAS_LEAK", decide (gasThreshold < d.gasLevel)),
    ("SOUND_EVENT", decide (d.soundLevel = soundThreshold)),
    ("MOTION_PIR", d.motionDetected),
    ("IR_TRIGGERED", d.irTriggered),
    ("PRESENCE_DETECTED", decide (0 < d.distance ∧ d.distance < 200)),
    ("ROOM_DARK", decide (d.lightLevel < 100)) ]

/-- The alert list of the specification: the kinds whose condition holds. -/
def alertsOfRules (d : SensorData) (tempThreshold gasThreshold soundThreshold : Int) :
    List String :=
  ((alertRules d tempThreshold gasThreshold soundThreshold).filter (·.2)).map (·.1)

/-- The key strings that `parseSensorData` searches for. -/
def knownKeys : List (List Char) :=
  ["TEMP=".toList, "GAS=".toList, "SOUND=".toList, "PIR=".toList, "IR=".toList,
   "LIGHT=".toList, "DIST=".toList]

/-- The line that `readAndSendSensorData` of the sensor node builds (line 251 of
`src/main.cpp`), as a function of the texts of its seven values. -/
def dataLine (temp gas sound pir ir light dist : List Char) : List Char :=
  "DATA:TEMP=".toList ++ temp ++ ",GAS=".toList ++ gas ++ ",SOUND=".toList ++ sound
    ++ ",PIR=".toList ++ pir ++ ",IR=".toList ++ ir ++ ",LIGHT=".toList ++ light
    ++ ",DIST=".toList ++ dist

/-- A value text that holds neither the field separator nor an equals sign. -/
def plainValue (v : List Char) : Prop := ',' ∉ v ∧ '=' ∉ v

instance (v : List Char) : Decidable (plainValue v) := by
  unfold plainValue; infer_instance

/-- A value text that does not begin like a number: its first character is
neither white space, a sign, a digit, a point, nor the first letter of `inf`
or `nan`. -/
def startsNoNumber (v : List Char) : Bool :=
  match v with
  | [] => true
  | c :: _ =>
    !(c.isDigit || isSpace c || c = '-' || c = '+' || c = '.'
      || c.toLower = 'i' || c.toLower = 'n')

/-- No occurrence of `key` in `rest` has a comma anywhere behind it: every
suffix of `rest` that starts with the key is free of commas. -/
def noCommaAfter (key rest : List Char) : Prop :=
  ∀ t ∈ rest.tails, key <+: t → ',' ∉ t

instance (key rest : List Char) : Decidable (noCommaAfter key rest) := by
  unfold noCommaAfter; infer_instance

/-- Text that a block of `parseSensorData` converts for a key of length `n`:
from behind the first occurrence of the key up to the next comma. -/
def commaText (data key : List Char) (n : Nat) : Option (List Char) :=
  match indexOf data key with
  | some i =>
    match indexOfFrom data ",".toList i with
    | some c => some (substring data (i + n) c)
    | none => none
  | none => none

/-- Text that the `DIST=` block converts: from behind the first occurrence of
the key to the end of the line. -/
def tailText (data key : List Char) (n : Nat) : Option (List Char) :=
  match indexOf data key with
  | some i => some (substringFrom data (i + n))
  | none => none

/-- Effect of the `TEMP=` block once the text it converts is known. -/
def setTEMP (t : Option (List Char)) (s : Hub) : Hub :=
  match t with
  | some t => { s with
      sensorData := { s.sensorData with temperature := toFloat t }
      tempStats := updateStats s.tempStats (toFloat t) }
  | none => s

/-- Effect of the `GAS=` block once the text it converts is known. -/
def setGAS (t : Option (List Char)) (s : Hub) : Hub :=
  match t with
  | some t => { s with
      sensorData := { s.sensorData with gasLevel := toInt t }
      gasStats := updateStats s.gasStats (Flt.ofInt (toInt t)) }
  | none => s

/-- Effect of the `SOUND=` block once the text it converts is known. -/
def setSOUND (t : Option (List Char)) (s : Hub) : Hub :=
  match t with
  | some t => { s with
      sensorData := { s.sensorData with soundLevel := toInt t }
      soundStats := updateStats s.soundStats (Flt.ofInt (toInt t)) }
  | none => s

/-- Effect of the `PIR=` block once the text it converts is known. -/
def setPIR (t : Option (List Char)) (s : Hub) : Hub :=
  match t with
  | some t => { s with
      sensorData := { s.sensorData with motionDetected := decide (toInt t = 1) } }
  | none => s

/-- Effect of the `IR=` block once the text it converts is known. -/
def setIR (t : Option (List Char)) (s : Hub) : Hub :=
  match t with
  | some t => { s with
      sensorData := { s.sensorData with irTriggered := decide (toInt t = 0) } }
  | none => s

/-- Effect of the `LIGHT=` block once the text it converts is known. -/
def setLIGHT (t : Option (List Char)) (s : Hub) : Hub :=
  match t with
  | some t => { s with
      sensorData := { s.sensorData with lightLevel := toInt t }
      lightStats := updateStats s.lightStats (Flt.ofInt (toInt t)) }
  | none => s

/-- Effect of the `DIST=` block once the text it converts is known. -/
def setDIST (t : Option (List Char)) (s : Hub) : Hub :=
  match t with
  | some t => { s with
      sensorData := { s.sensorData with distance := toInt t }
      distStats := updateStats s.distStats (Flt.ofInt (toInt t)) }
  | none => s

/-- The state after the seven blocks and the bookkeeping, given the text that
each block converts (`none`: the block changes nothing). -/
def applyTexts (s : Hub) (tT tG tS tP tI tL tD : Option (List Char)) (now : Nat) : Hub :=
  { s with
    sensorData :=
      { temperature := (tT.map toFloat).getD s.sensorData.temperature
        gasLevel := (tG.map toInt).getD s.sensorData.gasLevel
        soundLevel := (tS.map toInt).getD s.sensorData.soundLevel
        motionDetected := (tP.map (fun t => decide (toInt t = 1))).getD s.sensorData.motionDetected
        irTriggered := (tI.map (fun t => decide (toInt t = 0))).getD s.sensorData.irTriggered
        lightLevel := (tL.map toInt).getD s.sensorData.lightLevel
        distance := (tD.map toInt).getD s.sensorData.distance }
    tempStats := (tT.map (fun t => updateStats s.tempStats (toFloat t))).getD s.tempStats
    gasStats := (tG.map (fun t => updateStats s.gasStats (Flt.ofInt (toInt t)))).getD s.gasStats
    soundStats :=
      (tS.map (fun t => updateStats s.soundStats (Flt.ofInt (toInt t)))).getD s.soundStats
    lightStats :=
      (tL.map (fun t => updateStats s.lightStats (Flt.ofInt (toInt t)))).getD s.lightStats
    distStats := (tD.map (fun t => updateStats s.distStats (Flt.ofInt (toInt t)))).getD s.distStats
    lastSensorUpdate := now
    isOnline := true
    dataPoints := (s.dataPoints + 1) % 2 ^ 32 }

/-! ## The hub beyond the parser: relays, mode, store, log and link

The relays are modelled by their observable state (`getRelayState`), the store
(`EEPROM`) by a map from addresses to bytes, and what the program does to the
outside (relay writes, delays, notifications, commits of the store) by a list
of effects in the order in which they happen.  The LEDs, the display, the
uptime counter and the serial console are left out: no modelled variable
depends on them. -/

/-- Pin of relay 1, the exhaust fan. -/
def RELAY1 : Nat := 14

/-- Pin of relay 2, the room light. -/
def RELAY2 : Nat := 27

/-- Pin of relay 3, the cooling fan. -/
def RELAY3 : Nat := 26

/-- Pin of relay 4, the buzzer. -/
def RELAY4 : Nat := 25

/-- Size of the store, `EEPROM.begin(EEPROM_SIZE)`. -/
def EEPROM_SIZE : Nat := 50

/-- Address of the mode flag in the store. -/
def ADDR_MODE : Nat := 4

/-- Address of the temperature threshold in the store. -/
def ADDR_THRESH_TEMP : Nat := 5

/-- Address of the gas threshold in the store. -/
def ADDR_THRESH_GAS : Nat := 6

/-- Address of the sound threshold in the store. -/
def ADDR_THRESH_SOUND : Nat := 7

/-- Time without a sensor update after which the hub goes offline, in ms. -/
def SENSOR_TIMEOUT : Nat := 10000

/-- What the hub does to the outside, in the order of the program. -/
inductive Effect where
  | relay (pin : Nat) (state : Bool)
  | delay (ms : Nat)
  | notify (msg : String)
  | commit (stored : List Nat)
  deriving DecidableEq

/-- The globals of the hub: the sensor part, the four relays as
`getRelayState` sees them, the mode, the store, the link flags, the event log
and the effects so far. -/
structure Controller where
  hub : Hub := {}
  relay1 : Bool := false
  relay2 : Bool := false
  relay3 : Bool := false
  relay4 : Bool := false
  autoMode : Bool := true
  eeprom : Nat → Nat := fun _ => 0
  esp8266_connected : Bool := false
  esp8266_actual_ip : List Char := []
  logEntries : List (Nat × List Char) := []
  effects : List Effect := []

/-- The function `setRelay(pin, state)`. -/
def setRelay (pin : Nat) (state : Bool) (c : Controller) : Controller :=
  let c := { c with effects := c.effects ++ [Effect.relay pin state] }
  if pin = RELAY1 then { c with relay1 := state }
  else if pin = RELAY2 then { c with relay2 := state }
  else if pin = RELAY3 then { c with relay3 := state }
  else if pin = RELAY4 then { c with relay4 := state }
  else c

/-- The function `getRelayState(pin)`. -/
def getRelayState (c : Controller) (pin : Nat) : Bool :=
  if pin = RELAY1 then c.relay1
  else if pin = RELAY2 then c.relay2
  else if pin = RELAY3 then c.relay3
  else if pin = RELAY4 then c.relay4
  else false

/-- The call `EEPROM.write(address, value)`; the value is cut to a byte and a
write outside the store is dropped. -/
def eepromWrite (e : Nat → Nat) (address value : Nat) : Nat → Nat :=
  if address < EEPROM_SIZE then fun a => if a = address then value % 256 else e a
  else e

/-- The call `EEPROM.read(address)`. -/
def eepromRead (e : Nat → Nat) (address : Nat) : Nat :=
  if address < EEPROM_SIZE then e address else 0

/-- Conversion `bool → uint8_t`. -/
def byteOfBool (b : Bool) : Nat := if b then 1 else 0

/-- Conversion `int → uint8_t`. -/
def byteOfInt (v : Int) : Nat := (v % 256).toNat

/-- The function `saveRelayStates()`; the commit records the eight bytes at the
addresses 0 to 7 as they are stored then. -/
def saveRelayStates (c : Controller) : Controller :=
  let e := eepromWrite c.eeprom 0 (byteOfBool (getRelayState c RELAY1))
  let e := eepromWrite e 1 (byteOfBool (getRelayState c RELAY2))
  let e := eepromWrite e 2 (byteOfBool (getRelayState c RELAY3))
  let e := eepromWrite e 3 (byteOfBool (getRelayState c RELAY4))
  let e := eepromWrite e ADDR_MODE (byteOfBool c.autoMode)
  let e := eepromWrite e ADDR_THRESH_TEMP (byteOfInt c.hub.TEMP_THRESHOLD)
  let e := eepromWrite e ADDR_THRESH_GAS (byteOfInt c.hub.GAS_THRESHOLD)
  let e := eepromWrite e ADDR_THRESH_SOUND (byteOfInt c.hub.SOUND_THRESHOLD)
  { c with
    eeprom := e
    effects := c.effects ++ [Effect.commit ((List.range 8).map (eepromRead e))] }

/-- The function `loadRelayStates()`. -/
def loadRelayStates (c : Controller) : Controller :=
  let c := setRelay RELAY1 (decide (eepromRead c.eeprom 0 ≠ 0)) c
  let c := setRelay RELAY2 (decide (eepromRead c.eeprom 1 ≠ 0)) c
  let c := setRelay RELAY3 (decide (eepromRead c.eeprom 2 ≠ 0)) c
  let c := setRelay RELAY4 (decide (eepromRead c.eeprom 3 ≠ 0)) c
  { c with
    autoMode := decide (eepromRead c.eeprom ADDR_MODE ≠ 0)
    hub := { c.hub with
      TEMP_THRESHOLD := (eepromRead c.eeprom ADDR_THRESH_TEMP : Nat)
      GAS_THRESHOLD := (eepromRead c.eeprom ADDR_THRESH_GAS : Nat)
      SOUND_THRESHOLD := (eepromRead c.eeprom ADDR_THRESH_SOUND : Nat) } }

/-- The function `logEvent(msg)`; `now` is the value of `millis()`. -/
def logEvent (c : Controller) (now : Nat) (msg : List Char) : Controller :=
  let entries := c.logEntries ++ [(now / 1000, msg)]
  { c with logEntries := if entries.length > 100 then entries.drop 1 else entries }

/-- The function `notifyTelegram(msg)`: one request to the outside; the text is
recorded without its leading pictograph. -/
def notifyTelegram (msg : String) (c : Controller) : Controller :=
  { c with effects := c.effects ++ [Effect.notify msg] }

/-- The call `delay(ms)`. -/
def delay (ms : Nat) (c : Controller) : Controller :=
  { c with effects := c.effects ++ [Effect.delay ms] }

/-- The function `blinkBuzzer(times, delayMs)`. -/
def blinkBuzzer : Nat → Nat → Controller → Controller
  | 0, _, c => c
  | times + 1, delayMs, c =>
    blinkBuzzer times delayMs
      (delay delayMs (setRelay RELAY4 false (delay delayMs (setRelay RELAY4 true c))))

/-- The call `s.trim()`: white space is cut off at both ends. -/
def trim (s : List Char) : List Char :=
  ((s.dropWhile isSpace).reverse.dropWhile isSpace).reverse

/-- The automation of `loop` (lines 1889-1908) on the trimmed line `msg`. -/
def automation (c : Controller) (msg : List Char) : Controller :=
  if c.autoMode && startsWith msg "ALERT:".toList then
    let c :=
      if msg = "ALERT:GAS_LEAK".toList then
        notifyTelegram "GAS Leak detected! Exhaust Fan ON" (setRelay RELAY1 true c)
      else if msg = "ALERT:TEMP_HIGH".toList then
        notifyTelegram "High Temperature detected! Cooling Fan ON" (setRelay RELAY3 true c)
      else if msg = "ALERT:MOTION_PIR".toList ∨ msg = "ALERT:PRESENCE_DETECTED".toList then
        notifyTelegram "Motion Detected! Lights ON" (setRelay RELAY2 true c)
      else if msg = "ALERT:SOUND_EVENT".toList ∨ msg = "ALERT:IR_TRIGGERED".toList then
        notifyTelegram "Sound/IR Triggered! Alarm Blinking" (blinkBuzzer 3 200 c)
      else c
    let c := saveRelayStates c
    let c := delay 2000 c
    let c := setRelay RELAY1 false c
    let c := setRelay RELAY2 false c
    let c := setRelay RELAY3 false c
    let c := setRelay RELAY4 false c
    saveRelayStates c
  else c

/-- The body of `if (client)` in `loop` (lines 1871-1908): one received line is
read, trimmed, dispatched on its prefix, logged and handed to the automation;
`now` is the value of `millis()`. -/
def handleMessage (c : Controller) (now : Nat) (raw : List Char) : Controller :=
  let msg := trim raw
  let c :=
    if startsWith msg "DATA:".toList then
      { c with
        hub := { parseSensorData c.hub msg now with isOnline := true, lastSensorUpdate := now }
        esp8266_connected := true }
    else if startsWith msg "INFO:ESP8266_IP=".toList then
      let c := { c with esp8266_actual_ip := substringFrom msg 15 }
      logEvent c now ("ESP8266 IP: ".toList ++ c.esp8266_actual_ip)
    else if startsWith msg "PONG:".toList then
      { c with
        esp8266_connected := true
        hub := { c.hub with lastSensorUpdate := now } }
    else c
  let c := logEvent c now ("From ESP8266: ".toList ++ msg)
  automation c msg

/-- One iteration of `loop` with the reset button released: the timeout check
(lines 1863-1866), then the received line if there is one; `now` is the value
of `millis()` in this iteration.  The web requests are served by the handlers
below, as steps of their own. -/
def loopStep (c : Controller) (now : Nat) (line : Option (List Char)) : Controller :=
  let c :=
    if (now + 2 ^ 32 - c.hub.lastSensorUpdate) % 2 ^ 32 > SENSOR_TIMEOUT then
      { c with hub := { c.hub with isOnline := false }, esp8266_connected := false }
    else c
  match line with
  | some raw => handleMessage c now raw
  | none => c

/-- A run of `loop`: the iterations in order, each with its clock value and the
line received in it, if any. -/
def runLoop (c : Controller) (steps : List (Nat × Option (List Char))) : Controller :=
  steps.foldl (fun c p => loopStep c p.1 p.2) c

/-- The pin that the toggle handlers pick for relay number `n`. -/
def pinOfRelay (n : Nat) : Nat :=
  if n = 1 then RELAY1 else if n = 2 then RELAY2 else if n = 3 then RELAY3 else RELAY4

/-- The handler `handleApiRelayToggle()` for the request path `uri`; the
result holds the HTTP status of the answer. -/
def handleApiRelayToggle (c : Controller) (now : Nat) (uri : List Char) : Controller × Nat :=
  let relayNumber : Nat :=
    if (indexOf uri "/api/relay/1/toggle".toList).isSome then 1
    else if (indexOf uri "/api/relay/2/toggle".toList).isSome then 2
    else if (indexOf uri "/api/relay/3/toggle".toList).isSome then 3
    else if (indexOf uri "/api/relay/4/toggle".toList).isSome then 4
    else 0
  if relayNumber > 0 && !c.autoMode then
    let pin := pinOfRelay relayNumber
    let newState := !getRelayState c pin
    let c := setRelay pin newState c
    let c := saveRelayStates c
    let c := logEvent c now
      ("Relay ".toList ++ (Nat.repr relayNumber).toList ++ " toggled via API".toList)
    (c, 200)
  else (c, 400)

/-- The handlers `handleApiModeToggle()` and `handleToggleMode()`: both flip
the mode, store it and answer 200. -/
def handleToggleMode (c : Controller) (now : Nat) : Controller × Nat :=
  let c := { c with autoMode := !c.autoMode }
  let e := eepromWrite c.eeprom ADDR_MODE (byteOfBool c.autoMode)
  let c := { c with
    eeprom := e
    effects := c.effects ++ [Effect.commit ((List.range 8).map (eepromRead e))] }
  let c := logEvent c now
    ("Mode changed to ".toList ++ (if c.autoMode then "Auto".toList else "Manual".toList))
  (c, 200)

/-- The handler `handleApiAllOn()`. -/
def handleApiAllOn (c : Controller) (now : Nat) : Controller × Nat :=
  let c :=
    if !c.autoMode then
      let c := setRelay RELAY1 true c
      let c := setRelay RELAY2 true c
      let c := setRelay RELAY3 true c
      let c := setRelay RELAY4 true c
      let c := saveRelayStates c
      logEvent c now "All relays turned ON via API".toList
    else c
  (c, 200)

/-- The handler `handleApiAllOff()`. -/
def handleApiAllOff (c : Controller) (now : Nat) : Controller × Nat :=
  let c :=
    if !c.autoMode then
      let c := setRelay RELAY1 false c
      let c := setRelay RELAY2 false c
      let c := setRelay RELAY3 false c
      let c := setRelay RELAY4 false c
      let c := saveRelayStates c
      logEvent c now "All relays turned OFF via API".toList
    else c
  (c, 200)

/-- The handler `handleRelay(n)` of the pages `/relay1` to `/relay4`. -/
def handleRelay (n : Nat) (c : Controller) (now : Nat) : Controller × Nat :=
  let c :=
    if !c.autoMode then
      let pin := pinOfRelay n
      let c := setRelay pin (!getRelayState c pin) c
      let c := saveRelayStates c
      logEvent c now ("Relay ".toList ++ (Nat.repr n).toList ++ " toggled manually".toList)
    else c
  (c, 200)

/-- The handler `handleAllOn()` of the page `/allon`. -/
def handleAllOn (c : Controller) (now : Nat) : Controller × Nat :=
  let c :=
    if !c.autoMode then
      let c := setRelay RELAY1 true c
      let c := setRelay RELAY2 true c
      let c := setRelay RELAY3 true c
      let c := setRelay RELAY4 true c
      let c := saveRelayStates c
      logEvent c now "All relays turned ON".toList
    else c
  (c, 200)

/-- The handler `handleAllOff()` of the page `/alloff`. -/
def handleAllOff (c : Controller) (now : Nat) : Controller × Nat :=
  let c :=
    if !c.autoMode then
      let c := setRelay RELAY1 false c
      let c := setRelay RELAY2 false c
      let c := setRelay RELAY3 false c
      let c := setRelay RELAY4 false c
      let c := saveRelayStates c
      logEvent c now "All relays turned OFF".toList
    else c
  (c, 200)

/-- A store as `saveRelayStates` leaves it with the four relays off, the
automatic mode and the thresholds 40, 350 and 80 (the byte of 350 is 94). -/
def savedDefaults : Nat → Nat :=
  fun a => if a = 4 then 1 else if a = 5 then 40 else if a = 6 then 94
    else if a = 7 then 80 else 0

/-- The hub after `setup()` on the store `stored`: the globals have their
initial values and `loadRelayStates` has set the relays, the mode and the
thresholds from the store. -/
def Controller.boot (stored : Nat → Nat) : Controller :=
  loadRelayStates { eeprom := stored }

/-- Feeding a tracker with a sequence of samples that are numbers. -/
def feedSamples (st : SensorStats) (xs : List ℚ) : SensorStats :=
  xs.foldl (fun st x => updateStats st (Flt.fin x)) st

/-- A sequence of calls of `parseSensorData`, each with its line and its value
of `millis()`. -/
def Hub.run (s : Hub) (inputs : List (List Char × Nat)) : Hub :=
  inputs.foldl (fun s i => parseSensorData s i.1 i.2) s

/-- The line received in a loop iteration is a `DATA:` line. -/
def isDataStep (p : Nat × Option (List Char)) : Bool :=
  match p.2 with
  | some raw => startsWith (trim raw) "DATA:".toList
  | none => false

/-- The line received in a loop iteration is a `PONG:` line. -/
def isPongStep (p : Nat × Option (List Char)) : Bool :=
  match p.2 with
  | some raw => startsWith (trim raw) "PONG:".toList
  | none => false

/-- The alert lines that the automation maps to an actuation. -/
def mappedAlerts : List (List Char) :=
  ["ALERT:GAS_LEAK".toList, "ALERT:TEMP_HIGH".toList, "ALERT:MOTION_PIR".toList,
   "ALERT:PRESENCE_DETECTED".toList, "ALERT:SOUND_EVENT".toList, "ALERT:IR_TRIGGERED".toList]

/-- The clock of the last iteration of a run, 0 for the empty run. -/
def lastClock (steps : List (Nat × Option (List Char))) : Nat :=
  (steps.reverse.head?.map Prod.fst).getD 0

/-- The iterations of a run come with clock values that do not go back. -/
def clockOrdered (steps : List (Nat × Option (List Char))) : Prop :=
  steps.Pairwise (fun p q => p.1 ≤ q.1)

instance (steps : List (Nat × Option (List Char))) : Decidable (clockOrdered steps) := by
  unfold clockOrdered; infer_instance

/-- What follows the actuation in the automation (lines 1903-1907) when the
relays are then in the states `r1` to `r4`: these states are stored together
with the mode and the thresholds, one dwell of 2000 ms passes, the four relays
are switched off and the all-off state is stored. -/
def dwellAndRevert (c : Controller) (r1 r2 r3 r4 : Bool) : List Effect :=
  [Effect.commit [byteOfBool r1, byteOfBool r2, byteOfBool r3, byteOfBool r4,
      byteOfBool c.autoMode, byteOfInt c.hub.TEMP_THRESHOLD, byteOfInt c.hub.GAS_THRESHOLD,
      byteOfInt c.hub.SOUND_THRESHOLD],
    Effect.delay 2000, Effect.relay RELAY1 false, Effect.relay RELAY2 false,
    Effect.relay RELAY3 false, Effect.relay RELAY4 false,
    Effect.commit [byteOfBool false, byteOfBool false, byteOfBool false, byteOfBool false,
      byteOfBool c.autoMode, byteOfInt c.hub.TEMP_THRESHOLD, byteOfInt c.hub.GAS_THRESHOLD,
      byteOfInt c.hub.SOUND_THRESHOLD]]

/-- The state of relay number `n` as the toggle handlers read it. -/
def relayState (c : Controller) (n : Nat) : Bool := getRelayState c (pinOfRelay n)

/-- The request path of the toggle of relay number `n`. -/
def toggleUri (n : Nat) : List Char :=
  "/api/relay/".toList ++ (Nat.repr n).toList ++ "/toggle".toList

/-- All four derived fields of a tracker are undefined (NaN). -/
def SensorStats.allUndefined (st : SensorStats) : Prop :=
  st.current.isnan = true ∧ st.average.isnan = true ∧ st.maximum.isnan = true
    ∧ st.minimum.isnan = true

/-- All four derived fields of a tracker are defined (not NaN). -/
def SensorStats.allDefined (st : SensorStats) : Prop :=
  st.current.isnan = false ∧ st.average.isnan = false ∧ st.maximum.isnan = false
    ∧ st.minimum.isnan = false

/-- The invariant of the specification on a tracker: undefined without a
sample, defined with one. -/
def SensorStats.definedIffSampled (st : SensorStats) : Prop :=
  (st.count = 0 → st.allUndefined) ∧ (0 < st.count → st.allDefined)

instance (st : SensorStats) : Decidable st.definedIffSampled := by
  unfold SensorStats.definedIffSampled SensorStats.allUndefined SensorStats.allDefined
  infer_instance

/-- A tracker that has seen numbers only: the count is not negative, the sum
is a number, and the four derived fields are NaN without a sample and numbers
with one. -/
def SensorStats.numeric (st : SensorStats) : Prop :=
  0 ≤ st.count ∧ (∃ q, st.sum = Flt.fin q) ∧ (st.count = 0 → st.allUndefined)
    ∧ (0 < st.count → (∃ q, st.current = Flt.fin q) ∧ (∃ q, st.average = Flt.fin q)
        ∧ (∃ q, st.maximum = Flt.fin q) ∧ (∃ q, st.minimum = Flt.fin q))

/-- A tracker whose count is not negative and whose derived fields are NaN
without a sample. -/
def SensorStats.startsUndefined (st : SensorStats) : Prop :=
  0 ≤ st.count ∧ (st.count = 0 → st.allUndefined)

/-- A tracker that has seen neither NaN nor the infinity `bad`: the count is
not negative, the sum is neither NaN nor `bad`, and the four derived fields are
NaN without a sample and not NaN with one. -/
def SensorStats.oneSided (bad : Flt) (st : SensorStats) : Prop :=
  0 ≤ st.count ∧ st.sum.isnan = false ∧ st.sum ≠ bad ∧ (st.count = 0 → st.allUndefined)
    ∧ (0 < st.count → st.allDefined)

/-- From `old` to `new` the maximum does not decrease and the minimum does not
increase. -/
def neverLowers (old new : SensorStats) : Prop :=
  Flt.lt new.maximum old.maximum = false ∧ Flt.lt old.minimum new.minimum = false

/-- The block of a comma-terminated key stores a value from the line: the line
starts with `DATA:`, the key is found and a comma is found behind it. -/
def accepted (line key : List Char) (n : Nat) : Bool :=
  startsWith line "DATA:".toList && (commaText (substringFrom line 5) key n).isSome

/-- The `DIST=` block stores a value from the line: the line starts with
`DATA:` and the key is found. -/
def acceptedTail (line key : List Char) (n : Nat) : Bool :=
  startsWith line "DATA:".toList && (tailText (substringFrom line 5) key n).isSome

/-! ## Decimal texts and the settings of the hub -/

/-- The conversion `String(v)` of an `int`, a `long` or an `unsigned long`:
the decimal digits of the value, behind a minus sign when it is negative. -/
def decimal (v : Int) : List Char :=
  if v < 0 then '-' :: Nat.toDigits 10 v.natAbs else Nat.toDigits 10 v.natAbs

/-- The line that `handleApiSettings` builds for the sensor node (line 550). -/
def thresholdsLine (t g s : Int) : List Char :=
  "THRESHOLDS:TEMP=".toList ++ decimal t ++ ",GAS=".toList ++ decimal g
    ++ ",SOUND=".toList ++ decimal s

/-- The handler `handleApiSettings()`.  `body` is `none` when the request has
no argument `plain`; otherwise it holds, for the keys `tempThreshold`,
`gasThreshold` and `soundThreshold` of the parsed document, the `int` that the
document gives (`none`: the key is absent).  `connected` is the test
`client && client.connected()`.  The result holds the state, the HTTP status
and the line sent to the sensor node, if one is sent. -/
def handleApiSettings (c : Controller) (now : Nat)
    (body : Option (Option Int × Option Int × Option Int)) (connected : Bool) :
    Controller × Nat × Option (List Char) :=
  match body with
  | some (temp, gas, sound) =>
    let h := c.hub
    let h := match temp with
      | some v => { h with TEMP_THRESHOLD := v }
      | none => h
    let h := match gas with
      | some v => { h with GAS_THRESHOLD := v }
      | none => h
    let h := match sound with
      | some v => { h with SOUND_THRESHOLD := v }
      | none => h
    let e := eepromWrite c.eeprom ADDR_THRESH_TEMP (byteOfInt h.TEMP_THRESHOLD)
    let e := eepromWrite e ADDR_THRESH_GAS (byteOfInt h.GAS_THRESHOLD)
    let e := eepromWrite e ADDR_THRESH_SOUND (byteOfInt h.SOUND_THRESHOLD)
    let c := { c with
      hub := h
      eeprom := e
      effects := c.effects ++ [Effect.commit ((List.range 8).map (eepromRead e))] }
    let c := logEvent c now "Settings updated via API".toList
    (c, 200,
      if connected then
        some (thresholdsLine c.hub.TEMP_THRESHOLD c.hub.GAS_THRESHOLD c.hub.SOUND_THRESHOLD)
      else none)
  | none => (c, 400, none)

/-- Address of the first byte of the peer address in the store. -/
def ADDR_ESP8266_IP : Nat := 10

/-- Address of the two bytes of the peer port in the store. -/
def ADDR_ESP8266_PORT : Nat := 30

/-- Address of the length of the peer address in the store. -/
def ADDR_ESP8266_IP_LEN : Nat := 40

/-- The globals `esp8266_ip` and `esp8266_port` with their initial values; a
character stands for one byte of the `String`. -/
structure PeerSettings where
  esp8266_ip : List Char := "192.168.4.1".toList
  esp8266_port : Nat := 8080
  deriving DecidableEq

/-- The function `saveESP8266Settings()` on the store `e`: the length, the
bytes of the address, then the two bytes of the port. -/
def saveESP8266Settings (p : PeerSettings) (e : Nat → Nat) : Nat → Nat :=
  let e := eepromWrite e ADDR_ESP8266_IP_LEN p.esp8266_ip.length
  let e := (List.range p.esp8266_ip.length).foldl
    (fun e i => eepromWrite e (ADDR_ESP8266_IP + i) (p.esp8266_ip.getD i ' ').toNat) e
  let e := eepromWrite e ADDR_ESP8266_PORT (p.esp8266_port % 256)
  eepromWrite e (ADDR_ESP8266_PORT + 1) (p.esp8266_port / 256 % 256)

/-- The function `loadESP8266Settings()` on the store `e`: the settings read,
and the store, which is written when the defaults are taken. -/
def loadESP8266Settings (e : Nat → Nat) : PeerSettings × (Nat → Nat) :=
  let ipLen := eepromRead e ADDR_ESP8266_IP_LEN
  let ip := (List.range ipLen).foldl
    (fun s i => s ++ [Char.ofNat (eepromRead e (ADDR_ESP8266_IP + i))]) []
  let port := (eepromRead e ADDR_ESP8266_PORT + eepromRead e (ADDR_ESP8266_PORT + 1) * 256)
    % 65536
  if ip.length = 0 ∨ port = 0 then
    ({ esp8266_ip := "192.168.4.1".toList, esp8266_port := 8080 },
      saveESP8266Settings { esp8266_ip := "192.168.4.1".toList, esp8266_port := 8080 } e)
  else ({ esp8266_ip := ip, esp8266_port := port }, e)

/-- The handler `handleApiESP8266Config()`: `post` tells a POST request,
`ipArg` and `portArg` are the request arguments `ip` and `port`.  The result
holds the settings, the store and the HTTP status. -/
def handleApiESP8266Config (p : PeerSettings) (e : Nat → Nat) (post : Bool)
    (ipArg portArg : List Char) : PeerSettings × (Nat → Nat) × Nat :=
  if post then
    let newIP := ipArg
    let newPort := toInt portArg
    if newIP.length > 0 ∧ newPort > 0 then
      let p := { p with esp8266_ip := newIP, esp8266_port := newPort.toNat % 65536 }
      (p, saveESP8266Settings p e, 200)
    else (p, e, 400)
  else (p, e, 200)

/-- A sequence of calls of `logEvent`, each with its value of `millis()` and
its message. -/
def logAll (c : Controller) (calls : List (Nat × List Char)) : Controller :=
  calls.foldl (fun c p => logEvent c p.1 p.2) c

/-! ## The history buffers and the chart -/

/-- Number of slots of a history buffer. -/
def HISTORY_SIZE : Nat := 100

/-- The struct `SensorHistoryEntry`; the values are those of a global that is
not initialised otherwise. -/
structure SensorHistoryEntry where
  value : Flt := Flt.fin 0
  timestamp : Nat := 0
  deriving DecidableEq

/-- The five history buffers and their write indices. -/
structure Histories where
  tempHistory : Nat → SensorHistoryEntry := fun _ => {}
  gasHistory : Nat → SensorHistoryEntry := fun _ => {}
  soundHistory : Nat → SensorHistoryEntry := fun _ => {}
  lightHistory : Nat → SensorHistoryEntry := fun _ => {}
  distHistory : Nat → SensorHistoryEntry := fun _ => {}
  tempHistIdx : Nat := 0
  gasHistIdx : Nat := 0
  soundHistIdx : Nat := 0
  lightHistIdx : Nat := 0
  distHistIdx : Nat := 0

/-- The loop of `handleApiChart` over a buffer (lines 590-596).  An emitted
entry stands for the label `String(timestamp)` and the value that the loop adds
to the two arrays of the answer; the capacity of the JSON document is not
modelled. -/
def chartLoop (hist : Nat → SensorHistoryEntry) (idx : Nat) : List SensorHistoryEntry :=
  (List.range HISTORY_SIZE).foldl
    (fun out i =>
      let realIdx := (idx + i) % HISTORY_SIZE
      if !(hist realIdx).value.isnan && decide ((hist realIdx).timestamp > 0)
      then out ++ [hist realIdx] else out) []

/-- The handler `handleApiChart()` for the request path `uri`: the entries
that it emits. -/
def handleApiChart (h : Histories) (uri : List Char) : List SensorHistoryEntry :=
  let sensorType : List Char :=
    if (indexOf uri "/temperature".toList).isSome then "temperature".toList
    else if (indexOf uri "/gas".toList).isSome then "gas".toList
    else if (indexOf uri "/light".toList).isSome then "light".toList
    else if (indexOf uri "/sound".toList).isSome then "sound".toList
    else if (indexOf uri "/distance".toList).isSome then "distance".toList
    else []
  if sensorType = "temperature".toList then chartLoop h.tempHistory h.tempHistIdx
  else if sensorType = "gas".toList then chartLoop h.gasHistory h.gasHistIdx
  else if sensorType = "light".toList then chartLoop h.lightHistory h.lightHistIdx
  else if sensorType = "sound".toList then chartLoop h.soundHistory h.soundHistIdx
  else if sensorType = "distance".toList then chartLoop h.distHistory h.distHistIdx
  else []

/-- The slots that the loop of `handleApiChart` visits, in order. -/
def chartSlots (idx : Nat) : List Nat :=
  (List.range HISTORY_SIZE).map (fun i => (idx + i) % HISTORY_SIZE)

/-- The test of the loop of `handleApiChart` on an entry. -/
def chartShows (e : SensorHistoryEntry) : Bool :=
  !e.value.isnan && decide (e.timestamp > 0)

/-- Modelled from the spec: the write of one entry to a history buffer.  The
source declares the buffers and their write indices and reads them in
`handleApiChart`, but holds no statement that writes them.  The specification
says of the buffer: fixed-capacity circular buffer of (value, timestamp)
pairs, capacity = 100; the write index wraps modulo capacity; the oldest slot
is the one at the current write index.  So a write stores the entry at the
write index and advances the index by one modulo the capacity. -/
def historyWrite (b : (Nat → SensorHistoryEntry) × Nat) (e : SensorHistoryEntry) :
    (Nat → SensorHistoryEntry) × Nat :=
  (fun j => if j = b.2 then e else b.1 j, (b.2 + 1) % HISTORY_SIZE)

/-- A buffer as it is at start-up, with the write index 0, after the writes of
the entries `xs` in order. -/
def historyAfter (xs : List SensorHistoryEntry) : (Nat → SensorHistoryEntry) × Nat :=
  xs.foldl historyWrite (fun _ => {}, 0)

/-! ## The sensor node -/

/-- The threshold globals of the sensor node with their initial values (lines
55-59 of `src/main.cpp`); `HIGH` is 1. -/
structure Node where
  TEMP_THRESHOLD : Flt := Flt.fin 40
  GAS_THRESHOLD : Int := 350
  SOUND_TRIGGER : Int := 1
  PRESENCE_DISTANCE_CM : Int := 100
  LIGHT_THRESHOLD : Int := 500
  deriving DecidableEq

/-- The text that a threshold block of the sensor node converts (lines
145-148): from `start` up to the next comma, or up to the end of the line when
no comma follows. -/
def valueText (reply : List Char) (start : Nat) : List Char :=
  substring reply start ((indexOfFrom reply ",".toList start).getD reply.length)

/-- The handling of a received line in `loop` of the sensor node (lines
134-173): the new thresholds and the lines sent back. -/
def Node.handleReply (n : Node) (raw : List Char) : Node × List (List Char) :=
  let reply := trim raw
  if startsWith reply "THRESHOLDS:".toList then
    let n := match indexOf reply "TEMP=".toList with
      | some i =>
        { n with TEMP_THRESHOLD := Flt.toFloat32 (toFloat (valueText reply (i + 5))) }
      | none => n
    let n := match indexOf reply "GAS=".toList with
      | some i => { n with GAS_THRESHOLD := toInt (valueText reply (i + 4)) }
      | none => n
    let n := match indexOf reply "SOUND=".toList with
      | some i => { n with SOUND_TRIGGER := toInt (valueText reply (i + 6)) }
      | none => n
    (n, [])
  else if startsWith reply "CONFIG:".toList then (n, [])
  else if startsWith reply "PING".toList then (n, ["PONG:ESP8266".toList])
  else (n, [])

/-- The seven values that `readAndSendSensorData` reads from the sensors. -/
structure Sample where
  temp : Flt
  gas : Int
  sound : Int
  pir : Int
  ir : Int
  light : Int
  dist : Int
  deriving DecidableEq

/-- The function `readAndSendSensorData()` of the sensor node on the sample
`x`: the lines that it sends, in order.  `floatText` is the library conversion
`String(temp)` of a `float`; `HIGH` is 1 and `LOW` is 0. -/
def readAndSendSensorData (n : Node) (floatText : Flt → List Char) (x : Sample) :
    List (List Char) :=
  let out : List (List Char) := []
  let out := if Flt.lt n.TEMP_THRESHOLD x.temp then out ++ ["ALERT:TEMP_HIGH".toList] else out
  let out := if x.gas > n.GAS_THRESHOLD then out ++ ["ALERT:GAS_LEAK".toList] else out
  let out := if x.sound = n.SOUND_TRIGGER then out ++ ["ALERT:SOUND_EVENT".toList] else out
  let out := if x.pir = 1 then out ++ ["ALERT:MOTION_PIR".toList] else out
  let out := if x.ir = 0 then out ++ ["ALERT:IR_TRIGGERED".toList] else out
  let out := if x.dist > 0 ∧ x.dist < n.PRESENCE_DISTANCE_CM
    then out ++ ["ALERT:PRESENCE_DETECTED".toList] else out
  let out := if x.light < n.LIGHT_THRESHOLD then out ++ ["ALERT:ROOM_DARK".toList] else out
  out ++ [dataLine (floatText x.temp) (decimal x.gas) (decimal x.sound) (decimal x.pir)
    (decimal x.ir) (decimal x.light) (decimal x.dist)]

/-- The rules of the specification for the lines of one sample: each alert
line with its condition, in the order in which they are sent. -/
def nodeAlertRules (n : Node) (x : Sample) : List (List Char × Bool) :=
  [ ("ALERT:TEMP_HIGH".toList, Flt.lt n.TEMP_THRESHOLD x.temp),
    ("ALERT:GAS_LEAK".toList, decide (x.gas > n.GAS_THRESHOLD)),
    ("ALERT:SOUND_EVENT".toList, decide (x.sound = n.SOUND_TRIGGER)),
    ("ALERT:MOTION_PIR".toList, decide (x.pir = 1)),
    ("ALERT:IR_TRIGGERED".toList, decide (x.ir = 0)),
    ("ALERT:PRESENCE_DETECTED".toList, decide (0 < x.dist ∧ x.dist < n.PRESENCE_DISTANCE_CM)),
    ("ALERT:ROOM_DARK".toList, decide (x.light < n.LIGHT_THRESHOLD)) ]

/-- What happens in an iteration of `loop` of the sensor node: a sample is
taken and sent, or a line of the hub is handled. -/
inductive NodeEvent where
  | sample (x : Sample)
  | reply (raw : List Char)

/-- One event of the sensor node: the new thresholds and the lines sent. -/
def Node.step (floatText : Flt → List Char) (n : Node) (ev : NodeEvent) :
    Node × List (List Char) :=
  match ev with
  | NodeEvent.sample x => (n, readAndSendSensorData n floatText x)
  | NodeEvent.reply raw => n.handleReply raw

/-- A run of the sensor node: the thresholds at its end and all lines sent. -/
def Node.run (floatText : Flt → List Char) (n : Node) (events : List NodeEvent) :
    Node × List (List Char) :=
  events.foldl
    (fun st ev => ((Node.step floatText st.1 ev).1, st.2 ++ (Node.step floatText st.1 ev).2))
    (n, [])

/-- The value of `SOUND_TRIGGER` that a line of the hub sets, if it sets one. -/
def soundOfReply (raw : List Char) : Option Int :=
  if startsWith (trim raw) "THRESHOLDS:".toList then
    (indexOf (trim raw) "SOUND=".toList).map (fun i => toInt (valueText (trim raw) (i + 6)))
  else none

/-- The text that a threshold block of the sensor node converts for a key of
length `k`, if the key occurs in the line. -/
def nodeText (reply key : List Char) (k : Nat) : Option (List Char) :=
  (indexOf reply key).map (fun i => valueText reply (i + k))

/-- A value of the type `long` (32 bits on both boards). -/
def isLong (v : Int) : Prop := LONG_MIN ≤ v ∧ v ≤ LONG_MAX

instance (v : Int) : Decidable (isLong v) := by
  unfold isLong; infer_instance

/-- An event of the sensor node that cannot set the sound trigger to 0 or 1:
a sample whose digital sound reading is 0 or 1, or a line of the hub that sets
no sound trigger or another one. -/
def quietEvent (ev : NodeEvent) : Bool :=
  match ev with
  | NodeEvent.sample x => decide (x.sound = 0 ∨ x.sound = 1)
  | NodeEvent.reply raw => decide (soundOfReply raw ≠ some 0 ∧ soundOfReply raw ≠ some 1)

/-! ## The seven blocks of the parser -/

theorem fieldTEMP_eq (data : List Char) (s : Hub) :
    fieldTEMP data s = setTEMP (commaText data "TEMP=".toList 5) s := by
  unfold fieldTEMP commaText setTEMP
  cases indexOf data "TEMP=".toList with
  | none => rfl
  | some i =>
    dsimp only
    cases indexOfFrom data ",".toList i <;> rfl

theorem fieldGAS_eq (data : List Char) (s : Hub) :
    fieldGAS data s = setGAS (commaText data "GAS=".toList 4) s := by
  unfold fieldGAS commaText setGAS
  cases indexOf data "GAS=".toList with
  | none => rfl
  | some i =>
    dsimp only
    cases indexOfFrom data ",".toList i <;> rfl

theorem fieldSOUND_eq (data : List Char) (s : Hub) :
    fieldSOUND data s = setSOUND (commaText data "SOUND=".toList 6) s := by
  unfold fieldSOUND commaText setSOUND
  cases indexOf data "SOUND=".toList with
  | none => rfl
  | some i =>
    dsimp only
    cases indexOfFrom data ",".toList i <;> rfl

theorem fieldPIR_eq (data : List Char) (s : Hub) :
    fieldPIR data s = setPIR (commaText data "PIR=".toList 4) s := by
  unfold fieldPIR commaText setPIR
  cases indexOf data "PIR=".toList with
  | none => rfl
  | some i =>
    dsimp only
    cases indexOfFrom data ",".toList i <;> rfl

theorem fieldIR_eq (data : List Char) (s : Hub) :
    fieldIR data s = setIR (commaText data "IR=".toList 3) s := by
  unfold fieldIR commaText setIR
  cases indexOf data "IR=".toList with
  | none => rfl
  | some i =>
    dsimp only
    cases indexOfFrom data ",".toList i <;> rfl

theorem fieldLIGHT_eq (data : List Char) (s : Hub) :
    fieldLIGHT data s = setLIGHT (commaText data "LIGHT=".toList 6) s := by
  unfold fieldLIGHT commaText setLIGHT
  cases indexOf data "LIGHT=".toList with
  | none => rfl
  | some i =>
    dsimp only
    cases indexOfFrom data ",".toList i <;> rfl

theorem fieldDIST_eq (data : List Char) (s : Hub) :
    fieldDIST data s = setDIST (tailText data "DIST=".toList 5) s := by
  unfold fieldDIST tailText setDIST
  cases indexOf data "DIST=".toList <;> rfl

/-- Closed form of the parse of a `DATA:` line. -/
theorem parseFields_eq (s : Hub) (line : List Char) (now : Nat) :
    parseFields s line now =
      applyTexts s
        (commaText (substringFrom line 5) "TEMP=".toList 5)
        (commaText (substringFrom line 5) "GAS=".toList 4)
        (commaText (substringFrom line 5) "SOUND=".toList 6)
        (commaText (substringFrom line 5) "PIR=".toList 4)
        (commaText (substringFrom line 5) "IR=".toList 3)
        (commaText (substringFrom line 5) "LIGHT=".toList 6)
        (tailText (substringFrom line 5) "DIST=".toList 5) now := by
  unfold parseFields
  simp only [fieldTEMP_eq, fieldGAS_eq, fieldSOUND_eq, fieldPIR_eq, fieldIR_eq,
    fieldLIGHT_eq, fieldDIST_eq]
  generalize commaText (substringFrom line 5) "TEMP=".toList 5 = tT
  generalize commaText (substringFrom line 5) "GAS=".toList 4 = tG
  generalize commaText (substringFrom line 5) "SOUND=".toList 6 = tS
  generalize commaText (substringFrom line 5) "PIR=".toList 4 = tP
  generalize commaText (substringFrom line 5) "IR=".toList 3 = tI
  generalize commaText (substringFrom line 5) "LIGHT=".toList 6 = tL
  generalize tailText (substringFrom line 5) "DIST=".toList 5 = tD
  cases tT <;> cases tG <;> cases tS <;> cases tP <;> cases tI <;> cases tL <;> cases tD <;> rfl

/-! ## The alert list -/

/-- The pushes of the source build the list of the rules. -/
theorem rebuildAlerts_eq_rules (d : SensorData) (t g sd : Int) :
    rebuildAlerts d t g sd = alertsOfRules d t g sd := by
  unfold rebuildAlerts alertsOfRules alertRules
  cases Flt.lt (Flt.ofInt t) d.temperature <;> cases d.motionDetected <;>
    cases d.irTriggered <;> by_cases h2 : g < d.gasLevel <;> by_cases h3 : d.soundLevel = sd <;>
    by_cases h6 : (0 < d.distance ∧ d.distance < 200) <;> by_cases h7 : d.lightLevel < 100 <;>
    simp [h2, h3, h6, h7]

/-- The thresholds are not written by the parse of a `DATA:` line. -/
theorem parseFields_thresholds (s : Hub) (line : List Char) (now : Nat) :
    (parseFields s line now).TEMP_THRESHOLD = s.TEMP_THRESHOLD ∧
    (parseFields s line now).GAS_THRESHOLD = s.GAS_THRESHOLD ∧
    (parseFields s line now).SOUND_THRESHOLD = s.SOUND_THRESHOLD := by
  rw [parseFields_eq]
  exact ⟨rfl, rfl, rfl⟩

/-- The alert list after `parseSensorData` is the rebuilt one, on the reading
after the parse and the thresholds before it. -/
theorem parseSensorData_alerts (s : Hub) (line : List Char) (now : Nat) :
    (parseSensorData s line now).activeAlerts =
      rebuildAlerts (parseSensorData s line now).sensorData
        s.TEMP_THRESHOLD s.GAS_THRESHOLD s.SOUND_THRESHOLD := by
  unfold parseSensorData
  by_cases h : startsWith line "DATA:".toList = true
  · simp only [h, if_true]
    obtain ⟨h1, h2, h3⟩ := parseFields_thresholds s line now
    rw [h1, h2, h3]
  · simp only [h]
    rfl

/-- Membership in the list of the rules. -/
theorem mem_alertsOfRules (d : SensorData) (t g sd : Int) (k : String) :
    k ∈ alertsOfRules d t g sd ↔ (k, true) ∈ alertRules d t g sd := by
  unfold alertsOfRules
  simp only [List.mem_map, List.mem_filter]
  constructor
  · rintro ⟨⟨k', b⟩, ⟨hm, hb⟩, rfl⟩
    simp only at hb
    subst hb
    exact hm
  · intro h
    exact ⟨(k, true), ⟨h, rfl⟩, rfl⟩

/-- The old alert list has no influence on the result of `parseSensorData`. -/
theorem parseSensorData_forgets_alerts (s : Hub) (line : List Char) (now : Nat)
    (old : List String) :
    parseSensorData { s with activeAlerts := old } line now = parseSensorData s line now := by
  unfold parseSensorData
  by_cases h : startsWith line "DATA:".toList = true
  · simp only [h, if_true, parseFields_eq]
    rfl
  · simp only [h]
    rfl

theorem isPrefixOf_eq_true (p l : List Char) : p.isPrefixOf l = true ↔ p <+: l :=
  List.isPrefixOf_iff_prefix

theorem strstr_eq_none (pat l : List Char) : strstr pat l = none ↔ ¬ pat <:+: l := by
  induction l with
  | nil =>
    cases pat <;> simp [strstr]
  | cons c cs ih =>
    rw [strstr, List.infix_cons_iff]
    by_cases h : pat.isPrefixOf (c :: cs) = true
    · simp [h, (isPrefixOf_eq_true _ _).1 h]
    · have h' : ¬ pat <+: c :: cs := fun hp => h ((isPrefixOf_eq_true _ _).2 hp)
      simp [h, h', ih]

theorem strstr_eq_some (pat l : List Char) (n : Nat) (h : strstr pat l = some n) :
    pat <+: l.drop n := by
  induction l generalizing n with
  | nil =>
    cases pat <;> simp [strstr] at h
    subst h; simp
  | cons c cs ih =>
    rw [strstr] at h
    by_cases hp : pat.isPrefixOf (c :: cs) = true
    · simp [hp] at h
      subst h
      simpa using (isPrefixOf_eq_true _ _).1 hp
    · simp [hp] at h
      obtain ⟨m, hm, rfl⟩ := h
      simpa using ih m hm

theorem substringFrom_eq_drop (s : List Char) (n : Nat) : substringFrom s n = s.drop n := by
  unfold substringFrom substring
  by_cases h : n > s.length
  · simp [h, List.drop_eq_nil_of_le (Nat.le_of_lt h)]
  · simp only [h, if_false]
    by_cases h2 : n ≥ s.length
    · simp [h2, List.drop_eq_nil_of_le h2]
    · simp [h2]

theorem indexOf_eq_none (data key : List Char) (h : ¬ key <:+: data) :
    indexOf data key = none := by
  unfold indexOf indexOfFrom
  split
  · rfl
  · simp [(strstr_eq_none key data).2 h]

theorem indexOf_eq_some (data key : List Char) (i : Nat) (h : indexOf data key = some i) :
    key <+: data.drop i := by
  unfold indexOf indexOfFrom at h
  split at h
  · simp at h
  · simp at h
    exact strstr_eq_some _ _ _ h

theorem indexOfFrom_comma_eq_none (data : List Char) (i : Nat) (h : ',' ∉ data.drop i) :
    indexOfFrom data ",".toList i = none := by
  unfold indexOfFrom
  split
  · rfl
  · have : ¬ ",".toList <:+: data.drop i := by
      intro hin
      exact h (hin.subset (by simp))
    rw [(strstr_eq_none _ _).2 this]
    rfl

theorem commaText_eq_none_of_not_infix (data key : List Char) (n : Nat) (h : ¬ key <:+: data) :
    commaText data key n = none := by
  unfold commaText
  rw [indexOf_eq_none data key h]

theorem tailText_eq_none_of_not_infix (data key : List Char) (n : Nat) (h : ¬ key <:+: data) :
    tailText data key n = none := by
  unfold tailText
  rw [indexOf_eq_none data key h]

theorem commaText_eq_none_of_no_comma (data key : List Char) (n : Nat)
    (h : ∀ t ∈ data.tails, key <+: t → ',' ∉ t) : commaText data key n = none := by
  unfold commaText
  cases hi : indexOf data key with
  | none => rfl
  | some i =>
    dsimp only
    rw [indexOfFrom_comma_eq_none data i]
    exact h _ ((List.mem_tails _ _).2 (List.drop_suffix i data)) (indexOf_eq_some _ _ _ hi)

theorem strstr_first (key pre v : List Char) (h : ¬ key <:+: pre ++ key.dropLast) :
    strstr key (pre ++ key ++ v) = some pre.length := by
  have hne : key ≠ [] := by
    rintro rfl
    exact h List.nil_infix
  induction pre with
  | nil =>
    obtain ⟨c, cs, rfl⟩ := List.exists_cons_of_ne_nil hne
    have : (c :: cs).isPrefixOf (c :: (cs ++ v)) = true :=
      (isPrefixOf_eq_true _ _).2 (by simp)
    show strstr (c :: cs) (c :: (cs ++ v)) = some 0
    rw [strstr, if_pos this]
  | cons c p ih =>
    have hnot : ¬ key <+: c :: p ++ key ++ v := by
      intro hk
      apply h
      have hsplit : c :: p ++ key ++ v =
          (c :: p ++ key.dropLast) ++ ([key.getLast hne] ++ v) := by
        conv_lhs => rw [← List.dropLast_append_getLast hne]
        simp
      rw [hsplit] at hk
      have hlen : key.length ≤ (c :: p ++ key.dropLast).length := by
        have := List.length_pos_of_ne_nil hne
        simp [List.length_dropLast]
        omega
      exact (List.prefix_of_prefix_length_le hk (List.prefix_append _ _) hlen).isInfix
    have hrec : ¬ key <:+: p ++ key.dropLast := by
      intro hk
      apply h
      exact hk.trans (List.suffix_cons c (p ++ key.dropLast)).isInfix
    have hb : key.isPrefixOf (c :: (p ++ key ++ v)) = false := by
      rw [Bool.eq_false_iff]
      intro hp
      exact hnot (by simpa using (isPrefixOf_eq_true _ _).1 hp)
    simp only [List.cons_append, List.append_assoc] at hb ⊢
    rw [strstr, hb]
    simp only [List.append_assoc] at ih
    simp [ih hrec]

theorem tailText_first (key pre v : List Char) (h : ¬ key <:+: pre ++ key.dropLast) :
    tailText (pre ++ key ++ v) key key.length = some v := by
  have hne : key ≠ [] := by
    rintro rfl
    exact h List.nil_infix
  have hpos : 0 < (pre ++ key ++ v).length := by
    have := List.length_pos_of_ne_nil hne
    simp; omega
  unfold tailText indexOf indexOfFrom
  simp only [ge_iff_le, Nat.le_zero, List.drop_zero, strstr_first key pre v h]
  rw [if_neg (by omega)]
  simp [substringFrom_eq_drop]

theorem not_prefix_value (key u rest : List Char) (hk : ',' ∉ key) (he : '=' ∈ key)
    (hu : '=' ∉ u) : ¬ key <+: u ++ ',' :: rest := by
  intro h
  have h' : key <+: (u ++ [',']) ++ rest := by simpa using h
  rcases List.prefix_or_prefix_of_prefix h' (List.prefix_append (u ++ [',']) rest) with h1 | h1
  · have := h1.subset he
    simp at this
    exact hu this
  · exact hk (h1.subset (by simp))

theorem strstr_comma_value (v rest : List Char) (hv : ',' ∉ v) :
    strstr [','] (v ++ ',' :: rest) = some v.length := by
  induction v with
  | nil => simp [strstr, List.isPrefixOf]
  | cons c v ih =>
    have hc : ¬ (',' = c) := fun h => hv (h ▸ List.mem_cons_self _ _)
    have hv' : ',' ∉ v := fun h => hv (List.mem_cons_of_mem _ h)
    simp [strstr, List.isPrefixOf, hc, ih hv']


theorem substring_middle (a v b : List Char) (hb : b ≠ []) :
    substring (a ++ v ++ b) a.length (a.length + v.length) = v := by
  unfold substring
  have h1 : ¬ a.length > a.length + v.length := by omega
  have h2 : ¬ a.length ≥ (a ++ v ++ b).length := by
    have hpos := List.length_pos_of_ne_nil hb
    have hl : (a ++ v ++ b).length = a.length + v.length + b.length := by
      simp only [List.length_append]
    omega
  simp only [h1, if_false, h2]
  rw [← List.length_append, List.take_left' rfl, List.drop_left' rfl]

theorem commaText_first (pre key v post : List Char)
    (h : ¬ key <:+: pre ++ key.dropLast) (hk : ',' ∉ key) (hv : ',' ∉ v) :
    commaText (pre ++ key ++ v ++ ',' :: post) key key.length = some v := by
  have hfirst : strstr key (pre ++ key ++ v ++ ',' :: post) = some pre.length := by
    have := strstr_first key pre (v ++ ',' :: post) h
    simpa [List.append_assoc] using this
  have hlen : ¬ pre.length ≥ (pre ++ key ++ v ++ ',' :: post).length := by
    have hl : (pre ++ key ++ v ++ ',' :: post).length
        = pre.length + key.length + v.length + (post.length + 1) := by
      simp only [List.length_append, List.length_cons]
    omega
  have hlen0 : ¬ 0 ≥ (pre ++ key ++ v ++ ',' :: post).length := by
    simp
  have hdrop : (pre ++ key ++ v ++ ',' :: post).drop pre.length = (key ++ v) ++ ',' :: post := by
    rw [List.append_assoc, List.append_assoc, List.drop_left' rfl, List.append_assoc]
  have hcomma : strstr ",".toList ((key ++ v) ++ ',' :: post) = some (key ++ v).length :=
    strstr_comma_value (key ++ v) post (by
      intro hm
      rcases List.mem_append.1 hm with h1 | h1
      · exact hk h1
      · exact hv h1)
  unfold commaText indexOf indexOfFrom
  rw [if_neg hlen0, List.drop_zero, hfirst]
  simp only [Option.map_some', Nat.add_zero]
  rw [if_neg hlen, hdrop, hcomma]
  simp only [Option.map_some', List.length_append]
  have := substring_middle (pre ++ key) v (',' :: post) (by simp)
  simp only [List.length_append] at this
  rw [show key.length + v.length + pre.length = pre.length + key.length + v.length by omega]
  rw [this]



theorem substring_cons (c : Char) (rest : List Char) (a b : Nat) :
    substring (c :: rest) (a + 1) (b + 1) = substring rest a b := by
  unfold substring
  by_cases h : a > b
  · have h' : a + 1 > b + 1 := by omega
    simp only [h, h', if_true, List.length_cons, ge_iff_le, Nat.add_le_add_iff_right,
      List.take_succ_cons, List.drop_succ_cons]
  · have h' : ¬ a + 1 > b + 1 := by omega
    simp only [h, h', if_false, List.length_cons, ge_iff_le, Nat.add_le_add_iff_right,
      List.take_succ_cons, List.drop_succ_cons]

theorem indexOfFrom_cons (c : Char) (rest pat : List Char) (j : Nat) :
    indexOfFrom (c :: rest) pat (j + 1) = (indexOfFrom rest pat j).map (· + 1) := by
  unfold indexOfFrom
  by_cases h : j ≥ rest.length
  · have h' : j + 1 ≥ (c :: rest).length := by simpa using h
    rw [if_pos h, if_pos h']
    rfl
  · have h' : ¬ j + 1 ≥ (c :: rest).length := by simpa using h
    rw [if_neg h, if_neg h', List.drop_succ_cons]
    cases strstr pat (List.drop j rest) with
    | none => rfl
    | some m => simp [Nat.add_assoc]

theorem indexOf_cons (c : Char) (rest key : List Char)
    (h : key.isPrefixOf (c :: rest) = false) :
    indexOf (c :: rest) key = (indexOf rest key).map (· + 1) := by
  have hne : key ≠ [] := by
    rintro rfl
    simp [List.isPrefixOf] at h
  unfold indexOf indexOfFrom
  have h0 : ¬ 0 ≥ (c :: rest).length := by simp
  rw [if_neg h0, List.drop_zero, strstr, h]
  cases rest with
  | nil =>
    cases key with
    | nil => exact absurd rfl hne
    | cons k ks => simp [strstr]
  | cons r rs =>
    have h1 : ¬ 0 ≥ (r :: rs).length := by simp
    rw [if_neg h1, List.drop_zero]
    cases strstr key (r :: rs) <;> simp

theorem commaText_cons (c : Char) (rest key : List Char) (n : Nat)
    (h : key.isPrefixOf (c :: rest) = false) :
    commaText (c :: rest) key n = commaText rest key n := by
  unfold commaText
  rw [indexOf_cons c rest key h]
  cases indexOf rest key with
  | none => rfl
  | some j =>
    simp only [Option.map_some']
    rw [indexOfFrom_cons]
    cases indexOfFrom rest ",".toList j with
    | none => rfl
    | some m =>
      simp only [Option.map_some']
      rw [show j + 1 + n = (j + n) + 1 by omega, substring_cons]

theorem tailText_cons (c : Char) (rest key : List Char) (n : Nat)
    (h : key.isPrefixOf (c :: rest) = false) :
    tailText (c :: rest) key n = tailText rest key n := by
  unfold tailText
  rw [indexOf_cons c rest key h]
  cases indexOf rest key with
  | none => rfl
  | some j =>
    simp only [Option.map_some', substringFrom_eq_drop]
    rw [show j + 1 + n = (j + n) + 1 by omega, List.drop_succ_cons]

theorem isPrefixOf_value (key u rest : List Char) (hk : ',' ∉ key) (he : '=' ∈ key)
    (hu : '=' ∉ u) : key.isPrefixOf (u ++ ',' :: rest) = false := by
  rw [Bool.eq_false_iff]
  intro hp
  exact not_prefix_value key u rest hk he hu ((isPrefixOf_eq_true _ _).1 hp)

theorem commaText_value (key v rest : List Char) (n : Nat) (hk : ',' ∉ key) (he : '=' ∈ key)
    (hv : '=' ∉ v) : commaText (v ++ ',' :: rest) key n = commaText rest key n := by
  induction v with
  | nil => exact commaText_cons _ _ _ _ (isPrefixOf_value key [] rest hk he hv)
  | cons c v ih =>
    have hv' : '=' ∉ v := fun h => hv (List.mem_cons_of_mem _ h)
    have hb : key.isPrefixOf (c :: (v ++ ',' :: rest)) = false :=
      isPrefixOf_value key (c :: v) rest hk he hv
    rw [List.cons_append, commaText_cons _ _ _ _ hb]
    exact ih hv'

theorem tailText_value (key v rest : List Char) (n : Nat) (hk : ',' ∉ key) (he : '=' ∈ key)
    (hv : '=' ∉ v) : tailText (v ++ ',' :: rest) key n = tailText rest key n := by
  induction v with
  | nil => exact tailText_cons _ _ _ _ (isPrefixOf_value key [] rest hk he hv)
  | cons c v ih =>
    have hv' : '=' ∉ v := fun h => hv (List.mem_cons_of_mem _ h)
    have hb : key.isPrefixOf (c :: (v ++ ',' :: rest)) = false :=
      isPrefixOf_value key (c :: v) rest hk he hv
    rw [List.cons_append, tailText_cons _ _ _ _ hb]
    exact ih hv'

theorem not_infix_dropLast (key : List Char) (hne : key ≠ []) : ¬ key <:+: [] ++ key.dropLast := by
  intro h
  have h1 := h.length_le
  have h2 := List.length_pos_of_ne_nil hne
  simp [List.length_dropLast] at h1
  omega

theorem commaText_here (key v post : List Char) (hne : key ≠ []) (hk : ',' ∉ key)
    (hv : ',' ∉ v) : commaText (key ++ (v ++ ',' :: post)) key key.length = some v := by
  have := commaText_first [] key v post (not_infix_dropLast key hne) hk hv
  simpa [List.append_assoc] using this

theorem tailText_here (key v : List Char) (hne : key ≠ []) :
    tailText (key ++ v) key key.length = some v := by
  have := tailText_first key [] v (not_infix_dropLast key hne)
  simpa using this

theorem lit_TEMP : "TEMP=".toList = ['T', 'E', 'M', 'P', '='] := rfl
theorem lit_GAS : "GAS=".toList = ['G', 'A', 'S', '='] := rfl
theorem lit_SOUND : "SOUND=".toList = ['S', 'O', 'U', 'N', 'D', '='] := rfl
theorem lit_PIR : "PIR=".toList = ['P', 'I', 'R', '='] := rfl
theorem lit_IR : "IR=".toList = ['I', 'R', '='] := rfl
theorem lit_LIGHT : "LIGHT=".toList = ['L', 'I', 'G', 'H', 'T', '='] := rfl
theorem lit_DIST : "DIST=".toList = ['D', 'I', 'S', 'T', '='] := rfl

/-- The line of the sensor node behind its prefix `DATA:`. -/
theorem dataLine_body (t g sd p i l d : List Char) :
    substringFrom (dataLine t g sd p i l d) 5 =
      'T' :: 'E' :: 'M' :: 'P' :: '=' :: (t ++ ',' :: 'G' :: 'A' :: 'S' :: '=' :: (g ++
        ',' :: 'S' :: 'O' :: 'U' :: 'N' :: 'D' :: '=' :: (sd ++
        ',' :: 'P' :: 'I' :: 'R' :: '=' :: (p ++ ',' :: 'I' :: 'R' :: '=' :: (i ++
        ',' :: 'L' :: 'I' :: 'G' :: 'H' :: 'T' :: '=' :: (l ++
        ',' :: 'D' :: 'I' :: 'S' :: 'T' :: '=' :: d)))))) := by
  rw [substringFrom_eq_drop]
  unfold dataLine
  rw [show "DATA:TEMP=".toList = ['D', 'A', 'T', 'A', ':', 'T', 'E', 'M', 'P', '='] from rfl,
    show ",GAS=".toList = [',', 'G', 'A', 'S', '='] from rfl,
    show ",SOUND=".toList = [',', 'S', 'O', 'U', 'N', 'D', '='] from rfl,
    show ",PIR=".toList = [',', 'P', 'I', 'R', '='] from rfl,
    show ",IR=".toList = [',', 'I', 'R', '='] from rfl,
    show ",LIGHT=".toList = [',', 'L', 'I', 'G', 'H', 'T', '='] from rfl,
    show ",DIST=".toList = [',', 'D', 'I', 'S', 'T', '='] from rfl]
  simp only [List.cons_append, List.nil_append, List.append_assoc, List.drop_succ_cons,
    List.drop_zero]

theorem texts_of_dataLine (t g sd p i l d : List Char)
    (ht : plainValue t) (hg : plainValue g) (hsd : plainValue sd) (hp : plainValue p)
    (hi : plainValue i) (hl : plainValue l) :
    commaText (substringFrom (dataLine t g sd p i l d) 5) "TEMP=".toList 5 = some t ∧
    commaText (substringFrom (dataLine t g sd p i l d) 5) "GAS=".toList 4 = some g ∧
    commaText (substringFrom (dataLine t g sd p i l d) 5) "SOUND=".toList 6 = some sd ∧
    commaText (substringFrom (dataLine t g sd p i l d) 5) "PIR=".toList 4 = some p ∧
    commaText (substringFrom (dataLine t g sd p i l d) 5) "IR=".toList 3 = some p ∧
    commaText (substringFrom (dataLine t g sd p i l d) 5) "LIGHT=".toList 6 = some l ∧
    tailText (substringFrom (dataLine t g sd p i l d) 5) "DIST=".toList 5 = some d := by
  have cv : ∀ (key v rest : List Char) (n : Nat), ',' ∉ key → '=' ∈ key → '=' ∉ v →
      commaText (v ++ ',' :: rest) key n = commaText rest key n := commaText_value
  have tv : ∀ (key v rest : List Char) (n : Nat), ',' ∉ key → '=' ∈ key → '=' ∉ v →
      tailText (v ++ ',' :: rest) key n = tailText rest key n := tailText_value
  have hT := fun v post hv => commaText_here ['T', 'E', 'M', 'P', '='] v post (by decide) (by decide) hv
  have hG := fun v post hv => commaText_here ['G', 'A', 'S', '='] v post (by decide) (by decide) hv
  have hS := fun v post hv => commaText_here ['S', 'O', 'U', 'N', 'D', '='] v post (by decide) (by decide) hv
  have hP := fun v post hv => commaText_here ['P', 'I', 'R', '='] v post (by decide) (by decide) hv
  have hI := fun v post hv => commaText_here ['I', 'R', '='] v post (by decide) (by decide) hv
  have hL := fun v post hv => commaText_here ['L', 'I', 'G', 'H', 'T', '='] v post (by decide) (by decide) hv
  have hD := fun v => tailText_here ['D', 'I', 'S', 'T', '='] v (by decide)
  simp only [List.cons_append, List.nil_append, List.length_cons, List.length_nil] at hT hG hS hP hI hL hD
  have et := ht.2
  have eg := hg.2
  have es := hsd.2
  have ep := hp.2
  have ei := hi.2
  have el := hl.2
  rw [dataLine_body, lit_TEMP, lit_GAS, lit_SOUND, lit_PIR, lit_IR, lit_LIGHT, lit_DIST]
  refine ⟨?_, ?_, ?_, ?_, ?_, ?_, ?_⟩
  · exact hT _ _ ht.1
  · simp [commaText_cons, List.isPrefixOf, cv, et, hG, hg.1]
  · simp [commaText_cons, List.isPrefixOf, cv, et, eg, hS, hsd.1]
  · simp [commaText_cons, List.isPrefixOf, cv, et, eg, es, hP, hp.1]
  · simp [commaText_cons, List.isPrefixOf, cv, et, eg, es, hI, hp.1]
  · simp [commaText_cons, List.isPrefixOf, cv, et, eg, es, ep, ei, hL, hl.1]
  · simp [tailText_cons, List.isPrefixOf, tv, et, eg, es, ep, ei, el, hD]

/-! ## Number conversion of a text that is no number -/

theorem toInt_of_startsNoNumber (v : List Char) (h : startsNoNumber v = true) : toInt v = 0 := by
  cases v with
  | nil => rfl
  | cons c r =>
    simp only [startsNoNumber, Bool.not_eq_true', Bool.or_eq_false_iff,
      decide_eq_false_iff_not] at h
    obtain ⟨⟨⟨⟨⟨⟨hd, hs⟩, hm⟩, hp⟩, -⟩, -⟩, -⟩ := h
    simp [toInt, atol, List.dropWhile, List.takeWhile, hs, hd, hm, hp, digitsToNat, LONG_MAX]

theorem toFloat_of_startsNoNumber (v : List Char) (h : startsNoNumber v = true) :
    toFloat v = Flt.fin 0 := by
  cases v with
  | nil => rfl
  | cons c r =>
    simp only [startsNoNumber, Bool.not_eq_true', Bool.or_eq_false_iff,
      decide_eq_false_iff_not] at h
    obtain ⟨⟨⟨⟨⟨⟨hd, hs⟩, hm⟩, hp⟩, hdot⟩, hi⟩, hn⟩ := h
    have h1 : startsWith ((c :: r).map Char.toLower) "inf".toList = false := by
      rw [show "inf".toList = ['i', 'n', 'f'] from rfl]
      simp [startsWith, List.isPrefixOf, Ne.symm hi]
    have h2 : startsWith ((c :: r).map Char.toLower) "nan".toList = false := by
      rw [show "nan".toList = ['n', 'a', 'n'] from rfl]
      simp [startsWith, List.isPrefixOf, Ne.symm hn]
    have h3 : decimalValue (c :: r) = 0 := by
      simp [decimalValue, fractionDigits, List.takeWhile, List.dropWhile, hd, hdot]
    simp only [toFloat, atof, List.dropWhile, hs, hm, hp, if_false, unsignedFloat, h1, h2, h3]
    simp

/-! ## Lines that start with `DATA:` -/

theorem startsWith_data (rest : List Char) :
    startsWith ("DATA:".toList ++ rest) "DATA:".toList = true := by
  unfold startsWith
  exact (isPrefixOf_eq_true _ _).2 (List.prefix_append _ _)

theorem substringFrom_data (rest : List Char) :
    substringFrom ("DATA:".toList ++ rest) 5 = rest := by
  rw [substringFrom_eq_drop]
  exact List.drop_left' rfl

/-- The result of `parseSensorData` on a line that starts with `DATA:`. -/
theorem parseSensorData_of_data (s : Hub) (line : List Char) (now : Nat)
    (h : startsWith line "DATA:".toList = true) :
    parseSensorData s line now =
      { parseFields s line now with
        activeAlerts := rebuildAlerts (parseFields s line now).sensorData
          (parseFields s line now).TEMP_THRESHOLD (parseFields s line now).GAS_THRESHOLD
          (parseFields s line now).SOUND_THRESHOLD } := by
  unfold parseSensorData
  rw [if_pos h]

/-! ## Claims on the parse of a line -/

/-- C1 (the program does otherwise): from the initial state, whose thresholds
are 40, 350 and 80, the line
`DATA:TEMP=45.0,GAS=100,SOUND=80,PIR=0,IR=1,LIGHT=50,DIST=30` leaves an alert
list that holds `IR_TRIGGERED`: the search for `IR=` stops inside `PIR=0`. -/
theorem C1_example_line_yields_ir_triggered :
    Hub.init.TEMP_THRESHOLD = 40 ∧ Hub.init.GAS_THRESHOLD = 350 ∧
    Hub.init.SOUND_THRESHOLD = 80 ∧
    (parseSensorData Hub.init
        "DATA:TEMP=45.0,GAS=100,SOUND=80,PIR=0,IR=1,LIGHT=50,DIST=30".toList 1000).activeAlerts
      = ["TEMP_HIGH", "SOUND_EVENT", "IR_TRIGGERED", "PRESENCE_DETECTED", "ROOM_DARK"] := by
  decide!

/-- C2 (the program does otherwise): on lines that carry `PIR=<p>,IR=<i>,` the
flag `irTriggered` follows the PIR value and not the IR value: it is true for
`PIR=0,IR=1` and false for `PIR=1,IR=0`. -/
theorem C2_ir_flag_follows_pir_field :
    (parseSensorData Hub.init
        "DATA:TEMP=45.0,GAS=100,SOUND=80,PIR=0,IR=1,LIGHT=50,DIST=30".toList 1000).sensorData.irTriggered
      = true
    ∧ (parseSensorData Hub.init
        "DATA:TEMP=45.0,GAS=100,SOUND=80,PIR=1,IR=0,LIGHT=50,DIST=30".toList 1000).sensorData.irTriggered
      = false
    ∧ (parseSensorData Hub.init "DATA:PIR=0,IR=1,".toList 1000).sensorData.irTriggered = true
    ∧ (parseSensorData Hub.init "DATA:PIR=1,IR=0,".toList 1000).sensorData.irTriggered = false
    ∧ (parseSensorData Hub.init "DATA:PIR=1,IR=0,".toList 1000).sensorData.motionDetected = true := by
  decide!

/-! ## Claims on the alert list -/

/-- C3: for every reading and every threshold triple the alert list that
`parseSensorData` leaves is the list of the kinds of `alertKinds` whose
condition holds on the reading after the parse, in that order and without
duplicates, and it does not depend on the alert list that was there before. -/
theorem C3_alert_list_is_recomputed (s : Hub) (line : List Char) (now : Nat)
    (old : List String) (d : SensorData) (t g sd : Int) (q : ℚ) :
    (parseSensorData s line now).activeAlerts =
        alertsOfRules (parseSensorData s line now).sensorData
          s.TEMP_THRESHOLD s.GAS_THRESHOLD s.SOUND_THRESHOLD
    ∧ rebuildAlerts d t g sd = alertsOfRules d t g sd
    ∧ (alertRules d t g sd).map (·.1) = alertKinds
    ∧ List.Sublist (rebuildAlerts d t g sd) alertKinds
    ∧ (rebuildAlerts d t g sd).Nodup
    ∧ ("TEMP_HIGH" ∈ rebuildAlerts { d with temperature := Flt.fin q } t g sd ↔ (t : ℚ) < q)
    ∧ ("GAS_LEAK" ∈ rebuildAlerts d t g sd ↔ g < d.gasLevel)
    ∧ ("SOUND_EVENT" ∈ rebuildAlerts d t g sd ↔ d.soundLevel = sd)
    ∧ ("MOTION_PIR" ∈ rebuildAlerts d t g sd ↔ d.motionDetected = true)
    ∧ ("IR_TRIGGERED" ∈ rebuildAlerts d t g sd ↔ d.irTriggered = true)
    ∧ ("PRESENCE_DETECTED" ∈ rebuildAlerts d t g sd ↔ 0 < d.distance ∧ d.distance < 200)
    ∧ ("ROOM_DARK" ∈ rebuildAlerts d t g sd ↔ d.lightLevel < 100)
    ∧ parseSensorData { s with activeAlerts := old } line now = parseSensorData s line now := by
  have hsub : List.Sublist (rebuildAlerts d t g sd) alertKinds := by
    rw [rebuildAlerts_eq_rules]
    have h : alertKinds = (alertRules d t g sd).map (·.1) := rfl
    rw [h]
    exact List.Sublist.map _ (List.filter_sublist _)
  refine ⟨?_, rebuildAlerts_eq_rules d t g sd, rfl, hsub, ?_, ?_, ?_, ?_, ?_, ?_, ?_, ?_,
    parseSensorData_forgets_alerts s line now old⟩
  · rw [parseSensorData_alerts, rebuildAlerts_eq_rules]
  · exact List.Nodup.sublist hsub (by decide)
  · rw [rebuildAlerts_eq_rules, mem_alertsOfRules]
    simp [alertRules, Flt.lt, Flt.ofInt]
  · rw [rebuildAlerts_eq_rules, mem_alertsOfRules]
    simp [alertRules]
  · rw [rebuildAlerts_eq_rules, mem_alertsOfRules]
    simp [alertRules]
  · rw [rebuildAlerts_eq_rules, mem_alertsOfRules]
    simp [alertRules]
  · rw [rebuildAlerts_eq_rules, mem_alertsOfRules]
    simp [alertRules]
  · rw [rebuildAlerts_eq_rules, mem_alertsOfRules]
    simp [alertRules]
  · rw [rebuildAlerts_eq_rules, mem_alertsOfRules]
    simp [alertRules]

/-- C4: `SOUND_EVENT` is in the recomputed alert list exactly when the sound
level equals the sound threshold; one unit above or below it is absent. -/
theorem C4_sound_event_exact_match (s : Hub) (line : List Char) (now : Nat)
    (d : SensorData) (t g sd : Int) :
    ("SOUND_EVENT" ∈ (parseSensorData s line now).activeAlerts ↔
        (parseSensorData s line now).sensorData.soundLevel = s.SOUND_THRESHOLD)
    ∧ ("SOUND_EVENT" ∈ rebuildAlerts d t g sd ↔ d.soundLevel = sd)
    ∧ "SOUND_EVENT" ∉ rebuildAlerts { d with soundLevel := sd + 1 } t g sd
    ∧ "SOUND_EVENT" ∉ rebuildAlerts { d with soundLevel := sd - 1 } t g sd := by
  have key : ∀ (d : SensorData) (t g sd : Int),
      "SOUND_EVENT" ∈ rebuildAlerts d t g sd ↔ d.soundLevel = sd := by
    intro d t g sd
    rw [rebuildAlerts_eq_rules, mem_alertsOfRules]
    simp [alertRules]
  refine ⟨?_, key d t g sd, ?_, ?_⟩
  · rw [parseSensorData_alerts]
    exact key _ _ _ _
  · rw [key]
    simp
  · rw [key]
    simp

/-- C5: the alert list is a function of the reading and the thresholds alone,
and the membership of each alert kind depends only on its own field of the
reading and its own threshold: it is the same on any two readings and
threshold triples that agree on them.  In particular a change of `lightLevel`
never adds or removes `TEMP_HIGH`. -/
theorem C5_alerts_pure_and_independent (s s₂ : Hub) (line line₂ : List Char) (now now₂ : Nat)
    (d e : SensorData) (t g sd t' g' sd' : Int) (light : Int) :
    ((parseSensorData s line now).sensorData = (parseSensorData s₂ line₂ now₂).sensorData →
      s.TEMP_THRESHOLD = s₂.TEMP_THRESHOLD → s.GAS_THRESHOLD = s₂.GAS_THRESHOLD →
      s.SOUND_THRESHOLD = s₂.SOUND_THRESHOLD →
      (parseSensorData s line now).activeAlerts = (parseSensorData s₂ line₂ now₂).activeAlerts)
    ∧ ("TEMP_HIGH" ∈ rebuildAlerts { d with lightLevel := light } t g sd ↔
        "TEMP_HIGH" ∈ rebuildAlerts d t g sd)
    ∧ ("TEMP_HIGH" ∈ rebuildAlerts { e with temperature := d.temperature } t g' sd' ↔
        "TEMP_HIGH" ∈ rebuildAlerts d t g sd)
    ∧ ("GAS_LEAK" ∈ rebuildAlerts { e with gasLevel := d.gasLevel } t' g sd' ↔
        "GAS_LEAK" ∈ rebuildAlerts d t g sd)
    ∧ ("SOUND_EVENT" ∈ rebuildAlerts { e with soundLevel := d.soundLevel } t' g' sd ↔
        "SOUND_EVENT" ∈ rebuildAlerts d t g sd)
    ∧ ("MOTION_PIR" ∈ rebuildAlerts { e with motionDetected := d.motionDetected } t' g' sd' ↔
        "MOTION_PIR" ∈ rebuildAlerts d t g sd)
    ∧ ("IR_TRIGGERED" ∈ rebuildAlerts { e with irTriggered := d.irTriggered } t' g' sd' ↔
        "IR_TRIGGERED" ∈ rebuildAlerts d t g sd)
    ∧ ("PRESENCE_DETECTED" ∈ rebuildAlerts { e with distance := d.distance } t' g' sd' ↔
        "PRESENCE_DETECTED" ∈ rebuildAlerts d t g sd)
    ∧ ("ROOM_DARK" ∈ rebuildAlerts { e with lightLevel := d.lightLevel } t' g' sd' ↔
        "ROOM_DARK" ∈ rebuildAlerts d t g sd) := by
  refine ⟨?_, ?_, ?_, ?_, ?_, ?_, ?_, ?_, ?_⟩
  · intro hd ht hg hs
    rw [parseSensorData_alerts s line now, parseSensorData_alerts s₂ line₂ now₂,
      hd, ht, hg, hs]
  all_goals
    simp only [rebuildAlerts_eq_rules, mem_alertsOfRules]
    simp [alertRules]

/-- Witness of C5: the example line read by two hubs that differ in their
counters, their clock and their old alert list. -/
theorem C5_witness :
    (parseSensorData Hub.init
        "DATA:TEMP=45.0,GAS=100,SOUND=80,PIR=0,IR=1,LIGHT=50,DIST=30".toList 1000).activeAlerts
      = (parseSensorData { Hub.init with dataPoints := 9, activeAlerts := ["GAS_LEAK"] }
        "DATA:TEMP=45.0,GAS=100,SOUND=80,PIR=0,IR=1,LIGHT=50,DIST=30".toList 7000).activeAlerts :=
  (C5_alerts_pure_and_independent Hub.init
    { Hub.init with dataPoints := 9, activeAlerts := ["GAS_LEAK"] }
    "DATA:TEMP=45.0,GAS=100,SOUND=80,PIR=0,IR=1,LIGHT=50,DIST=30".toList
    "DATA:TEMP=45.0,GAS=100,SOUND=80,PIR=0,IR=1,LIGHT=50,DIST=30".toList 1000 7000
    {} {} 0 0 0 0 0 0 0).1 (by decide!) rfl rfl rfl

/-! ## Claims on malformed, final, unknown and missing fields -/

/-- C6 (as stated, refuted): after `DATA:GAS=100,` the gas level is 100; the
line with `GAS=abc` then sets it to 0 and changes the gas tracker. -/
theorem C6_malformed_field_is_overwritten :
    (parseSensorData Hub.init "DATA:GAS=100,".toList 1000).sensorData.gasLevel = 100
    ∧ (parseSensorData (parseSensorData Hub.init "DATA:GAS=100,".toList 1000)
        "DATA:TEMP=45.0,GAS=abc,SOUND=80,PIR=0,IR=1,LIGHT=50,DIST=30".toList
        6000).sensorData.gasLevel = 0
    ∧ (parseSensorData (parseSensorData Hub.init "DATA:GAS=100,".toList 1000)
        "DATA:TEMP=45.0,GAS=abc,SOUND=80,PIR=0,IR=1,LIGHT=50,DIST=30".toList 6000).gasStats
      ≠ (parseSensorData Hub.init "DATA:GAS=100,".toList 1000).gasStats := by
  decide!

/-- C6 (amended): on a line in the format of the sensor node whose value texts
hold no comma and no equals sign, every field other than `irTriggered` is set
to what `toFloat` or `toInt` reads from its own text, and each numeric channel
records that number in its tracker; a text that does not begin like a number
reads as 0, so a malformed field is set to 0 and recorded, and the other
fields are parsed to the values written. -/
theorem C6_amended_malformed_value_reads_as_zero (s : Hub) (now : Nat)
    (t g sd p i l d bad : List Char)
    (ht : plainValue t) (hg : plainValue g) (hsd : plainValue sd) (hp : plainValue p)
    (hi : plainValue i) (hl : plainValue l) (hbad : startsNoNumber bad = true) :
    (parseSensorData s (dataLine t g sd p i l d) now).sensorData =
      { temperature := toFloat t
        gasLevel := toInt g
        soundLevel := toInt sd
        motionDetected := decide (toInt p = 1)
        irTriggered := (parseSensorData s (dataLine t g sd p i l d) now).sensorData.irTriggered
        lightLevel := toInt l
        distance := toInt d }
    ∧ (parseSensorData s (dataLine t g sd p i l d) now).tempStats
        = updateStats s.tempStats (toFloat t)
    ∧ (parseSensorData s (dataLine t g sd p i l d) now).gasStats
        = updateStats s.gasStats (Flt.ofInt (toInt g))
    ∧ (parseSensorData s (dataLine t g sd p i l d) now).soundStats
        = updateStats s.soundStats (Flt.ofInt (toInt sd))
    ∧ (parseSensorData s (dataLine t g sd p i l d) now).lightStats
        = updateStats s.lightStats (Flt.ofInt (toInt l))
    ∧ (parseSensorData s (dataLine t g sd p i l d) now).distStats
        = updateStats s.distStats (Flt.ofInt (toInt d))
    ∧ toInt bad = 0 ∧ toFloat bad = Flt.fin 0 := by
  have hstart : startsWith (dataLine t g sd p i l d) "DATA:".toList = true := by
    have : dataLine t g sd p i l d = "DATA:".toList ++ ("TEMP=".toList ++ t ++ ",GAS=".toList
        ++ g ++ ",SOUND=".toList ++ sd ++ ",PIR=".toList ++ p ++ ",IR=".toList ++ i
        ++ ",LIGHT=".toList ++ l ++ ",DIST=".toList ++ d) := by
      unfold dataLine
      rw [show "DATA:TEMP=".toList = "DATA:".toList ++ "TEMP=".toList from rfl]
      simp only [List.append_assoc]
    rw [this]
    exact startsWith_data _
  obtain ⟨hT, hG, hS, hP, hI, hL, hD⟩ := texts_of_dataLine t g sd p i l d ht hg hsd hp hi hl
  rw [parseSensorData_of_data s _ now hstart, parseFields_eq, hT, hG, hS, hP, hI, hL, hD]
  exact ⟨rfl, rfl, rfl, rfl, rfl, rfl, toInt_of_startsNoNumber bad hbad,
    toFloat_of_startsNoNumber bad hbad⟩

/-- Witness of C6 (amended): the line of the example with `GAS=abc`. -/
theorem C6_amended_witness :
    (parseSensorData Hub.init (dataLine "45.0".toList "abc".toList "80".toList "0".toList
        "1".toList "50".toList "30".toList) 1000).gasStats
      = updateStats Hub.init.gasStats (Flt.ofInt (toInt "abc".toList))
    ∧ toInt "abc".toList = 0 :=
  ⟨(C6_amended_malformed_value_reads_as_zero Hub.init 1000 "45.0".toList "abc".toList
      "80".toList "0".toList "1".toList "50".toList "30".toList "abc".toList
      (by decide) (by decide) (by decide) (by decide) (by decide) (by decide)
      (by decide)).2.2.1,
   (C6_amended_malformed_value_reads_as_zero Hub.init 1000 "45.0".toList "abc".toList
      "80".toList "0".toList "1".toList "50".toList "30".toList "abc".toList
      (by decide) (by decide) (by decide) (by decide) (by decide) (by decide)
      (by decide)).2.2.2.2.2.2.1⟩

/-- C7 (as stated, refuted): `LIGHT=50` and `TEMP=45.0` at the end of a line,
with no comma behind them, are not stored. -/
theorem C7_final_field_without_comma_is_dropped :
    (parseSensorData Hub.init "DATA:GAS=10,LIGHT=50".toList 1000).sensorData.lightLevel ≠ 50
    ∧ (parseSensorData Hub.init "DATA:GAS=10,LIGHT=50".toList 1000).sensorData.gasLevel = 10
    ∧ (parseSensorData Hub.init "DATA:TEMP=45.0".toList 1000).sensorData.temperature
        ≠ Flt.fin 45
    ∧ (parseSensorData Hub.init "DATA:TEMP=45.0,".toList 1000).sensorData.temperature
        = Flt.fin 45 := by
  decide!

/-- C7 (amended): only `DIST` may run to the end of the line.  When the first
`DIST=` of the line is followed by the text `v`, the distance becomes the number
read from `v` and the distance tracker records it.  For each of the other six
keys, when no occurrence of the key has a comma behind it (so when its field is
the last one and has no trailing comma), its field of the reading and its
tracker keep their previous values. -/
theorem C7_amended_only_dist_runs_to_end_of_line (s : Hub) (rest pre v : List Char)
    (now : Nat) :
    (noCommaAfter "TEMP=".toList rest →
      (parseSensorData s ("DATA:".toList ++ rest) now).sensorData.temperature
          = s.sensorData.temperature
        ∧ (parseSensorData s ("DATA:".toList ++ rest) now).tempStats = s.tempStats)
    ∧ (noCommaAfter "GAS=".toList rest →
      (parseSensorData s ("DATA:".toList ++ rest) now).sensorData.gasLevel
          = s.sensorData.gasLevel
        ∧ (parseSensorData s ("DATA:".toList ++ rest) now).gasStats = s.gasStats)
    ∧ (noCommaAfter "SOUND=".toList rest →
      (parseSensorData s ("DATA:".toList ++ rest) now).sensorData.soundLevel
          = s.sensorData.soundLevel
        ∧ (parseSensorData s ("DATA:".toList ++ rest) now).soundStats = s.soundStats)
    ∧ (noCommaAfter "PIR=".toList rest →
      (parseSensorData s ("DATA:".toList ++ rest) now).sensorData.motionDetected
          = s.sensorData.motionDetected)
    ∧ (noCommaAfter "IR=".toList rest →
      (parseSensorData s ("DATA:".toList ++ rest) now).sensorData.irTriggered
          = s.sensorData.irTriggered)
    ∧ (noCommaAfter "LIGHT=".toList rest →
      (parseSensorData s ("DATA:".toList ++ rest) now).sensorData.lightLevel
          = s.sensorData.lightLevel
        ∧ (parseSensorData s ("DATA:".toList ++ rest) now).lightStats = s.lightStats)
    ∧ (¬ "DIST=".toList <:+: pre ++ "DIST".toList →
      (parseSensorData s ("DATA:".toList ++ (pre ++ "DIST=".toList ++ v)) now).sensorData.distance
          = toInt v
        ∧ (parseSensorData s ("DATA:".toList ++ (pre ++ "DIST=".toList ++ v)) now).distStats
          = updateStats s.distStats (Flt.ofInt (toInt v))) := by
  refine ⟨?_, ?_, ?_, ?_, ?_, ?_, ?_⟩
  · intro h
    rw [parseSensorData_of_data s _ now (startsWith_data rest), parseFields_eq,
      substringFrom_data, commaText_eq_none_of_no_comma rest _ 5 h]
    exact ⟨rfl, rfl⟩
  · intro h
    rw [parseSensorData_of_data s _ now (startsWith_data rest), parseFields_eq,
      substringFrom_data, commaText_eq_none_of_no_comma rest _ 4 h]
    exact ⟨rfl, rfl⟩
  · intro h
    rw [parseSensorData_of_data s _ now (startsWith_data rest), parseFields_eq,
      substringFrom_data, commaText_eq_none_of_no_comma rest _ 6 h]
    exact ⟨rfl, rfl⟩
  · intro h
    rw [parseSensorData_of_data s _ now (startsWith_data rest), parseFields_eq,
      substringFrom_data, commaText_eq_none_of_no_comma rest "PIR=".toList 4 h]
    rfl
  · intro h
    rw [parseSensorData_of_data s _ now (startsWith_data rest), parseFields_eq,
      substringFrom_data, commaText_eq_none_of_no_comma rest "IR=".toList 3 h]
    rfl
  · intro h
    rw [parseSensorData_of_data s _ now (startsWith_data rest), parseFields_eq,
      substringFrom_data, commaText_eq_none_of_no_comma rest "LIGHT=".toList 6 h]
    exact ⟨rfl, rfl⟩
  · intro h
    have hd : tailText (pre ++ "DIST=".toList ++ v) "DIST=".toList 5 = some v :=
      tailText_first "DIST=".toList pre v h
    rw [parseSensorData_of_data s _ now (startsWith_data _), parseFields_eq,
      substringFrom_data, hd]
    exact ⟨rfl, rfl⟩

/-- Witness of C7 (amended): `DATA:GAS=10,LIGHT=50` keeps the light level,
`DATA:TEMP=45.0` keeps the temperature and `DATA:GAS=10,DIST=30` sets the
distance. -/
theorem C7_amended_witness :
    (parseSensorData Hub.init ("DATA:".toList ++ "GAS=10,LIGHT=50".toList) 1000).sensorData.lightLevel
      = Hub.init.sensorData.lightLevel
    ∧ (parseSensorData Hub.init ("DATA:".toList ++ "TEMP=45.0".toList) 1000).sensorData.temperature
      = Hub.init.sensorData.temperature
    ∧ (parseSensorData Hub.init
        ("DATA:".toList ++ ("GAS=10,".toList ++ "DIST=".toList ++ "30".toList)) 1000).sensorData.distance
      = toInt "30".toList :=
  ⟨((C7_amended_only_dist_runs_to_end_of_line Hub.init "GAS=10,LIGHT=50".toList [] [] 1000).2.2.2.2.2.1
      (by decide)).1,
   ((C7_amended_only_dist_runs_to_end_of_line Hub.init "TEMP=45.0".toList [] [] 1000).1
      (by decide)).1,
   ((C7_amended_only_dist_runs_to_end_of_line Hub.init [] "GAS=10,".toList "30".toList
      1000).2.2.2.2.2.2 (by decide)).1⟩

/-- C8 (the program does otherwise): the unknown key `XGAS` of the line
`DATA:XGAS=5,` is read as `GAS`: the gas level becomes 5 and the gas tracker
counts a sample. -/
theorem C8_unknown_key_with_known_suffix_is_read :
    Hub.init.sensorData.gasLevel = 0 ∧ Hub.init.gasStats.count = 0
    ∧ (parseSensorData Hub.init "DATA:XGAS=5,".toList 1000).sensorData.gasLevel = 5
    ∧ (parseSensorData Hub.init "DATA:XGAS=5,".toList 1000).gasStats.count = 1 := by
  decide!

/-- C9 (the program does otherwise): after `DATA:IR=0,` the flag `irTriggered`
is true; the line `DATA:PIR=1,`, which has no IR field, then sets it to false. -/
theorem C9_pir_only_line_changes_ir_flag :
    (parseSensorData Hub.init "DATA:IR=0,".toList 1000).sensorData.irTriggered = true
    ∧ (parseSensorData (parseSensorData Hub.init "DATA:IR=0,".toList 1000)
        "DATA:PIR=1,".toList 6000).sensorData.irTriggered = false
    ∧ (parseSensorData (parseSensorData Hub.init "DATA:IR=0,".toList 1000)
        "DATA:PIR=1,".toList 6000).sensorData.motionDetected = true := by
  decide!

/-- C10: a line that starts with `DATA:` and holds none of the seven key
strings leaves the reading and the five trackers unchanged, sets `isOnline`,
stores the current time in `lastSensorUpdate` and adds one to `dataPoints`
(modulo `2^32`, the width of the counter; exactly one below its maximum). -/
theorem C10_line_without_keys_counts_as_reading (s : Hub) (line : List Char) (now : Nat)
    (hstart : startsWith line "DATA:".toList = true)
    (hkeys : ∀ key ∈ knownKeys, ¬ key <:+: line) :
    (parseSensorData s line now).sensorData = s.sensorData
    ∧ (parseSensorData s line now).tempStats = s.tempStats
    ∧ (parseSensorData s line now).gasStats = s.gasStats
    ∧ (parseSensorData s line now).soundStats = s.soundStats
    ∧ (parseSensorData s line now).lightStats = s.lightStats
    ∧ (parseSensorData s line now).distStats = s.distStats
    ∧ (parseSensorData s line now).isOnline = true
    ∧ (parseSensorData s line now).lastSensorUpdate = now
    ∧ (parseSensorData s line now).dataPoints = (s.dataPoints + 1) % 2 ^ 32
    ∧ (s.dataPoints + 1 < 2 ^ 32 →
        (parseSensorData s line now).dataPoints = s.dataPoints + 1) := by
  have hk : ∀ key ∈ knownKeys, ¬ key <:+: substringFrom line 5 := by
    intro key hmem hin
    apply hkeys key hmem
    rw [substringFrom_eq_drop] at hin
    exact hin.trans (List.drop_suffix 5 line).isInfix
  have hT := commaText_eq_none_of_not_infix _ _ 5 (hk "TEMP=".toList (by simp [knownKeys]))
  have hG := commaText_eq_none_of_not_infix _ _ 4 (hk "GAS=".toList (by simp [knownKeys]))
  have hS := commaText_eq_none_of_not_infix _ _ 6 (hk "SOUND=".toList (by simp [knownKeys]))
  have hP := commaText_eq_none_of_not_infix _ _ 4 (hk "PIR=".toList (by simp [knownKeys]))
  have hI := commaText_eq_none_of_not_infix _ _ 3 (hk "IR=".toList (by simp [knownKeys]))
  have hL := commaText_eq_none_of_not_infix _ _ 6 (hk "LIGHT=".toList (by simp [knownKeys]))
  have hD := tailText_eq_none_of_not_infix _ _ 5 (hk "DIST=".toList (by simp [knownKeys]))
  rw [parseSensorData_of_data s line now hstart, parseFields_eq, hT, hG, hS, hP, hI, hL, hD]
  refine ⟨rfl, rfl, rfl, rfl, rfl, rfl, rfl, rfl, rfl, ?_⟩
  intro hlt
  exact Nat.mod_eq_of_lt hlt

/-- Witness of C10: the line `DATA:` on the hub right after start-up. -/
theorem C10_witness :
    (parseSensorData Hub.init "DATA:".toList 1234).sensorData = Hub.init.sensorData
    ∧ (parseSensorData Hub.init "DATA:".toList 1234).isOnline = true
    ∧ (parseSensorData Hub.init "DATA:".toList 1234).lastSensorUpdate = 1234
    ∧ (parseSensorData Hub.init "DATA:".toList 1234).dataPoints = Hub.init.dataPoints + 1 :=
  have h := C10_line_without_keys_counts_as_reading Hub.init "DATA:".toList 1234
    (by decide) (by decide)
  ⟨h.1, h.2.2.2.2.2.2.1, h.2.2.2.2.2.2.2.1, h.2.2.2.2.2.2.2.2.2 (by decide)⟩

/-! ## Trackers -/

theorem feedSamples_concat (st : SensorStats) (xs : List ℚ) (x : ℚ) :
    feedSamples st (xs ++ [x]) = updateStats (feedSamples st xs) (Flt.fin x) := by
  unfold feedSamples
  rw [List.foldl_append]
  rfl

/-- Count and sum of a fresh tracker after a sequence of numbers. -/
theorem feedSamples_count_sum (xs : List ℚ) :
    (feedSamples {} xs).count = xs.length ∧ (feedSamples {} xs).sum = Flt.fin xs.sum := by
  induction xs using List.reverseRecOn with
  | nil => exact ⟨rfl, rfl⟩
  | append_singleton xs x ih =>
    rw [feedSamples_concat]
    obtain ⟨hc, hs⟩ := ih
    constructor
    · simp [updateStats, hc]
    · simp [updateStats, hs, Flt.add]

/-- Maximum of a fresh tracker after a sequence of numbers. -/
theorem feedSamples_maximum (xs : List ℚ) :
    (xs = [] → (feedSamples {} xs).maximum = Flt.nan) ∧
    (xs ≠ [] → ∃ m ∈ xs, (feedSamples {} xs).maximum = Flt.fin m ∧ ∀ x ∈ xs, x ≤ m) := by
  induction xs using List.reverseRecOn with
  | nil => exact ⟨fun _ => rfl, fun h => absurd rfl h⟩
  | append_singleton xs x ih =>
    rw [feedSamples_concat]
    refine ⟨fun h => absurd h (by simp), fun _ => ?_⟩
    by_cases hx : xs = []
    · subst hx
      refine ⟨x, by simp, ?_, by simp⟩
      simp [updateStats, ih.1 rfl, Flt.isnan]
    · obtain ⟨m, hm, hmax, hle⟩ := ih.2 hx
      by_cases hlt : m < x
      · refine ⟨x, by simp, ?_, ?_⟩
        · simp [updateStats, hmax, Flt.isnan, Flt.lt, hlt]
        · intro y hy
          rcases List.mem_append.1 hy with h | h
          · exact le_of_lt (lt_of_le_of_lt (hle y h) hlt)
          · simp at h
            exact le_of_eq h
      · refine ⟨m, List.mem_append_left _ hm, ?_, ?_⟩
        · simp [updateStats, hmax, Flt.isnan, Flt.lt, hlt]
        · intro y hy
          rcases List.mem_append.1 hy with h | h
          · exact hle y h
          · simp at h
            rw [h]
            exact not_lt.1 hlt

/-- Minimum of a fresh tracker after a sequence of numbers. -/
theorem feedSamples_minimum (xs : List ℚ) :
    (xs = [] → (feedSamples {} xs).minimum = Flt.nan) ∧
    (xs ≠ [] → ∃ m ∈ xs, (feedSamples {} xs).minimum = Flt.fin m ∧ ∀ x ∈ xs, m ≤ x) := by
  induction xs using List.reverseRecOn with
  | nil => exact ⟨fun _ => rfl, fun h => absurd rfl h⟩
  | append_singleton xs x ih =>
    rw [feedSamples_concat]
    refine ⟨fun h => absurd h (by simp), fun _ => ?_⟩
    by_cases hx : xs = []
    · subst hx
      refine ⟨x, by simp, ?_, by simp⟩
      simp [updateStats, ih.1 rfl, Flt.isnan]
    · obtain ⟨m, hm, hmin, hle⟩ := ih.2 hx
      by_cases hlt : x < m
      · refine ⟨x, by simp, ?_, ?_⟩
        · simp [updateStats, hmin, Flt.isnan, Flt.lt, hlt]
        · intro y hy
          rcases List.mem_append.1 hy with h | h
          · exact le_of_lt (lt_of_lt_of_le hlt (hle y h))
          · simp at h
            exact le_of_eq h.symm
      · refine ⟨m, List.mem_append_left _ hm, ?_, ?_⟩
        · simp [updateStats, hmin, Flt.isnan, Flt.lt, hlt]
        · intro y hy
          rcases List.mem_append.1 hy with h | h
          · exact hle y h
          · simp at h
            rw [h]
            exact not_lt.1 hlt

/-- Current value and average of a fresh tracker after a sequence of numbers. -/
theorem feedSamples_current_average (xs : List ℚ) (hne : xs ≠ []) :
    (feedSamples {} xs).current = Flt.fin (xs.getLast hne) ∧
    (feedSamples {} xs).average = Flt.fin (xs.sum / xs.length) := by
  obtain ⟨ys, y, rfl⟩ : ∃ ys y, xs = ys ++ [y] :=
    ⟨xs.dropLast, xs.getLast hne, (List.dropLast_append_getLast hne).symm⟩
  rw [feedSamples_concat]
  obtain ⟨hc, hs⟩ := feedSamples_count_sum ys
  constructor
  · simp [updateStats]
  · have hne0 : ((ys.length : Int) + 1) ≠ 0 := by omega
    simp only [updateStats, hc, hs, Flt.add, Flt.divInt, if_neg hne0]
    simp

/-- The gas block on a line that holds only a gas field. -/
theorem parseSensorData_gas_line (s : Hub) (g : List Char) (now : Nat) (hg : ',' ∉ g) :
    (parseSensorData s ("DATA:GAS=".toList ++ g ++ ",".toList) now).gasStats
      = updateStats s.gasStats (Flt.ofInt (toInt g)) := by
  have hline : "DATA:GAS=".toList ++ g ++ ",".toList
      = "DATA:".toList ++ ("GAS=".toList ++ (g ++ ',' :: [])) := by
    rw [show "DATA:GAS=".toList = "DATA:".toList ++ "GAS=".toList from rfl,
      show ",".toList = [','] from rfl]
    simp only [List.append_assoc]
  have htext : commaText ("GAS=".toList ++ (g ++ ',' :: [])) "GAS=".toList 4 = some g :=
    commaText_here "GAS=".toList g [] (by decide) (by decide) hg
  rw [hline, parseSensorData_of_data s _ now (startsWith_data _), parseFields_eq,
    substringFrom_data, htext]
  rfl

/-- The gas tracker after a run of lines that hold only a gas field. -/
theorem run_gas_lines (s : Hub) (texts : List (List Char × Nat))
    (hplain : ∀ p ∈ texts, ',' ∉ p.1) :
    (Hub.run s (texts.map
        (fun p => ("DATA:GAS=".toList ++ p.1 ++ ",".toList, p.2)))).gasStats
      = feedSamples s.gasStats (texts.map (fun p => ((toInt p.1 : Int) : ℚ))) := by
  induction texts using List.reverseRecOn with
  | nil => rfl
  | append_singleton texts p ih =>
    have h1 : ∀ q ∈ texts, ',' ∉ q.1 := fun q hq => hplain q (List.mem_append_left _ hq)
    have h2 : ',' ∉ p.1 := hplain p (by simp)
    rw [List.map_append, List.map_append, List.map_singleton, List.map_singleton,
      feedSamples_concat, ← ih h1]
    unfold Hub.run
    rw [List.foldl_append]
    exact parseSensorData_gas_line _ p.1 p.2 h2

/-- C11: a fresh tracker fed with a non-empty sequence of numbers has the
length of the sequence as count, its sum as sum, sum/count as average, the last
sample as current value and the greatest and least sample as maximum and
minimum; the gas tracker of the hub is fed in this way by the lines
`DATA:GAS=<text>,`. -/
theorem C11_tracker_statistics (xs : List ℚ) (hne : xs ≠ [])
    (texts : List (List Char × Nat)) (hplain : ∀ p ∈ texts, ',' ∉ p.1) :
    (feedSamples {} xs).count = xs.length
    ∧ (feedSamples {} xs).sum = Flt.fin xs.sum
    ∧ (feedSamples {} xs).average = Flt.fin (xs.sum / xs.length)
    ∧ (feedSamples {} xs).current = Flt.fin (xs.getLast hne)
    ∧ (∃ m ∈ xs, (feedSamples {} xs).maximum = Flt.fin m ∧ ∀ x ∈ xs, x ≤ m)
    ∧ (∃ m ∈ xs, (feedSamples {} xs).minimum = Flt.fin m ∧ ∀ x ∈ xs, m ≤ x)
    ∧ (Hub.run Hub.init (texts.map
          (fun p => ("DATA:GAS=".toList ++ p.1 ++ ",".toList, p.2)))).gasStats
        = feedSamples {} (texts.map (fun p => ((toInt p.1 : Int) : ℚ))) :=
  ⟨(feedSamples_count_sum xs).1, (feedSamples_count_sum xs).2,
    (feedSamples_current_average xs hne).2, (feedSamples_current_average xs hne).1,
    (feedSamples_maximum xs).2 hne, (feedSamples_minimum xs).2 hne,
    run_gas_lines Hub.init texts hplain⟩

/-- Witness of C11: the samples 3, 9, 6 and the lines `DATA:GAS=3,`,
`DATA:GAS=9,`, `DATA:GAS=6,`. -/
theorem C11_witness :
    (feedSamples {} [3, 9, 6]).count = 3
    ∧ (feedSamples {} [3, 9, 6]).average = Flt.fin (([3, 9, 6] : List ℚ).sum / 3)
    ∧ (Hub.run Hub.init [("DATA:GAS=3,".toList, 1000), ("DATA:GAS=9,".toList, 6000),
        ("DATA:GAS=6,".toList, 11000)]).gasStats
      = feedSamples {} [((toInt "3".toList : Int) : ℚ), ((toInt "9".toList : Int) : ℚ),
          ((toInt "6".toList : Int) : ℚ)] :=
  have h := C11_tracker_statistics [3, 9, 6] (by decide)
    [("3".toList, 1000), ("9".toList, 6000), ("6".toList, 11000)] (by decide)
  ⟨h.1, h.2.2.1, h.2.2.2.2.2.2⟩

/-- Each tracker after `parseSensorData`: one update with the value that the
reading holds afterwards when the block of the channel stored one, the old
tracker otherwise. -/
theorem parseSensorData_stats (s : Hub) (line : List Char) (now : Nat) :
    (parseSensorData s line now).tempStats
      = (if accepted line "TEMP=".toList 5 = true
          then updateStats s.tempStats (parseSensorData s line now).sensorData.temperature
          else s.tempStats)
    ∧ (parseSensorData s line now).gasStats
      = (if accepted line "GAS=".toList 4 = true
          then updateStats s.gasStats (Flt.ofInt (parseSensorData s line now).sensorData.gasLevel)
          else s.gasStats)
    ∧ (parseSensorData s line now).soundStats
      = (if accepted line "SOUND=".toList 6 = true
          then updateStats s.soundStats
            (Flt.ofInt (parseSensorData s line now).sensorData.soundLevel)
          else s.soundStats)
    ∧ (parseSensorData s line now).lightStats
      = (if accepted line "LIGHT=".toList 6 = true
          then updateStats s.lightStats
            (Flt.ofInt (parseSensorData s line now).sensorData.lightLevel)
          else s.lightStats)
    ∧ (parseSensorData s line now).distStats
      = (if acceptedTail line "DIST=".toList 5 = true
          then updateStats s.distStats
            (Flt.ofInt (parseSensorData s line now).sensorData.distance)
          else s.distStats) := by
  by_cases hstart : startsWith line "DATA:".toList = true
  · rw [parseSensorData_of_data s line now hstart, parseFields_eq]
    simp only [accepted, acceptedTail, hstart, Bool.true_and]
    generalize commaText (substringFrom line 5) "TEMP=".toList 5 = tT
    generalize commaText (substringFrom line 5) "GAS=".toList 4 = tG
    generalize commaText (substringFrom line 5) "SOUND=".toList 6 = tS
    generalize commaText (substringFrom line 5) "PIR=".toList 4 = tP
    generalize commaText (substringFrom line 5) "IR=".toList 3 = tI
    generalize commaText (substringFrom line 5) "LIGHT=".toList 6 = tL
    generalize tailText (substringFrom line 5) "DIST=".toList 5 = tD
    refine ⟨?_, ?_, ?_, ?_, ?_⟩
    · cases tT <;> simp [applyTexts]
    · cases tG <;> simp [applyTexts]
    · cases tS <;> simp [applyTexts]
    · cases tL <;> simp [applyTexts]
    · cases tD <;> simp [applyTexts]
  · have hf : startsWith line "DATA:".toList = false := Bool.eq_false_iff.2 hstart
    unfold parseSensorData
    simp only [hf, accepted, acceptedTail, Bool.false_and, Bool.false_eq_true, if_false,
      and_self]

theorem Flt.lt_self (a : Flt) : Flt.lt a a = false := by
  cases a <;> simp [Flt.lt]

theorem Flt.lt_flip (a b : Flt) (h : Flt.lt a b = true) : Flt.lt b a = false := by
  cases a <;> cases b <;> simp_all [Flt.lt]
  exact le_of_lt h

theorem neverLowers_self (st : SensorStats) : neverLowers st st :=
  ⟨Flt.lt_self _, Flt.lt_self _⟩

theorem neverLowers_update (st : SensorStats) (x : Flt) : neverLowers st (updateStats st x) := by
  unfold neverLowers updateStats
  constructor
  · by_cases hn : st.maximum.isnan = true
    · simp only [hn, Bool.true_or, if_true]
      cases hm : st.maximum <;> simp_all [Flt.isnan, Flt.lt]
      cases x <;> rfl
    · by_cases hl : Flt.lt st.maximum x = true
      · simp only [hl, Bool.or_true, if_true]
        exact Flt.lt_flip _ _ hl
      · simp only [hn, hl, Bool.or_self, Bool.false_eq_true, if_false]
        exact Flt.lt_self _
  · by_cases hn : st.minimum.isnan = true
    · simp only [hn, Bool.true_or, if_true]
      cases hm : st.minimum <;> simp_all [Flt.isnan, Flt.lt]
    · by_cases hl : Flt.lt x st.minimum = true
      · simp only [hl, Bool.or_true, if_true]
        exact Flt.lt_flip _ _ hl
      · simp only [hn, hl, Bool.or_self, Bool.false_eq_true, if_false]
        exact Flt.lt_self _

theorem numeric_fresh : ({} : SensorStats).numeric := by
  refine ⟨le_refl _, ⟨0, rfl⟩, fun _ => ⟨rfl, rfl, rfl, rfl⟩, fun h => absurd h (by decide)⟩

theorem numeric_update (st : SensorStats) (q : ℚ) (h : st.numeric) :
    (updateStats st (Flt.fin q)).numeric := by
  obtain ⟨hc, ⟨sm, hsum⟩, hz, hp⟩ := h
  have hne : st.count + 1 ≠ 0 := by omega
  refine ⟨by simp only [updateStats]; omega, ⟨sm + q, by simp [updateStats, hsum, Flt.add]⟩,
    fun h0 => absurd h0 (by simp only [updateStats]; omega), fun _ => ?_⟩
  refine ⟨⟨q, rfl⟩, ⟨(sm + q) / ((st.count + 1 : Int) : ℚ), ?_⟩, ?_, ?_⟩
  · simp only [updateStats, hsum, Flt.add, Flt.divInt, if_neg hne]
  · rcases lt_or_eq_of_le hc with hpos | hzero
    · obtain ⟨-, -, ⟨m, hm⟩, -⟩ := hp hpos
      by_cases hl : m < q
      · exact ⟨q, by simp [updateStats, hm, Flt.isnan, Flt.lt, hl]⟩
      · exact ⟨m, by simp [updateStats, hm, Flt.isnan, Flt.lt, hl]⟩
    · obtain ⟨-, -, hm, -⟩ := hz hzero.symm
      exact ⟨q, by simp [updateStats, hm]⟩
  · rcases lt_or_eq_of_le hc with hpos | hzero
    · obtain ⟨-, -, -, ⟨m, hm⟩⟩ := hp hpos
      by_cases hl : q < m
      · exact ⟨q, by simp [updateStats, hm, Flt.isnan, Flt.lt, hl]⟩
      · exact ⟨m, by simp [updateStats, hm, Flt.isnan, Flt.lt, hl]⟩
    · obtain ⟨-, -, -, hm⟩ := hz hzero.symm
      exact ⟨q, by simp [updateStats, hm]⟩

theorem numeric_definedIffSampled (st : SensorStats) (h : st.numeric) :
    st.definedIffSampled := by
  obtain ⟨-, -, hz, hp⟩ := h
  refine ⟨hz, fun hpos => ?_⟩
  obtain ⟨⟨a, ha⟩, ⟨b, hb⟩, ⟨c, hc⟩, ⟨d, hd⟩⟩ := hp hpos
  exact ⟨by rw [ha]; rfl, by rw [hb]; rfl, by rw [hc]; rfl, by rw [hd]; rfl⟩

theorem startsUndefined_update (st : SensorStats) (x : Flt) (h : st.startsUndefined) :
    (updateStats st x).startsUndefined := by
  obtain ⟨hc, -⟩ := h
  exact ⟨by simp only [updateStats]; omega, fun h0 => absurd h0 (by simp only [updateStats]; omega)⟩

theorem Hub.run_concat (s : Hub) (inputs : List (List Char × Nat)) (i : List Char × Nat) :
    Hub.run s (inputs ++ [i]) = parseSensorData (Hub.run s inputs) i.1 i.2 := by
  unfold Hub.run
  rw [List.foldl_append]
  rfl

/-- The invariants of the five trackers along a run of `parseSensorData`. -/
theorem run_trackers (s₀ : Hub) (inputs : List (List Char × Nat))
    (ht : s₀.tempStats.startsUndefined) (hg : s₀.gasStats.numeric)
    (hs : s₀.soundStats.numeric) (hl : s₀.lightStats.numeric) (hd : s₀.distStats.numeric) :
    (Hub.run s₀ inputs).tempStats.startsUndefined ∧ (Hub.run s₀ inputs).gasStats.numeric
    ∧ (Hub.run s₀ inputs).soundStats.numeric ∧ (Hub.run s₀ inputs).lightStats.numeric
    ∧ (Hub.run s₀ inputs).distStats.numeric := by
  induction inputs using List.reverseRecOn with
  | nil => exact ⟨ht, hg, hs, hl, hd⟩
  | append_singleton inputs i ih =>
    obtain ⟨it, ig, is, il, id⟩ := ih
    obtain ⟨pt, pg, ps, pl, pd⟩ := parseSensorData_stats (Hub.run s₀ inputs) i.1 i.2
    rw [Hub.run_concat]
    refine ⟨?_, ?_, ?_, ?_, ?_⟩
    · rw [pt]; split
      · exact startsUndefined_update _ _ it
      · exact it
    · rw [pg]; split
      · exact numeric_update _ _ ig
      · exact ig
    · rw [ps]; split
      · exact numeric_update _ _ is
      · exact is
    · rw [pl]; split
      · exact numeric_update _ _ il
      · exact il
    · rw [pd]; split
      · exact numeric_update _ _ id
      · exact id


theorem oneSided_fresh (bad : Flt) (hb : bad = Flt.ninf ∨ bad = Flt.pinf) :
    ({} : SensorStats).oneSided bad := by
  refine ⟨le_refl _, rfl, ?_, fun _ => ⟨rfl, rfl, rfl, rfl⟩, fun h => absurd h (by decide)⟩
  rcases hb with rfl | rfl <;> exact fun h => Flt.noConfusion h

theorem oneSided_update (bad : Flt) (hb : bad = Flt.ninf ∨ bad = Flt.pinf) (st : SensorStats)
    (x : Flt) (hx : x.isnan = false ∧ x ≠ bad) (h : st.oneSided bad) :
    (updateStats st x).oneSided bad := by
  obtain ⟨hc, hs, hsb, -, -⟩ := h
  obtain ⟨hxn, hxb⟩ := hx
  have hpos : ¬ st.count + 1 = 0 := by omega
  have hnn : (0 : Int) ≤ st.count + 1 := by omega
  have hsum : (Flt.add st.sum x).isnan = false ∧ Flt.add st.sum x ≠ bad := by
    rcases hb with rfl | rfl <;> cases hsv : st.sum <;> cases hxv : x <;>
      simp_all [Flt.add, Flt.isnan]
  refine ⟨by simp only [updateStats]; omega, hsum.1, hsum.2,
    fun h0 => absurd h0 (by simp only [updateStats]; omega), fun _ => ⟨hxn, ?_, ?_, ?_⟩⟩
  · simp only [updateStats]
    cases hv : Flt.add st.sum x with
    | nan => rw [hv] at hsum; exact absurd hsum.1 (by decide)
    | fin a => simp [Flt.divInt, hpos, Flt.isnan]
    | pinf => simp [Flt.divInt, hnn, Flt.isnan]
    | ninf => simp [Flt.divInt, hnn, Flt.isnan]
  · simp only [updateStats]
    by_cases hn : st.maximum.isnan = true
    · simp [hn, hxn]
    · by_cases hl : Flt.lt st.maximum x = true
      · simp [hl, hxn]
      · simp only [hn, hl, Bool.or_self, Bool.false_eq_true, if_false]
  · simp only [updateStats]
    by_cases hn : st.minimum.isnan = true
    · simp [hn, hxn]
    · by_cases hl : Flt.lt x st.minimum = true
      · simp [hl, hxn]
      · simp only [hn, hl, Bool.or_self, Bool.false_eq_true, if_false]

/-- The temperature tracker along a run of `parseSensorData` after each call of
which the temperature reading is neither NaN nor the infinity `bad`. -/
theorem run_tempStats_oneSided (bad : Flt) (hb : bad = Flt.ninf ∨ bad = Flt.pinf) (s₀ : Hub)
    (inputs : List (List Char × Nat)) (ht : s₀.tempStats.oneSided bad)
    (hok : ∀ k < inputs.length,
      (Hub.run s₀ (inputs.take (k + 1))).sensorData.temperature.isnan = false
      ∧ (Hub.run s₀ (inputs.take (k + 1))).sensorData.temperature ≠ bad) :
    (Hub.run s₀ inputs).tempStats.oneSided bad := by
  induction inputs using List.reverseRecOn with
  | nil => exact ht
  | append_singleton inputs i ih =>
    have hprev : (Hub.run s₀ inputs).tempStats.oneSided bad := by
      apply ih
      intro k hk
      have := hok k (by rw [List.length_append, List.length_singleton]; omega)
      rwa [List.take_append_of_le_length (by omega)] at this
    have hlast := hok inputs.length (by rw [List.length_append, List.length_singleton]; omega)
    rw [List.take_of_length_le (by rw [List.length_append, List.length_singleton])] at hlast
    obtain ⟨pt, -⟩ := parseSensorData_stats (Hub.run s₀ inputs) i.1 i.2
    rw [Hub.run_concat] at hlast ⊢
    rw [pt]
    split
    · exact oneSided_update bad hb _ _ hlast hprev
    · exact hprev

/-- Two temperature samples that are infinities of opposite sign leave the
temperature tracker with an undefined average, although neither is NaN. -/
theorem infinite_samples_leave_average_undefined :
    (Hub.run Hub.init [("DATA:TEMP=inf,".toList, 1000),
        ("DATA:TEMP=-inf,".toList, 6000)]).sensorData.temperature = Flt.ninf
    ∧ (Hub.run Hub.init [("DATA:TEMP=inf,".toList, 1000)]).sensorData.temperature = Flt.pinf
    ∧ (Hub.run Hub.init [("DATA:TEMP=inf,".toList, 1000),
        ("DATA:TEMP=-inf,".toList, 6000)]).tempStats.count = 2
    ∧ (Hub.run Hub.init [("DATA:TEMP=inf,".toList, 1000),
        ("DATA:TEMP=-inf,".toList, 6000)]).tempStats.average = Flt.nan := by
  decide!

/-- The first occurrence of a key in a text that holds it. -/
theorem first_occurrence (key body : List Char) (hne : key ≠ []) (h : key <:+: body) :
    ∃ pre w, body = pre ++ key ++ w ∧ ¬ key <:+: pre ++ key.dropLast := by
  induction body with
  | nil =>
    exact absurd (List.infix_nil.1 h) hne
  | cons c b ih =>
    by_cases hp : key <+: c :: b
    · obtain ⟨w, hw⟩ := hp
      exact ⟨[], w, by rw [List.nil_append, hw], not_infix_dropLast key hne⟩
    · have hb : key <:+: b := by
        rcases List.infix_cons_iff.1 h with h1 | h1
        · exact absurd h1 hp
        · exact h1
      obtain ⟨pre, w, hw, hfirst⟩ := ih hb
      refine ⟨c :: pre, w, by rw [hw]; rfl, ?_⟩
      intro hin
      rcases List.infix_cons_iff.1 hin with h1 | h1
      · apply hp
        have h2 : c :: (pre ++ key.dropLast) <+: c :: b := by
          rw [hw]
          refine ⟨[key.getLast hne] ++ w, ?_⟩
          conv_rhs => rw [← List.dropLast_append_getLast hne]
          simp only [List.cons_append, List.append_assoc]
        exact h1.trans h2
      · exact hfirst h1

/-- A suffix of a text that starts with a key lies within the text from the
first occurrence of the key on. -/
theorem suffix_of_first (key pre w t : List Char) (hne : key ≠ [])
    (hfirst : ¬ key <:+: pre ++ key.dropLast) (ht : t <:+ pre ++ key ++ w) (hp : key <+: t) :
    t <:+ key ++ w := by
  have hs : key ++ w <:+ pre ++ key ++ w := ⟨pre, by rw [List.append_assoc]⟩
  rcases List.suffix_or_suffix_of_suffix ht hs with h | h
  · exact h
  · obtain ⟨m, hm⟩ := h
    obtain ⟨a, ha⟩ := ht
    by_cases hmn : m = []
    · subst hmn
      rw [List.nil_append] at hm
      rw [← hm]
    · exfalso
      apply hfirst
      have hpre : a ++ m = pre := by
        have : (a ++ m) ++ (key ++ w) = pre ++ (key ++ w) := by
          rw [List.append_assoc, hm, ha, List.append_assoc]
        exact List.append_cancel_right this
      have h1 : m ++ key.dropLast <+: t := by
        rw [← hm]
        refine ⟨[key.getLast hne] ++ w, ?_⟩
        conv_rhs => rw [← List.dropLast_append_getLast hne]
        simp only [List.append_assoc]
      have hlen : key.length ≤ (m ++ key.dropLast).length := by
        have := List.length_pos_of_ne_nil hmn
        have := List.length_pos_of_ne_nil hne
        rw [List.length_append, List.length_dropLast]
        omega
      obtain ⟨r, hr⟩ := List.prefix_of_prefix_length_le hp h1 hlen
      refine ⟨a, r, ?_⟩
      rw [← hpre, List.append_assoc a m, ← hr, List.append_assoc]

/-- Every text either has no occurrence of the key with a comma behind it, or
holds behind the first occurrence of the key a text without a comma and then a
comma. -/
theorem comma_field_or_none (key body : List Char) (hne : key ≠ []) (hk : ',' ∉ key) :
    noCommaAfter key body
    ∨ ∃ pre v post, body = pre ++ key ++ v ++ ',' :: post
        ∧ ¬ key <:+: pre ++ key.dropLast ∧ ',' ∉ v := by
  by_cases hin : key <:+: body
  · obtain ⟨pre, w, hw, hfirst⟩ := first_occurrence key body hne hin
    by_cases hc : ',' ∈ w
    · obtain ⟨v, post, hv, hnv⟩ := List.eq_append_cons_of_mem hc
      right
      exact ⟨pre, v, post, by rw [hw, hv, List.append_assoc (pre ++ key)], hfirst, hnv⟩
    · left
      intro t ht hp hct
      rw [hw] at ht
      have hs := suffix_of_first key pre w t hne hfirst ((List.mem_tails _ _).1 ht) hp
      rcases List.mem_append.1 (hs.subset hct) with h1 | h1
      · exact hk h1
      · exact hc h1
  · left
    intro t ht hp
    exact absurd (hp.isInfix.trans ((List.mem_tails _ _).1 ht).isInfix) hin

/-- Every text either does not hold the key or holds it a first time. -/
theorem tail_field_or_none (key body : List Char) (hne : key ≠ []) :
    ¬ key <:+: body
    ∨ ∃ pre v, body = pre ++ key ++ v ∧ ¬ key <:+: pre ++ key.dropLast := by
  by_cases hin : key <:+: body
  · exact Or.inr (first_occurrence key body hne hin)
  · exact Or.inl hin

/-- The five trackers after the parse of a `DATA:` line, by the text that the
block of each channel converts. -/
theorem parseSensorData_trackers (s : Hub) (body : List Char) (now : Nat) :
    (parseSensorData s ("DATA:".toList ++ body) now).tempStats
      = ((commaText body "TEMP=".toList 5).map
          (fun t => updateStats s.tempStats (toFloat t))).getD s.tempStats
    ∧ (parseSensorData s ("DATA:".toList ++ body) now).gasStats
      = ((commaText body "GAS=".toList 4).map
          (fun t => updateStats s.gasStats (Flt.ofInt (toInt t)))).getD s.gasStats
    ∧ (parseSensorData s ("DATA:".toList ++ body) now).soundStats
      = ((commaText body "SOUND=".toList 6).map
          (fun t => updateStats s.soundStats (Flt.ofInt (toInt t)))).getD s.soundStats
    ∧ (parseSensorData s ("DATA:".toList ++ body) now).lightStats
      = ((commaText body "LIGHT=".toList 6).map
          (fun t => updateStats s.lightStats (Flt.ofInt (toInt t)))).getD s.lightStats
    ∧ (parseSensorData s ("DATA:".toList ++ body) now).distStats
      = ((tailText body "DIST=".toList 5).map
          (fun t => updateStats s.distStats (Flt.ofInt (toInt t)))).getD s.distStats := by
  rw [parseSensorData_of_data s _ now (startsWith_data body), parseFields_eq,
    substringFrom_data]
  exact ⟨rfl, rfl, rfl, rfl, rfl⟩

theorem byteOfBool_mod (b : Bool) : byteOfBool b % 256 = byteOfBool b := by
  cases b <;> rfl

theorem byteOfInt_mod (v : Int) : byteOfInt v % 256 = byteOfInt v := by
  unfold byteOfInt
  have h1 : 0 ≤ v % 256 := Int.emod_nonneg v (by decide)
  have h2 : v % 256 < 256 := Int.emod_lt_of_pos v (by decide)
  omega

/-- The eight bytes that `saveRelayStates` leaves at the addresses 0 to 7. -/
theorem saveRelayStates_stored (c : Controller) :
    (List.range 8).map (eepromRead (saveRelayStates c).eeprom)
      = [byteOfBool c.relay1, byteOfBool c.relay2, byteOfBool c.relay3, byteOfBool c.relay4,
         byteOfBool c.autoMode, byteOfInt c.hub.TEMP_THRESHOLD, byteOfInt c.hub.GAS_THRESHOLD,
         byteOfInt c.hub.SOUND_THRESHOLD] := by
  simp [saveRelayStates, eepromRead, eepromWrite, EEPROM_SIZE, ADDR_MODE, ADDR_THRESH_TEMP,
    ADDR_THRESH_GAS, ADDR_THRESH_SOUND, getRelayState, RELAY1, RELAY2, RELAY3, RELAY4,
    List.range, List.range.loop, byteOfBool_mod, byteOfInt_mod]

theorem saveRelayStates_effects (c : Controller) :
    (saveRelayStates c).effects = c.effects ++ [Effect.commit
      [byteOfBool c.relay1, byteOfBool c.relay2, byteOfBool c.relay3, byteOfBool c.relay4,
         byteOfBool c.autoMode, byteOfInt c.hub.TEMP_THRESHOLD, byteOfInt c.hub.GAS_THRESHOLD,
         byteOfInt c.hub.SOUND_THRESHOLD]] := by
  rw [← saveRelayStates_stored]
  rfl

/-- A line that starts with `ALERT:` goes to the log and to the automation only. -/
theorem handleMessage_alert (c : Controller) (now : Nat) (raw : List Char)
    (h : startsWith (trim raw) "ALERT:".toList = true) :
    handleMessage c now raw
      = automation (logEvent c now ("From ESP8266: ".toList ++ trim raw)) (trim raw) := by
  unfold handleMessage
  cases hm : trim raw with
  | nil => rw [hm] at h; exact absurd h (by decide)
  | cons x xs =>
    rw [hm] at h
    have hx : x = 'A' := by
      simp [startsWith, List.isPrefixOf, show "ALERT:".toList = ['A','L','E','R','T',':'] from rfl] at h
      exact h.1.symm
    subst hx
    have h1 : startsWith ('A' :: xs) "DATA:".toList = false := rfl
    have h2 : startsWith ('A' :: xs) "INFO:ESP8266_IP=".toList = false := rfl
    have h3 : startsWith ('A' :: xs) "PONG:".toList = false := rfl
    simp only [h1, h2, h3, Bool.false_eq_true, if_false]


/-! ## What the primitive steps leave alone -/

@[simp]
theorem setRelay_relay1 (pin : Nat) (st : Bool) (c : Controller) :
    (setRelay pin st c).relay1 = if pin = RELAY1 then st else c.relay1 := by
  unfold setRelay; split_ifs <;> rfl

@[simp]
theorem setRelay_relay2 (pin : Nat) (st : Bool) (c : Controller) :
    (setRelay pin st c).relay2 = if pin = RELAY2 then st else c.relay2 := by
  unfold setRelay; split_ifs <;> first | rfl | simp_all [RELAY1, RELAY2, RELAY3, RELAY4]

@[simp]
theorem setRelay_relay3 (pin : Nat) (st : Bool) (c : Controller) :
    (setRelay pin st c).relay3 = if pin = RELAY3 then st else c.relay3 := by
  unfold setRelay; split_ifs <;> first | rfl | simp_all [RELAY1, RELAY2, RELAY3, RELAY4]

@[simp]
theorem setRelay_relay4 (pin : Nat) (st : Bool) (c : Controller) :
    (setRelay pin st c).relay4 = if pin = RELAY4 then st else c.relay4 := by
  unfold setRelay; split_ifs <;> first | rfl | simp_all [RELAY1, RELAY2, RELAY3, RELAY4]

@[simp]
theorem setRelay_effects (pin : Nat) (st : Bool) (c : Controller) :
    (setRelay pin st c).effects = c.effects ++ [Effect.relay pin st] := by
  unfold setRelay; split_ifs <;> rfl

@[simp]
theorem setRelay_hub (pin : Nat) (st : Bool) (c : Controller) :
    (setRelay pin st c).hub = c.hub := by
  unfold setRelay; split_ifs <;> rfl

@[simp]
theorem setRelay_autoMode (pin : Nat) (st : Bool) (c : Controller) :
    (setRelay pin st c).autoMode = c.autoMode := by
  unfold setRelay; split_ifs <;> rfl

@[simp]
theorem setRelay_eeprom (pin : Nat) (st : Bool) (c : Controller) :
    (setRelay pin st c).eeprom = c.eeprom := by
  unfold setRelay; split_ifs <;> rfl

@[simp]
theorem setRelay_esp8266_connected (pin : Nat) (st : Bool) (c : Controller) :
    (setRelay pin st c).esp8266_connected = c.esp8266_connected := by
  unfold setRelay; split_ifs <;> rfl

@[simp]
theorem setRelay_esp8266_actual_ip (pin : Nat) (st : Bool) (c : Controller) :
    (setRelay pin st c).esp8266_actual_ip = c.esp8266_actual_ip := by
  unfold setRelay; split_ifs <;> rfl

@[simp]
theorem setRelay_logEntries (pin : Nat) (st : Bool) (c : Controller) :
    (setRelay pin st c).logEntries = c.logEntries := by
  unfold setRelay; split_ifs <;> rfl

@[simp]
theorem saveRelayStates_hub (c : Controller) :
    (saveRelayStates c).hub = c.hub := rfl

@[simp]
theorem saveRelayStates_relay1 (c : Controller) :
    (saveRelayStates c).relay1 = c.relay1 := rfl

@[simp]
theorem saveRelayStates_relay2 (c : Controller) :
    (saveRelayStates c).relay2 = c.relay2 := rfl

@[simp]
theorem saveRelayStates_relay3 (c : Controller) :
    (saveRelayStates c).relay3 = c.relay3 := rfl

@[simp]
theorem saveRelayStates_relay4 (c : Controller) :
    (saveRelayStates c).relay4 = c.relay4 := rfl

@[simp]
theorem saveRelayStates_autoMode (c : Controller) :
    (saveRelayStates c).autoMode = c.autoMode := rfl

@[simp]
theorem saveRelayStates_esp8266_connected (c : Controller) :
    (saveRelayStates c).esp8266_connected = c.esp8266_connected := rfl

@[simp]
theorem saveRelayStates_esp8266_actual_ip (c : Controller) :
    (saveRelayStates c).esp8266_actual_ip = c.esp8266_actual_ip := rfl

@[simp]
theorem saveRelayStates_logEntries (c : Controller) :
    (saveRelayStates c).logEntries = c.logEntries := rfl

@[simp]
theorem delay_hub (ms : Nat) (c : Controller) :
    (delay ms c).hub = c.hub := rfl

@[simp]
theorem delay_relay1 (ms : Nat) (c : Controller) :
    (delay ms c).relay1 = c.relay1 := rfl

@[simp]
theorem delay_relay2 (ms : Nat) (c : Controller) :
    (delay ms c).relay2 = c.relay2 := rfl

@[simp]
theorem delay_relay3 (ms : Nat) (c : Controller) :
    (delay ms c).relay3 = c.relay3 := rfl

@[simp]
theorem delay_relay4 (ms : Nat) (c : Controller) :
    (delay ms c).relay4 = c.relay4 := rfl

@[simp]
theorem delay_autoMode (ms : Nat) (c : Controller) :
    (delay ms c).autoMode = c.autoMode := rfl

@[simp]
theorem delay_eeprom (ms : Nat) (c : Controller) :
    (delay ms c).eeprom = c.eeprom := rfl

@[simp]
theorem delay_esp8266_connected (ms : Nat) (c : Controller) :
    (delay ms c).esp8266_connected = c.esp8266_connected := rfl

@[simp]
theorem delay_esp8266_actual_ip (ms : Nat) (c : Controller) :
    (delay ms c).esp8266_actual_ip = c.esp8266_actual_ip := rfl

@[simp]
theorem delay_logEntries (ms : Nat) (c : Controller) :
    (delay ms c).logEntries = c.logEntries := rfl

@[simp]
theorem delay_effects (ms : Nat) (c : Controller) :
    (delay ms c).effects = c.effects ++ [Effect.delay ms] := rfl

@[simp]
theorem notifyTelegram_hub (msg : String) (c : Controller) :
    (notifyTelegram msg c).hub = c.hub := rfl

@[simp]
theorem notifyTelegram_relay1 (msg : String) (c : Controller) :
    (notifyTelegram msg c).relay1 = c.relay1 := rfl

@[simp]
theorem notifyTelegram_relay2 (msg : String) (c : Controller) :
    (notifyTelegram msg c).relay2 = c.relay2 := rfl

@[simp]
theorem notifyTelegram_relay3 (msg : String) (c : Controller) :
    (notifyTelegram msg c).relay3 = c.relay3 := rfl

@[simp]
theorem notifyTelegram_relay4 (msg : String) (c : Controller) :
    (notifyTelegram msg c).relay4 = c.relay4 := rfl

@[simp]
theorem notifyTelegram_autoMode (msg : String) (c : Controller) :
    (notifyTelegram msg c).autoMode = c.autoMode := rfl

@[simp]
theorem notifyTelegram_eeprom (msg : String) (c : Controller) :
    (notifyTelegram msg c).eeprom = c.eeprom := rfl

@[simp]
theorem notifyTelegram_esp8266_connected (msg : String) (c : Controller) :
    (notifyTelegram msg c).esp8266_connected = c.esp8266_connected := rfl

@[simp]
theorem notifyTelegram_esp8266_actual_ip (msg : String) (c : Controller) :
    (notifyTelegram msg c).esp8266_actual_ip = c.esp8266_actual_ip := rfl

@[simp]
theorem notifyTelegram_logEntries (msg : String) (c : Controller) :
    (notifyTelegram msg c).logEntries = c.logEntries := rfl

@[simp]
theorem notifyTelegram_effects (msg : String) (c : Controller) :
    (notifyTelegram msg c).effects = c.effects ++ [Effect.notify msg] := rfl

@[simp]
theorem logEvent_hub (c : Controller) (now : Nat) (msg : List Char) :
    (logEvent c now msg).hub = c.hub := rfl

@[simp]
theorem logEvent_relay1 (c : Controller) (now : Nat) (msg : List Char) :
    (logEvent c now msg).relay1 = c.relay1 := rfl

@[simp]
theorem logEvent_relay2 (c : Controller) (now : Nat) (msg : List Char) :
    (logEvent c now msg).relay2 = c.relay2 := rfl

@[simp]
theorem logEvent_relay3 (c : Controller) (now : Nat) (msg : List Char) :
    (logEvent c now msg).relay3 = c.relay3 := rfl

@[simp]
theorem logEvent_relay4 (c : Controller) (now : Nat) (msg : List Char) :
    (logEvent c now msg).relay4 = c.relay4 := rfl

@[simp]
theorem logEvent_autoMode (c : Controller) (now : Nat) (msg : List Char) :
    (logEvent c now msg).autoMode = c.autoMode := rfl

@[simp]
theorem logEvent_eeprom (c : Controller) (now : Nat) (msg : List Char) :
    (logEvent c now msg).eeprom = c.eeprom := rfl

@[simp]
theorem logEvent_esp8266_connected (c : Controller) (now : Nat) (msg : List Char) :
    (logEvent c now msg).esp8266_connected = c.esp8266_connected := rfl

@[simp]
theorem logEvent_esp8266_actual_ip (c : Controller) (now : Nat) (msg : List Char) :
    (logEvent c now msg).esp8266_actual_ip = c.esp8266_actual_ip := rfl

@[simp]
theorem logEvent_effects (c : Controller) (now : Nat) (msg : List Char) :
    (logEvent c now msg).effects = c.effects := rfl

/-- The effects of the common tail of the automation (lines 1903-1907): the
store is saved, one dwell of 2000 ms passes, the four relays are switched off
and the store is saved again. -/
theorem automation_tail_effects (c : Controller) :
    (saveRelayStates (setRelay RELAY4 false (setRelay RELAY3 false (setRelay RELAY2 false
        (setRelay RELAY1 false (delay 2000 (saveRelayStates c))))))).effects
      = c.effects ++ [Effect.commit
          [byteOfBool c.relay1, byteOfBool c.relay2, byteOfBool c.relay3, byteOfBool c.relay4,
            byteOfBool c.autoMode, byteOfInt c.hub.TEMP_THRESHOLD,
            byteOfInt c.hub.GAS_THRESHOLD, byteOfInt c.hub.SOUND_THRESHOLD],
          Effect.delay 2000, Effect.relay RELAY1 false, Effect.relay RELAY2 false,
          Effect.relay RELAY3 false, Effect.relay RELAY4 false,
          Effect.commit [0, 0, 0, 0, byteOfBool c.autoMode, byteOfInt c.hub.TEMP_THRESHOLD,
            byteOfInt c.hub.GAS_THRESHOLD, byteOfInt c.hub.SOUND_THRESHOLD]] := by
  simp [saveRelayStates_effects, RELAY1, RELAY2, RELAY3, RELAY4, byteOfBool]

/-- The state after the common tail of the automation: the four relays are
off and the store holds the all-off state. -/
theorem automation_tail_state (c : Controller) :
    (saveRelayStates (setRelay RELAY4 false (setRelay RELAY3 false (setRelay RELAY2 false
        (setRelay RELAY1 false (delay 2000 (saveRelayStates c))))))).relay1 = false
    ∧ (saveRelayStates (setRelay RELAY4 false (setRelay RELAY3 false (setRelay RELAY2 false
        (setRelay RELAY1 false (delay 2000 (saveRelayStates c))))))).relay2 = false
    ∧ (saveRelayStates (setRelay RELAY4 false (setRelay RELAY3 false (setRelay RELAY2 false
        (setRelay RELAY1 false (delay 2000 (saveRelayStates c))))))).relay3 = false
    ∧ (saveRelayStates (setRelay RELAY4 false (setRelay RELAY3 false (setRelay RELAY2 false
        (setRelay RELAY1 false (delay 2000 (saveRelayStates c))))))).relay4 = false
    ∧ (List.range 8).map (eepromRead (saveRelayStates (setRelay RELAY4 false
        (setRelay RELAY3 false (setRelay RELAY2 false (setRelay RELAY1 false
          (delay 2000 (saveRelayStates c))))))).eeprom)
      = [0, 0, 0, 0, byteOfBool c.autoMode, byteOfInt c.hub.TEMP_THRESHOLD,
          byteOfInt c.hub.GAS_THRESHOLD, byteOfInt c.hub.SOUND_THRESHOLD] := by
  refine ⟨?_, ?_, ?_, ?_, ?_⟩
  · simp [RELAY1, RELAY2, RELAY3, RELAY4]
  · simp [RELAY1, RELAY2, RELAY3, RELAY4]
  · simp [RELAY1, RELAY2, RELAY3, RELAY4]
  · simp [RELAY1, RELAY2, RELAY3, RELAY4]
  · rw [saveRelayStates_stored]
    simp [RELAY1, RELAY2, RELAY3, RELAY4, byteOfBool]

/-- The automation in automatic mode on a line that starts with `ALERT:`. -/
theorem automation_auto (c : Controller) (msg : List Char) (hauto : c.autoMode = true)
    (hmsg : startsWith msg "ALERT:".toList = true) :
    automation c msg =
      saveRelayStates (setRelay RELAY4 false (setRelay RELAY3 false (setRelay RELAY2 false
        (setRelay RELAY1 false (delay 2000 (saveRelayStates
          (if msg = "ALERT:GAS_LEAK".toList then
            notifyTelegram "GAS Leak detected! Exhaust Fan ON" (setRelay RELAY1 true c)
          else if msg = "ALERT:TEMP_HIGH".toList then
            notifyTelegram "High Temperature detected! Cooling Fan ON" (setRelay RELAY3 true c)
          else if msg = "ALERT:MOTION_PIR".toList ∨ msg = "ALERT:PRESENCE_DETECTED".toList then
            notifyTelegram "Motion Detected! Lights ON" (setRelay RELAY2 true c)
          else if msg = "ALERT:SOUND_EVENT".toList ∨ msg = "ALERT:IR_TRIGGERED".toList then
            notifyTelegram "Sound/IR Triggered! Alarm Blinking" (blinkBuzzer 3 200 c)
          else c))))))) := by
  unfold automation
  rw [hauto, hmsg]
  rfl

/-- The automation does nothing in manual mode. -/
theorem automation_manual (c : Controller) (msg : List Char) (hman : c.autoMode = false) :
    automation c msg = c := by
  unfold automation
  rw [hman]
  rfl


/-! ## The link status along a run of the loop -/

@[simp]
theorem blinkBuzzer_hub (times delayMs : Nat) (c : Controller) :
    (blinkBuzzer times delayMs c).hub = c.hub := by
  induction times generalizing c with
  | zero => rfl
  | succ n ih => rw [blinkBuzzer, ih]; simp

/-- The automation does not touch the sensor part of the hub. -/
theorem automation_hub (c : Controller) (msg : List Char) : (automation c msg).hub = c.hub := by
  unfold automation
  split_ifs <;> simp

/-- The online flag after a received line: set by a `DATA:` line, kept by
every other line. -/
theorem handleMessage_isOnline (c : Controller) (now : Nat) (raw : List Char) :
    (handleMessage c now raw).hub.isOnline
      = (startsWith (trim raw) "DATA:".toList || c.hub.isOnline) := by
  unfold handleMessage
  rw [automation_hub]
  simp only [logEvent_hub]
  generalize startsWith (trim raw) "DATA:".toList = d
  generalize startsWith (trim raw) "INFO:ESP8266_IP=".toList = i
  generalize startsWith (trim raw) "PONG:".toList = p
  cases d <;> cases i <;> cases p <;> simp

/-- The time of the last update after a received line: the clock for a
`DATA:` line and for a `PONG:` line, the old value for every other line. -/
theorem handleMessage_lastSensorUpdate (c : Controller) (now : Nat) (raw : List Char) :
    (handleMessage c now raw).hub.lastSensorUpdate
      = (if startsWith (trim raw) "DATA:".toList = true then now
         else if startsWith (trim raw) "INFO:ESP8266_IP=".toList = true
           then c.hub.lastSensorUpdate
         else if startsWith (trim raw) "PONG:".toList = true then now
         else c.hub.lastSensorUpdate) := by
  unfold handleMessage
  rw [automation_hub]
  simp only [logEvent_hub]
  generalize startsWith (trim raw) "DATA:".toList = d
  generalize startsWith (trim raw) "INFO:ESP8266_IP=".toList = i
  generalize startsWith (trim raw) "PONG:".toList = p
  cases d <;> cases i <;> cases p <;> simp

/-- The clock of a run: the time of its last iteration, 0 for the empty run. -/
theorem runLoop_concat (c : Controller) (steps : List (Nat × Option (List Char)))
    (p : Nat × Option (List Char)) :
    runLoop c (steps ++ [p]) = loopStep (runLoop c steps) p.1 p.2 := by
  unfold runLoop
  rw [List.foldl_append]
  rfl

/-- The online flag and the time of the last update after one iteration whose
clock is not behind the last update. -/
theorem loopStep_link (c : Controller) (T : Nat) (line : Option (List Char))
    (hT : T < 2 ^ 32) (hle : c.hub.lastSensorUpdate ≤ T) :
    (loopStep c T line).hub.isOnline
        = (isDataStep (T, line)
            || (if T - c.hub.lastSensorUpdate > SENSOR_TIMEOUT then false else c.hub.isOnline))
    ∧ ((loopStep c T line).hub.lastSensorUpdate = T
        ∨ (loopStep c T line).hub.lastSensorUpdate = c.hub.lastSensorUpdate)
    ∧ (isDataStep (T, line) = true → (loopStep c T line).hub.lastSensorUpdate = T)
    ∧ (isDataStep (T, line) = false → isPongStep (T, line) = false →
        (loopStep c T line).hub.lastSensorUpdate = c.hub.lastSensorUpdate) := by
  have hmod : (T + 2 ^ 32 - c.hub.lastSensorUpdate) % 2 ^ 32 = T - c.hub.lastSensorUpdate := by
    have h1 : T + 2 ^ 32 - c.hub.lastSensorUpdate = (T - c.hub.lastSensorUpdate) + 2 ^ 32 := by
      omega
    rw [h1, Nat.add_mod_right]
    exact Nat.mod_eq_of_lt (by omega)
  unfold loopStep
  rw [hmod]
  cases line with
  | none =>
    simp only [isDataStep, isPongStep, Bool.false_or]
    split_ifs <;> simp
  | some raw =>
    simp only [isDataStep, isPongStep, handleMessage_isOnline, handleMessage_lastSensorUpdate]
    generalize startsWith (trim raw) "DATA:".toList = d
    generalize startsWith (trim raw) "INFO:ESP8266_IP=".toList = i
    generalize startsWith (trim raw) "PONG:".toList = p
    cases d <;> cases i <;> cases p <;> split_ifs <;> simp_all


theorem lastClock_concat (steps : List (Nat × Option (List Char)))
    (p : Nat × Option (List Char)) : lastClock (steps ++ [p]) = p.1 := by
  simp [lastClock]

theorem lastClock_le (steps : List (Nat × Option (List Char))) (T : Nat)
    (h : ∀ p ∈ steps, p.1 ≤ T) : lastClock steps ≤ T := by
  unfold lastClock
  cases hr : steps.reverse.head? with
  | none => simp
  | some p =>
    have hp : p ∈ steps := by
      have := List.mem_of_mem_head? hr
      simpa using this
    simpa using h p hp

theorem clockOrdered_concat (steps : List (Nat × Option (List Char)))
    (p : Nat × Option (List Char)) (h : clockOrdered (steps ++ [p])) :
    clockOrdered steps ∧ ∀ q ∈ steps, q.1 ≤ p.1 := by
  unfold clockOrdered at *
  rw [List.pairwise_append] at h
  exact ⟨h.1, fun q hq => h.2.2 q hq p (by simp)⟩

/-- Along a run with an ordered clock, the last update is not ahead of the
clock, it is not older than any accepted `DATA:` line, and the hub is online
whenever such a line is at most the timeout old. -/
theorem runLoop_window (c₀ : Controller) (steps : List (Nat × Option (List Char)))
    (h0 : c₀.hub.lastSensorUpdate = 0) (hord : clockOrdered steps)
    (hbound : ∀ p ∈ steps, p.1 < 2 ^ 32) :
    (runLoop c₀ steps).hub.lastSensorUpdate ≤ lastClock steps
    ∧ ∀ p ∈ steps, isDataStep p = true →
        p.1 ≤ (runLoop c₀ steps).hub.lastSensorUpdate
        ∧ (lastClock steps - p.1 ≤ SENSOR_TIMEOUT → (runLoop c₀ steps).hub.isOnline = true) := by
  induction steps using List.reverseRecOn with
  | nil =>
    refine ⟨?_, fun p hp => absurd hp (List.not_mem_nil p)⟩
    show c₀.hub.lastSensorUpdate ≤ _
    rw [h0]
    exact Nat.zero_le _
  | append_singleton steps a ih =>
    obtain ⟨hord', hle⟩ := clockOrdered_concat steps a hord
    obtain ⟨ihlast, ihdata⟩ := ih hord' (fun p hp => hbound p (List.mem_append_left _ hp))
    have hT : a.1 < 2 ^ 32 := hbound a (by simp)
    have hclock : lastClock steps ≤ a.1 := lastClock_le steps a.1 hle
    have hlast : (runLoop c₀ steps).hub.lastSensorUpdate ≤ a.1 := le_trans ihlast hclock
    obtain ⟨hon, hcases, hdata, -⟩ := loopStep_link (runLoop c₀ steps) a.1 a.2 hT hlast
    rw [runLoop_concat, lastClock_concat]
    refine ⟨?_, ?_⟩
    · rcases hcases with h | h
      · rw [h]
      · rw [h]; exact hlast
    · intro p hp hpd
      rcases List.mem_append.1 hp with hin | hin
      · obtain ⟨h1, h2⟩ := ihdata p hin hpd
        refine ⟨?_, fun hwin => ?_⟩
        · rcases hcases with h | h
          · rw [h]; exact hle p hin
          · rw [h]; exact h1
        · rw [hon]
          have hnot : ¬ a.1 - (runLoop c₀ steps).hub.lastSensorUpdate > SENSOR_TIMEOUT := by
            omega
          have hwas : (runLoop c₀ steps).hub.isOnline = true := h2 (by omega)
          simp [hnot, hwas]
      · have hpa : p = a := by simpa using hin
        subst hpa
        have hd : isDataStep (p.1, p.2) = true := hpd
        refine ⟨le_of_eq (hdata hd).symm, fun _ => ?_⟩
        rw [hon, hd]
        rfl

/-- Along a run with an ordered clock and without `PONG:` lines, from an
offline hub that has seen no update: either no `DATA:` line was accepted and
the hub is offline, or the last update is the time of an accepted `DATA:` line,
no accepted `DATA:` line is younger, and the hub is online exactly when that
time is at most the timeout old. -/
theorem runLoop_exact (c₀ : Controller) (steps : List (Nat × Option (List Char)))
    (h0 : c₀.hub.lastSensorUpdate = 0) (hoff : c₀.hub.isOnline = false)
    (hord : clockOrdered steps) (hbound : ∀ p ∈ steps, p.1 < 2 ^ 32)
    (hpong : ∀ p ∈ steps, isPongStep p = false) :
    ((runLoop c₀ steps).hub.isOnline = false ∧ (runLoop c₀ steps).hub.lastSensorUpdate = 0
        ∧ ∀ p ∈ steps, isDataStep p = false)
    ∨ (∃ p ∈ steps, isDataStep p = true ∧ p.1 = (runLoop c₀ steps).hub.lastSensorUpdate
        ∧ ((runLoop c₀ steps).hub.isOnline = true ↔ lastClock steps - p.1 ≤ SENSOR_TIMEOUT)) := by
  induction steps using List.reverseRecOn with
  | nil => exact Or.inl ⟨hoff, h0, fun p hp => absurd hp (List.not_mem_nil p)⟩
  | append_singleton steps a ih =>
    obtain ⟨hord', hle⟩ := clockOrdered_concat steps a hord
    have hb' : ∀ p ∈ steps, p.1 < 2 ^ 32 := fun p hp => hbound p (List.mem_append_left _ hp)
    have ih' := ih hord' hb' (fun p hp => hpong p (List.mem_append_left _ hp))
    obtain ⟨wlast, -⟩ := runLoop_window c₀ steps h0 hord' hb'
    have hT : a.1 < 2 ^ 32 := hbound a (by simp)
    have hclock : lastClock steps ≤ a.1 := lastClock_le steps a.1 hle
    have hlast : (runLoop c₀ steps).hub.lastSensorUpdate ≤ a.1 := le_trans wlast hclock
    obtain ⟨hon, -, hdata, hkeep⟩ := loopStep_link (runLoop c₀ steps) a.1 a.2 hT hlast
    have hnp : isPongStep (a.1, a.2) = false := hpong a (by simp)
    rw [runLoop_concat, lastClock_concat]
    by_cases hd : isDataStep (a.1, a.2) = true
    · refine Or.inr ⟨a, by simp, hd, (hdata hd).symm, ?_⟩
      rw [hon, hd]
      simp [SENSOR_TIMEOUT]
    · have hdf : isDataStep (a.1, a.2) = false := Bool.eq_false_iff.2 hd
      rw [hon, hkeep hdf hnp, hdf]
      rcases ih' with ⟨ioff, ilast, inodata⟩ | ⟨p, hp, hpd, hplast, hiff⟩
      · refine Or.inl ⟨?_, ilast, ?_⟩
        · rw [ioff]; simp
        · intro q hq
          rcases List.mem_append.1 hq with hin | hin
          · exact inodata q hin
          · have hqa : q = a := by simpa using hin
            rw [hqa]; exact hdf
      · refine Or.inr ⟨p, List.mem_append_left _ hp, hpd, hplast, ?_⟩
        rw [← hplast]
        by_cases hgt : a.1 - p.1 > SENSOR_TIMEOUT
        · simp [hgt]
          omega
        · have hwas : (runLoop c₀ steps).hub.isOnline = true := hiff.2 (by omega)
          simp [hgt, hwas]
          omega


/-! ## Claims on the automation -/

/-- C14: in automatic mode the line `ALERT:GAS_LEAK` switches relay 1 on before
any delay, the store then holds the relay states of that moment (relay 1 on,
the others as they were), one dwell of 2000 ms follows, then the four relays
are switched off and the store holds the all-off state; in the state after the
step the four relays are off and the stored relay bytes are 0. -/
theorem C14_gas_leak_actuation_and_reversion (c : Controller) (now : Nat) (raw : List Char)
    (hauto : c.autoMode = true) (hline : trim raw = "ALERT:GAS_LEAK".toList) :
    (handleMessage c now raw).effects
      = c.effects ++ [Effect.relay RELAY1 true,
          Effect.notify "GAS Leak detected! Exhaust Fan ON",
          Effect.commit [byteOfBool true, byteOfBool c.relay2, byteOfBool c.relay3,
            byteOfBool c.relay4, byteOfBool true, byteOfInt c.hub.TEMP_THRESHOLD,
            byteOfInt c.hub.GAS_THRESHOLD, byteOfInt c.hub.SOUND_THRESHOLD],
          Effect.delay 2000,
          Effect.relay RELAY1 false, Effect.relay RELAY2 false, Effect.relay RELAY3 false,
          Effect.relay RELAY4 false,
          Effect.commit [byteOfBool false, byteOfBool false, byteOfBool false,
            byteOfBool false, byteOfBool true, byteOfInt c.hub.TEMP_THRESHOLD,
            byteOfInt c.hub.GAS_THRESHOLD, byteOfInt c.hub.SOUND_THRESHOLD]]
    ∧ (handleMessage c now raw).relay1 = false ∧ (handleMessage c now raw).relay2 = false
    ∧ (handleMessage c now raw).relay3 = false ∧ (handleMessage c now raw).relay4 = false
    ∧ (List.range 4).map (eepromRead (handleMessage c now raw).eeprom)
        = [byteOfBool (handleMessage c now raw).relay1, byteOfBool (handleMessage c now raw).relay2,
           byteOfBool (handleMessage c now raw).relay3,
           byteOfBool (handleMessage c now raw).relay4] := by
  have hstart : startsWith (trim raw) "ALERT:".toList = true := by rw [hline]; rfl
  have hlog : (logEvent c now ("From ESP8266: ".toList ++ "ALERT:GAS_LEAK".toList)).autoMode
      = true := hauto
  rw [handleMessage_alert c now raw hstart, hline,
    automation_auto _ "ALERT:GAS_LEAK".toList hlog rfl]
  rw [if_pos rfl]
  obtain ⟨h1, h2, h3, h4, h5⟩ := automation_tail_state
    (notifyTelegram "GAS Leak detected! Exhaust Fan ON" (setRelay RELAY1 true
      (logEvent c now ("From ESP8266: ".toList ++ "ALERT:GAS_LEAK".toList))))
  refine ⟨?_, h1, h2, h3, h4, ?_⟩
  · rw [automation_tail_effects]
    simp [hauto, RELAY1, RELAY2, RELAY3, RELAY4, byteOfBool]
  · rw [h1, h2, h3, h4]
    have := congrArg (List.take 4) h5
    simpa [List.range, List.range.loop, byteOfBool] using this

/-- Witness of C14: the hub after start-up on a store with the automatic mode
receives `ALERT:GAS_LEAK` with its line end. -/
theorem C14_witness :
    (handleMessage (Controller.boot savedDefaults) 1000 "ALERT:GAS_LEAK\r".toList).relay1 = false
    ∧ (List.range 4).map (eepromRead
        (handleMessage (Controller.boot savedDefaults) 1000 "ALERT:GAS_LEAK\r".toList).eeprom)
      = [byteOfBool (handleMessage (Controller.boot savedDefaults) 1000
            "ALERT:GAS_LEAK\r".toList).relay1,
         byteOfBool (handleMessage (Controller.boot savedDefaults) 1000
            "ALERT:GAS_LEAK\r".toList).relay2,
         byteOfBool (handleMessage (Controller.boot savedDefaults) 1000
            "ALERT:GAS_LEAK\r".toList).relay3,
         byteOfBool (handleMessage (Controller.boot savedDefaults) 1000
            "ALERT:GAS_LEAK\r".toList).relay4] :=
  have h := C14_gas_leak_actuation_and_reversion (Controller.boot savedDefaults) 1000
    "ALERT:GAS_LEAK\r".toList (by decide) (by decide)
  ⟨h.2.1, h.2.2.2.2.2⟩


/-- The effects and the relays after `blinkBuzzer(3, 200)`. -/
theorem blinkBuzzer_three (c : Controller) :
    (blinkBuzzer 3 200 c).effects
      = c.effects ++ [Effect.relay RELAY4 true, Effect.delay 200, Effect.relay RELAY4 false,
          Effect.delay 200, Effect.relay RELAY4 true, Effect.delay 200,
          Effect.relay RELAY4 false, Effect.delay 200, Effect.relay RELAY4 true,
          Effect.delay 200, Effect.relay RELAY4 false, Effect.delay 200]
    ∧ (blinkBuzzer 3 200 c).relay1 = c.relay1 ∧ (blinkBuzzer 3 200 c).relay2 = c.relay2
    ∧ (blinkBuzzer 3 200 c).relay3 = c.relay3 ∧ (blinkBuzzer 3 200 c).relay4 = false
    ∧ (blinkBuzzer 3 200 c).autoMode = c.autoMode := by
  simp [blinkBuzzer, RELAY1, RELAY2, RELAY3, RELAY4]

/-- The effects of a line that starts with `ALERT:` in automatic mode: those of
the branch taken for the line, then the common tail. -/
theorem handleMessage_alert_effects (c : Controller) (now : Nat) (raw : List Char)
    (hauto : c.autoMode = true) (hstart : startsWith (trim raw) "ALERT:".toList = true)
    (a : Controller)
    (ha : a = (if trim raw = "ALERT:GAS_LEAK".toList then
            notifyTelegram "GAS Leak detected! Exhaust Fan ON" (setRelay RELAY1 true
              (logEvent c now ("From ESP8266: ".toList ++ trim raw)))
          else if trim raw = "ALERT:TEMP_HIGH".toList then
            notifyTelegram "High Temperature detected! Cooling Fan ON" (setRelay RELAY3 true
              (logEvent c now ("From ESP8266: ".toList ++ trim raw)))
          else if trim raw = "ALERT:MOTION_PIR".toList
              ∨ trim raw = "ALERT:PRESENCE_DETECTED".toList then
            notifyTelegram "Motion Detected! Lights ON" (setRelay RELAY2 true
              (logEvent c now ("From ESP8266: ".toList ++ trim raw)))
          else if trim raw = "ALERT:SOUND_EVENT".toList
              ∨ trim raw = "ALERT:IR_TRIGGERED".toList then
            notifyTelegram "Sound/IR Triggered! Alarm Blinking" (blinkBuzzer 3 200
              (logEvent c now ("From ESP8266: ".toList ++ trim raw)))
          else logEvent c now ("From ESP8266: ".toList ++ trim raw))) :
    handleMessage c now raw
      = saveRelayStates (setRelay RELAY4 false (setRelay RELAY3 false (setRelay RELAY2 false
          (setRelay RELAY1 false (delay 2000 (saveRelayStates a)))))) := by
  have hlog : (logEvent c now ("From ESP8266: ".toList ++ trim raw)).autoMode = true := hauto
  rw [handleMessage_alert c now raw hstart, automation_auto _ _ hlog hstart, ha]

/-- C15: in automatic mode the actuation is decided by the alert line alone:
`ALERT:GAS_LEAK` switches on relay 1 only, `ALERT:TEMP_HIGH` relay 3 only,
`ALERT:MOTION_PIR` and `ALERT:PRESENCE_DETECTED` relay 2 only, and
`ALERT:SOUND_EVENT` and `ALERT:IR_TRIGGERED` give three pulses of relay 4 with
200 ms on and 200 ms off and leave no relay switched on; the common tail of the
automation follows. -/
theorem C15_alert_to_relay_mapping (c : Controller) (now : Nat) (raw : List Char)
    (hauto : c.autoMode = true) :
    (trim raw = "ALERT:GAS_LEAK".toList →
      (handleMessage c now raw).effects
        = c.effects ++ [Effect.relay RELAY1 true,
            Effect.notify "GAS Leak detected! Exhaust Fan ON"]
          ++ dwellAndRevert c true c.relay2 c.relay3 c.relay4)
    ∧ (trim raw = "ALERT:TEMP_HIGH".toList →
      (handleMessage c now raw).effects
        = c.effects ++ [Effect.relay RELAY3 true,
            Effect.notify "High Temperature detected! Cooling Fan ON"]
          ++ dwellAndRevert c c.relay1 c.relay2 true c.relay4)
    ∧ (trim raw = "ALERT:MOTION_PIR".toList →
      (handleMessage c now raw).effects
        = c.effects ++ [Effect.relay RELAY2 true, Effect.notify "Motion Detected! Lights ON"]
          ++ dwellAndRevert c c.relay1 true c.relay3 c.relay4)
    ∧ (trim raw = "ALERT:PRESENCE_DETECTED".toList →
      (handleMessage c now raw).effects
        = c.effects ++ [Effect.relay RELAY2 true, Effect.notify "Motion Detected! Lights ON"]
          ++ dwellAndRevert c c.relay1 true c.relay3 c.relay4)
    ∧ (trim raw = "ALERT:SOUND_EVENT".toList →
      (handleMessage c now raw).effects
        = c.effects ++ [Effect.relay RELAY4 true, Effect.delay 200, Effect.relay RELAY4 false,
            Effect.delay 200, Effect.relay RELAY4 true, Effect.delay 200,
            Effect.relay RELAY4 false, Effect.delay 200, Effect.relay RELAY4 true,
            Effect.delay 200, Effect.relay RELAY4 false, Effect.delay 200,
            Effect.notify "Sound/IR Triggered! Alarm Blinking"]
          ++ dwellAndRevert c c.relay1 c.relay2 c.relay3 false)
    ∧ (trim raw = "ALERT:IR_TRIGGERED".toList →
      (handleMessage c now raw).effects
        = c.effects ++ [Effect.relay RELAY4 true, Effect.delay 200, Effect.relay RELAY4 false,
            Effect.delay 200, Effect.relay RELAY4 true, Effect.delay 200,
            Effect.relay RELAY4 false, Effect.delay 200, Effect.relay RELAY4 true,
            Effect.delay 200, Effect.relay RELAY4 false, Effect.delay 200,
            Effect.notify "Sound/IR Triggered! Alarm Blinking"]
          ++ dwellAndRevert c c.relay1 c.relay2 c.relay3 false) := by
  refine ⟨?_, ?_, ?_, ?_, ?_, ?_⟩
  · intro hline
    rw [handleMessage_alert_effects c now raw hauto (by rw [hline]; rfl) _ rfl, hline,
      if_pos rfl, automation_tail_effects]
    simp [dwellAndRevert, RELAY1, RELAY2, RELAY3, RELAY4, byteOfBool]
  · intro hline
    rw [handleMessage_alert_effects c now raw hauto (by rw [hline]; rfl) _ rfl, hline,
      if_neg (by decide), if_pos rfl, automation_tail_effects]
    simp [dwellAndRevert, RELAY1, RELAY2, RELAY3, RELAY4, byteOfBool]
  · intro hline
    rw [handleMessage_alert_effects c now raw hauto (by rw [hline]; rfl) _ rfl, hline,
      if_neg (by decide), if_neg (by decide), if_pos (Or.inl rfl), automation_tail_effects]
    simp [dwellAndRevert, RELAY1, RELAY2, RELAY3, RELAY4, byteOfBool]
  · intro hline
    rw [handleMessage_alert_effects c now raw hauto (by rw [hline]; rfl) _ rfl, hline,
      if_neg (by decide), if_neg (by decide), if_pos (Or.inr rfl), automation_tail_effects]
    simp [dwellAndRevert, RELAY1, RELAY2, RELAY3, RELAY4, byteOfBool]
  · intro hline
    rw [handleMessage_alert_effects c now raw hauto (by rw [hline]; rfl) _ rfl, hline,
      if_neg (by decide), if_neg (by decide), if_neg (by decide), if_pos (Or.inl rfl),
      automation_tail_effects]
    generalize "From ESP8266: ".toList ++ "ALERT:SOUND_EVENT".toList = m
    obtain ⟨he, h1, h2, h3, h4, h5⟩ := blinkBuzzer_three (logEvent c now m)
    simp [dwellAndRevert, he, h1, h2, h3, h4, h5, byteOfBool]
  · intro hline
    rw [handleMessage_alert_effects c now raw hauto (by rw [hline]; rfl) _ rfl, hline,
      if_neg (by decide), if_neg (by decide), if_neg (by decide), if_pos (Or.inr rfl),
      automation_tail_effects]
    generalize "From ESP8266: ".toList ++ "ALERT:IR_TRIGGERED".toList = m
    obtain ⟨he, h1, h2, h3, h4, h5⟩ := blinkBuzzer_three (logEvent c now m)
    simp [dwellAndRevert, he, h1, h2, h3, h4, h5, byteOfBool]

/-- Witness of C15: `ALERT:TEMP_HIGH` on the hub after start-up. -/
theorem C15_witness :
    (handleMessage (Controller.boot savedDefaults) 1000 "ALERT:TEMP_HIGH\r".toList).effects
      = (Controller.boot savedDefaults).effects ++ [Effect.relay RELAY3 true,
            Effect.notify "High Temperature detected! Cooling Fan ON"]
          ++ dwellAndRevert (Controller.boot savedDefaults)
              (Controller.boot savedDefaults).relay1 (Controller.boot savedDefaults).relay2 true
              (Controller.boot savedDefaults).relay4 :=
  (C15_alert_to_relay_mapping (Controller.boot savedDefaults) 1000 "ALERT:TEMP_HIGH\r".toList
    (by decide)).2.1 (by decide)

/-- The relays, the store, the mode and the effects after a received line in
manual mode. -/
theorem handleMessage_manual (c : Controller) (now : Nat) (raw : List Char)
    (hman : c.autoMode = false) :
    (handleMessage c now raw).relay1 = c.relay1 ∧ (handleMessage c now raw).relay2 = c.relay2
    ∧ (handleMessage c now raw).relay3 = c.relay3 ∧ (handleMessage c now raw).relay4 = c.relay4
    ∧ (handleMessage c now raw).eeprom = c.eeprom
    ∧ (handleMessage c now raw).effects = c.effects
    ∧ (handleMessage c now raw).autoMode = false := by
  unfold handleMessage
  dsimp only
  generalize startsWith (trim raw) "DATA:".toList = d
  generalize startsWith (trim raw) "INFO:ESP8266_IP=".toList = i
  generalize startsWith (trim raw) "PONG:".toList = p
  cases d <;> cases i <;> cases p <;>
    (simp only [Bool.false_eq_true, if_false, if_true]
     rw [automation_manual _ _ (by simpa using hman)]
     simp [hman])

/-- C16: in manual mode a received line, whatever it is and so also every line
that starts with `ALERT:`, leaves the four relays, the store and the mode as
they were and has no effect on the outside. -/
theorem C16_manual_mode_ignores_alerts (c : Controller) (now : Nat) (raw : List Char)
    (hman : c.autoMode = false) :
    (handleMessage c now raw).relay1 = c.relay1 ∧ (handleMessage c now raw).relay2 = c.relay2
    ∧ (handleMessage c now raw).relay3 = c.relay3 ∧ (handleMessage c now raw).relay4 = c.relay4
    ∧ (handleMessage c now raw).eeprom = c.eeprom
    ∧ (handleMessage c now raw).effects = c.effects
    ∧ (handleMessage c now raw).autoMode = false :=
  handleMessage_manual c now raw hman

/-- Witness of C16: the hub switched to manual mode with relay 2 on receives
`ALERT:GAS_LEAK`. -/
theorem C16_witness :
    (handleMessage (handleRelay 2 (handleToggleMode (Controller.boot savedDefaults) 1000).1
        2000).1 3000 "ALERT:GAS_LEAK\r".toList).relay2
      = (handleRelay 2 (handleToggleMode (Controller.boot savedDefaults) 1000).1 2000).1.relay2 :=
  (C16_manual_mode_ignores_alerts
    (handleRelay 2 (handleToggleMode (Controller.boot savedDefaults) 1000).1 2000).1 3000
    "ALERT:GAS_LEAK\r".toList (by decide)).2.1

/-- C17 (as stated, refuted): with the automatic mode on and relay 2 on, the
lines `ALERT:ROOM_DARK` and `ALERT:FOO` switch relay 2 off. -/
theorem C17_unmapped_alert_switches_relays_off :
    (handleToggleMode (handleRelay 2 (handleToggleMode (Controller.boot savedDefaults)
        1000).1 2000).1 3000).1.autoMode = true
    ∧ (handleToggleMode (handleRelay 2 (handleToggleMode (Controller.boot savedDefaults)
        1000).1 2000).1 3000).1.relay2 = true
    ∧ (handleMessage (handleToggleMode (handleRelay 2 (handleToggleMode
        (Controller.boot savedDefaults) 1000).1 2000).1 3000).1 4000
        "ALERT:ROOM_DARK\r".toList).relay2 = false
    ∧ (handleMessage (handleToggleMode (handleRelay 2 (handleToggleMode
        (Controller.boot savedDefaults) 1000).1 2000).1 3000).1 4000
        "ALERT:FOO\r".toList).relay2 = false
    ∧ eepromRead (handleToggleMode (handleRelay 2 (handleToggleMode
        (Controller.boot savedDefaults) 1000).1 2000).1 3000).1.eeprom 1 = 1
    ∧ eepromRead (handleMessage (handleToggleMode (handleRelay 2 (handleToggleMode
        (Controller.boot savedDefaults) 1000).1 2000).1 3000).1 4000
        "ALERT:ROOM_DARK\r".toList).eeprom 1 = 0 := by
  decide

/-- C17 (amended): in automatic mode a line that starts with `ALERT:` and is
none of the six mapped lines switches no relay on, pulses no buzzer and sends
no notification, but the common tail of the automation still runs: the relay
states are stored, one dwell of 2000 ms passes, the four relays are switched
off and the all-off state is stored.  The relays are the same afterwards
exactly when all four were off before. -/
theorem C17_amended_unmapped_alert_runs_tail (c : Controller) (now : Nat) (raw : List Char)
    (hauto : c.autoMode = true) (hstart : startsWith (trim raw) "ALERT:".toList = true)
    (hnot : trim raw ∉ mappedAlerts) :
    (handleMessage c now raw).effects
      = c.effects ++ dwellAndRevert c c.relay1 c.relay2 c.relay3 c.relay4
    ∧ (handleMessage c now raw).relay1 = false ∧ (handleMessage c now raw).relay2 = false
    ∧ (handleMessage c now raw).relay3 = false ∧ (handleMessage c now raw).relay4 = false
    ∧ (List.range 4).map (eepromRead (handleMessage c now raw).eeprom) = [0, 0, 0, 0]
    ∧ (((handleMessage c now raw).relay1 = c.relay1 ∧ (handleMessage c now raw).relay2 = c.relay2
        ∧ (handleMessage c now raw).relay3 = c.relay3
        ∧ (handleMessage c now raw).relay4 = c.relay4)
      ↔ (c.relay1 = false ∧ c.relay2 = false ∧ c.relay3 = false ∧ c.relay4 = false)) := by
  simp only [mappedAlerts, List.mem_cons, List.mem_singleton, List.not_mem_nil, or_false,
    not_or] at hnot
  obtain ⟨n1, n2, n3, n4, n5, n6⟩ := hnot
  rw [handleMessage_alert_effects c now raw hauto hstart _ rfl, if_neg n1, if_neg n2,
    if_neg (not_or.2 ⟨n3, n4⟩), if_neg (not_or.2 ⟨n5, n6⟩)]
  obtain ⟨h1, h2, h3, h4, h5⟩ := automation_tail_state
    (logEvent c now ("From ESP8266: ".toList ++ trim raw))
  refine ⟨?_, h1, h2, h3, h4, ?_, ?_⟩
  · rw [automation_tail_effects]
    simp [dwellAndRevert, byteOfBool]
  · have := congrArg (List.take 4) h5
    simpa [List.range, List.range.loop] using this
  · rw [h1, h2, h3, h4]
    constructor
    · rintro ⟨a, b, d, e⟩
      exact ⟨a.symm, b.symm, d.symm, e.symm⟩
    · rintro ⟨a, b, d, e⟩
      exact ⟨a.symm, b.symm, d.symm, e.symm⟩

/-- Witness of C17 (amended): `ALERT:ROOM_DARK` on the hub after start-up. -/
theorem C17_amended_witness :
    (handleMessage (Controller.boot savedDefaults) 1000 "ALERT:ROOM_DARK\r".toList).effects
      = (Controller.boot savedDefaults).effects
        ++ dwellAndRevert (Controller.boot savedDefaults) (Controller.boot savedDefaults).relay1
            (Controller.boot savedDefaults).relay2 (Controller.boot savedDefaults).relay3
            (Controller.boot savedDefaults).relay4 :=
  (C17_amended_unmapped_alert_runs_tail (Controller.boot savedDefaults) 1000
    "ALERT:ROOM_DARK\r".toList (by decide) (by decide) (by decide)).1


/-! ## Claims on the link status and on the control requests -/

/-- C18 (as stated, refuted): a `DATA:` line at 0 ms, a `PONG:` line at 9000 ms
and an iteration without a line at 15000 ms leave the hub online, although no
`DATA:` line has been accepted within the last 10000 ms. -/
theorem C18_pong_keeps_hub_online :
    (runLoop (Controller.boot savedDefaults)
        [(0, some "DATA:TEMP=24.00,GAS=100,SOUND=0,PIR=0,IR=1,LIGHT=50,DIST=30\r".toList),
         (9000, some "PONG:ESP8266\r".toList), (15000, none)]).hub.isOnline = true
    ∧ ¬ ∃ p ∈ [((0 : Nat),
            some "DATA:TEMP=24.00,GAS=100,SOUND=0,PIR=0,IR=1,LIGHT=50,DIST=30\r".toList),
          (9000, some "PONG:ESP8266\r".toList), (15000, none)],
        isDataStep p = true ∧ 15000 - p.1 ≤ SENSOR_TIMEOUT := by
  decide

/-- C18 (amended): over every run of loop iterations whose clock does not go
back, started offline with no update seen: if a `DATA:` line has been accepted
within the last 10000 ms the hub is online after the iteration; when no
`PONG:` line is received the converse holds too, so the hub is then offline
exactly when no `DATA:` line has been accepted within the last 10000 ms or none
at all.  A `PONG:` line renews the time of the last update without setting the
hub online: it never brings an offline hub online, but it can keep an online
hub online beyond that window. -/
theorem C18_amended_online_window (c₀ c : Controller) (steps : List (Nat × Option (List Char)))
    (T now : Nat) (line : Option (List Char)) (raw : List Char)
    (hoff : c₀.hub.isOnline = false) (h0 : c₀.hub.lastSensorUpdate = 0)
    (hord : clockOrdered (steps ++ [(T, line)])) (hT : T < 2 ^ 32) :
    ((∃ p ∈ steps ++ [(T, line)], isDataStep p = true ∧ T - p.1 ≤ SENSOR_TIMEOUT) →
      (runLoop c₀ (steps ++ [(T, line)])).hub.isOnline = true)
    ∧ ((∀ p ∈ steps ++ [(T, line)], isPongStep p = false) →
      ((runLoop c₀ (steps ++ [(T, line)])).hub.isOnline = false ↔
        ¬ ∃ p ∈ steps ++ [(T, line)], isDataStep p = true ∧ T - p.1 ≤ SENSOR_TIMEOUT))
    ∧ (isDataStep (now, some raw) = false →
      (handleMessage c now raw).hub.isOnline = c.hub.isOnline)
    ∧ (isDataStep (now, some raw) = false → isPongStep (now, some raw) = true →
      (handleMessage c now raw).hub.lastSensorUpdate = now) := by
  have hbound : ∀ p ∈ steps ++ [(T, line)], p.1 < 2 ^ 32 := by
    intro p hp
    rcases List.mem_append.1 hp with hin | hin
    · exact lt_of_le_of_lt ((clockOrdered_concat steps (T, line) hord).2 p hin) hT
    · have : p = (T, line) := by simpa using hin
      rw [this]; exact hT
  obtain ⟨-, hwin⟩ := runLoop_window c₀ (steps ++ [(T, line)]) h0 hord hbound
  rw [lastClock_concat] at hwin
  refine ⟨?_, ?_, ?_, ?_⟩
  · rintro ⟨p, hp, hpd, hpw⟩
    exact (hwin p hp hpd).2 hpw
  · intro hpong
    have hex := runLoop_exact c₀ (steps ++ [(T, line)]) h0 hoff hord hbound hpong
    rw [lastClock_concat] at hex
    constructor
    · intro hfalse
      rintro ⟨p, hp, hpd, hpw⟩
      have := (hwin p hp hpd).2 hpw
      rw [hfalse] at this
      exact Bool.false_ne_true this
    · intro hnone
      rcases hex with ⟨ioff, -, -⟩ | ⟨p, hp, hpd, -, hiff⟩
      · exact ioff
      · cases hon : (runLoop c₀ (steps ++ [(T, line)])).hub.isOnline with
        | false => rfl
        | true => exact absurd ⟨p, hp, hpd, hiff.1 hon⟩ hnone
  · intro hd
    rw [handleMessage_isOnline]
    have : startsWith (trim raw) "DATA:".toList = false := hd
    rw [this]
    rfl
  · intro hd hp
    have h1 : startsWith (trim raw) "DATA:".toList = false := hd
    have h2 : startsWith (trim raw) "PONG:".toList = true := hp
    have h3 : startsWith (trim raw) "INFO:ESP8266_IP=".toList = false := by
      cases hm : trim raw with
      | nil => rfl
      | cons x xs =>
        rw [hm] at h2
        have hx : x = 'P' := by
          simp [startsWith, List.isPrefixOf,
            show "PONG:".toList = ['P', 'O', 'N', 'G', ':'] from rfl] at h2
          exact h2.1.symm
        subst hx
        rfl
    rw [handleMessage_lastSensorUpdate, h1, h2, h3]
    rfl

/-- Witness of C18 (amended): a `DATA:` line at 0 ms and two iterations
without a line at 9000 ms and 15000 ms. -/
theorem C18_amended_witness :
    (runLoop (Controller.boot savedDefaults)
        ([(0, some "DATA:TEMP=24.00,GAS=100,SOUND=0,PIR=0,IR=1,LIGHT=50,DIST=30\r".toList),
          (9000, none)] ++ [(15000, none)])).hub.isOnline = false ↔
      ¬ ∃ p ∈ [((0 : Nat),
            some "DATA:TEMP=24.00,GAS=100,SOUND=0,PIR=0,IR=1,LIGHT=50,DIST=30\r".toList),
          (9000, none)] ++ [(15000, none)],
        isDataStep p = true ∧ 15000 - p.1 ≤ SENSOR_TIMEOUT :=
  (C18_amended_online_window (Controller.boot savedDefaults) (Controller.boot savedDefaults)
    [(0, some "DATA:TEMP=24.00,GAS=100,SOUND=0,PIR=0,IR=1,LIGHT=50,DIST=30\r".toList),
      (9000, none)] 15000 0 none [] (by decide) (by decide) (by decide) (by decide)).2.1
    (by decide)

/-- C19: in automatic mode the relay toggles (of the page and of the API), all-on
and all-off leave the whole state of the hub as it is, so the four relays, the
mode and the store; in manual mode a toggle of relay `n` inverts relay `n` and
leaves the other three relays as they are. -/
theorem C19_control_requests_gated_by_mode (c : Controller) (now : Nat) (uri : List Char)
    (k : Nat) :
    (c.autoMode = true →
      (handleApiRelayToggle c now uri).1 = c ∧ (handleRelay k c now).1 = c
      ∧ (handleApiAllOn c now).1 = c ∧ (handleApiAllOff c now).1 = c
      ∧ (handleAllOn c now).1 = c ∧ (handleAllOff c now).1 = c)
    ∧ (c.autoMode = false →
      ∀ n ∈ [1, 2, 3, 4], ∀ m ∈ [1, 2, 3, 4],
        relayState (handleRelay n c now).1 m
            = (if m = n then !relayState c m else relayState c m)
        ∧ relayState (handleApiRelayToggle c now (toggleUri n)).1 m
            = (if m = n then !relayState c m else relayState c m)) := by
  constructor
  · intro hauto
    simp [handleApiRelayToggle, handleRelay, handleApiAllOn, handleApiAllOff, handleAllOn,
      handleAllOff, hauto]
  · intro hman n hn m hm
    simp only [List.mem_cons, List.mem_singleton, List.not_mem_nil, or_false] at hn hm
    have a1 : (indexOf (toggleUri 1) "/api/relay/1/toggle".toList).isSome = true := by decide
    have a2 : (indexOf (toggleUri 2) "/api/relay/1/toggle".toList).isSome = false := by decide
    have b2 : (indexOf (toggleUri 2) "/api/relay/2/toggle".toList).isSome = true := by decide
    have a3 : (indexOf (toggleUri 3) "/api/relay/1/toggle".toList).isSome = false := by decide
    have b3 : (indexOf (toggleUri 3) "/api/relay/2/toggle".toList).isSome = false := by decide
    have d3 : (indexOf (toggleUri 3) "/api/relay/3/toggle".toList).isSome = true := by decide
    have a4 : (indexOf (toggleUri 4) "/api/relay/1/toggle".toList).isSome = false := by decide
    have b4 : (indexOf (toggleUri 4) "/api/relay/2/toggle".toList).isSome = false := by decide
    have d4 : (indexOf (toggleUri 4) "/api/relay/3/toggle".toList).isSome = false := by decide
    have e4 : (indexOf (toggleUri 4) "/api/relay/4/toggle".toList).isSome = true := by decide
    rcases hn with rfl | rfl | rfl | rfl <;> rcases hm with rfl | rfl | rfl | rfl <;>
      (simp only [handleApiRelayToggle, a1, a2, b2, a3, b3, d3, a4, b4, d4, e4,
        if_true, if_false, Bool.false_eq_true]
       simp [handleRelay, relayState, pinOfRelay, getRelayState, hman,
        RELAY1, RELAY2, RELAY3, RELAY4])

/-- Witness of C19: the hub after start-up in automatic mode, and the same hub
switched to manual mode. -/
theorem C19_witness :
    (handleApiAllOn (Controller.boot savedDefaults) 1000).1 = Controller.boot savedDefaults
    ∧ relayState (handleRelay 2 (handleToggleMode (Controller.boot savedDefaults) 1000).1
        2000).1 2
      = (if 2 = 2 then !relayState (handleToggleMode (Controller.boot savedDefaults) 1000).1 2
          else relayState (handleToggleMode (Controller.boot savedDefaults) 1000).1 2) :=
  ⟨((C19_control_requests_gated_by_mode (Controller.boot savedDefaults) 1000 [] 1).1
      (by decide)).2.2.1,
   (((C19_control_requests_gated_by_mode
      (handleToggleMode (Controller.boot savedDefaults) 1000).1 2000 [] 1).2 (by decide))
      2 (by decide) 2 (by decide)).1⟩

/-- C20 (the program does otherwise): in automatic mode the bulk requests
all-on and all-off, and the toggle of the page, are rejected (the relays stay
as they are) and still answered with status 200, the status of a success; only
the toggle of the API answers 400. -/
theorem C20_rejected_bulk_request_answers_200 :
    (Controller.boot savedDefaults).autoMode = true
    ∧ (handleApiAllOn (Controller.boot savedDefaults) 1000).2 = 200
    ∧ (handleApiAllOn (Controller.boot savedDefaults) 1000).1.relay1 = false
    ∧ (handleApiAllOff (Controller.boot savedDefaults) 1000).2 = 200
    ∧ (handleRelay 1 (Controller.boot savedDefaults) 1000).2 = 200
    ∧ (handleApiRelayToggle (Controller.boot savedDefaults) 1000 (toggleUri 1)).2 = 400
    ∧ (handleApiAllOn (handleToggleMode (Controller.boot savedDefaults) 1000).1 2000).2 = 200
    ∧ (handleApiAllOn (handleToggleMode (Controller.boot savedDefaults) 1000).1
        2000).1.relay1 = true := by
  decide

/-! ## Decimal texts and their conversion -/

theorem digitChar_isDigit (k : Nat) (h : k < 10) : (Nat.digitChar k).isDigit = true := by
  interval_cases k <;> rfl

theorem digitChar_value (k : Nat) (h : k < 10) : (Nat.digitChar k).toNat - 48 = k := by
  interval_cases k <;> rfl

theorem toDigitsCore_digits (fuel n : Nat) (ds : List Char)
    (hds : ∀ c ∈ ds, c.isDigit = true) :
    ∀ c ∈ Nat.toDigitsCore 10 fuel n ds, c.isDigit = true := by
  induction fuel generalizing n ds with
  | zero => simpa [Nat.toDigitsCore] using hds
  | succ f ih =>
    have hd : ∀ c ∈ Nat.digitChar (n % 10) :: ds, c.isDigit = true := by
      intro c hc
      rcases List.mem_cons.1 hc with rfl | hc
      · exact digitChar_isDigit _ (Nat.mod_lt _ (by decide))
      · exact hds c hc
    rw [Nat.toDigitsCore]
    split
    · exact hd
    · exact ih _ _ hd

theorem digitsToNat_cons (c : Char) (l : List Char) :
    digitsToNat (c :: l) = (c.toNat - 48) * 10 ^ l.length + digitsToNat l := by
  unfold digitsToNat
  have gen : ∀ (l : List Char) (a : Nat),
      l.foldl (fun a c => a * 10 + (c.toNat - 48)) a
        = a * 10 ^ l.length + l.foldl (fun a c => a * 10 + (c.toNat - 48)) 0 := by
    intro l
    induction l with
    | nil => intro a; simp
    | cons d l ih =>
      intro a
      rw [List.foldl_cons, ih, List.foldl_cons, ih (0 * 10 + (d.toNat - 48))]
      simp only [List.length_cons, pow_succ]
      ring
  rw [List.foldl_cons, gen]
  simp

theorem toDigitsCore_value (fuel n : Nat) (ds : List Char) (h : n < fuel) :
    digitsToNat (Nat.toDigitsCore 10 fuel n ds) = n * 10 ^ ds.length + digitsToNat ds := by
  induction fuel generalizing n ds with
  | zero => omega
  | succ f ih =>
    rw [Nat.toDigitsCore]
    split
    · rename_i h0
      rw [digitsToNat_cons, digitChar_value _ (Nat.mod_lt _ (by decide))]
      have : n % 10 = n := by omega
      rw [this]
    · rename_i h0
      rw [ih _ _ (by omega), digitsToNat_cons, digitChar_value _ (Nat.mod_lt _ (by decide))]
      simp only [List.length_cons, pow_succ]
      have e : n * 10 ^ ds.length = (10 * (n / 10) + n % 10) * 10 ^ ds.length := by
        rw [Nat.div_add_mod]
      rw [e]
      ring

theorem toDigitsCore_ne_nil (fuel n : Nat) (ds : List Char) (h : ds ≠ [] ∨ 0 < fuel) :
    Nat.toDigitsCore 10 fuel n ds ≠ [] := by
  induction fuel generalizing n ds with
  | zero =>
    rcases h with h | h
    · simpa [Nat.toDigitsCore] using h
    · omega
  | succ f ih =>
    rw [Nat.toDigitsCore]
    split
    · simp
    · exact ih _ _ (Or.inl (by simp))

theorem toDigits_ne_nil (n : Nat) : Nat.toDigits 10 n ≠ [] :=
  toDigitsCore_ne_nil _ _ _ (Or.inr (Nat.succ_pos n))

theorem toDigits_digits (n : Nat) : ∀ c ∈ Nat.toDigits 10 n, c.isDigit = true :=
  toDigitsCore_digits _ _ _ (by simp)

theorem toDigits_value (n : Nat) : digitsToNat (Nat.toDigits 10 n) = n := by
  have := toDigitsCore_value (n + 1) n [] (Nat.lt_succ_self n)
  simpa [digitsToNat] using this

theorem isDigit_mem (c : Char) (h : c.isDigit = true) : c ∈ "0123456789".toList := by
  have h1 : 48 ≤ c.toNat ∧ c.toNat ≤ 57 := by
    simp only [Char.isDigit, Bool.and_eq_true, decide_eq_true_eq] at h
    exact ⟨h.1, h.2⟩
  have h2 : c = Char.ofNat c.toNat := (Char.ofNat_toNat c).symm
  generalize c.toNat = k at h1 h2
  obtain ⟨a, b⟩ := h1
  subst h2
  interval_cases k <;> decide

theorem isDigit_facts (c : Char) (h : c.isDigit = true) :
    isSpace c = false ∧ c ≠ '-' ∧ c ≠ '+' ∧ c ≠ ',' ∧ c ≠ '=' ∧ c ≠ '.'
      ∧ c.toLower ≠ 'i' ∧ c.toLower ≠ 'n' ∧ c ≠ 'e' ∧ c ≠ 'E' := by
  have hm := isDigit_mem c h
  have hall : ∀ d ∈ "0123456789".toList, isSpace d = false ∧ d ≠ '-' ∧ d ≠ '+' ∧ d ≠ ','
      ∧ d ≠ '=' ∧ d ≠ '.' ∧ d.toLower ≠ 'i' ∧ d.toLower ≠ 'n' ∧ d ≠ 'e' ∧ d ≠ 'E' := by
    decide
  exact hall c hm

theorem takeWhile_digits (l : List Char) (h : ∀ c ∈ l, c.isDigit = true) :
    l.takeWhile Char.isDigit = l ∧ l.dropWhile Char.isDigit = [] := by
  constructor
  · exact List.takeWhile_eq_self_iff.2 h
  · exact List.dropWhile_eq_nil_iff.2 h

/-- The digits of a natural number, as `atol` reads them. -/
theorem atol_toDigits (n : Nat) :
    atol (Nat.toDigits 10 n) = min LONG_MAX (n : Int)
    ∧ atol ('-' :: Nat.toDigits 10 n) = max LONG_MIN (-(n : Int)) := by
  have hd := toDigits_digits n
  have hv := toDigits_value n
  have hne := toDigits_ne_nil n
  obtain ⟨ht, -⟩ := takeWhile_digits _ hd
  constructor
  · cases hl : Nat.toDigits 10 n with
    | nil => exact absurd hl hne
    | cons c r =>
      rw [hl] at hd ht hv
      obtain ⟨hs, hm, hp, -⟩ := isDigit_facts c (hd c (List.mem_cons_self _ _))
      unfold atol
      rw [List.dropWhile_cons_of_neg (by simp [hs])]
      simp only [hm, hp, if_false, ht, hv]
  · unfold atol
    rw [List.dropWhile_cons_of_neg (by decide)]
    simp only [if_true, ht, hv]

theorem toInt_decimal (v : Int) (h : isLong v) : toInt (decimal v) = v := by
  obtain ⟨h1, h2⟩ := h
  unfold toInt decimal
  by_cases hneg : v < 0
  · rw [if_pos hneg, (atol_toDigits _).2]
    have : -((v.natAbs : Nat) : Int) = v := by omega
    rw [this]
    exact max_eq_right h1
  · rw [if_neg hneg, (atol_toDigits _).1]
    have : ((v.natAbs : Nat) : Int) = v := by omega
    rw [this]
    exact min_eq_right h2

theorem unsignedFloat_toDigits (n : Nat) : unsignedFloat (Nat.toDigits 10 n) = Flt.fin n := by
  have hd := toDigits_digits n
  have hv := toDigits_value n
  have hne := toDigits_ne_nil n
  obtain ⟨ht, hdr⟩ := takeWhile_digits _ hd
  have hinf : startsWith ((Nat.toDigits 10 n).map Char.toLower) "inf".toList = false
      ∧ startsWith ((Nat.toDigits 10 n).map Char.toLower) "nan".toList = false := by
    cases hl : Nat.toDigits 10 n with
    | nil => exact absurd hl hne
    | cons c r =>
      rw [hl] at hd
      obtain ⟨-, -, -, -, -, -, hi, hn, -⟩ := isDigit_facts c (hd c (List.mem_cons_self _ _))
      have hi2 : ¬ 'i' = c.toLower := fun h => hi h.symm
      have hn2 : ¬ 'n' = c.toLower := fun h => hn h.symm
      constructor
      · simp [startsWith, List.isPrefixOf, show "inf".toList = ['i', 'n', 'f'] from rfl, hi2]
      · simp [startsWith, List.isPrefixOf, show "nan".toList = ['n', 'a', 'n'] from rfl, hn2]
  unfold unsignedFloat
  rw [hinf.1, hinf.2]
  simp only [Bool.false_eq_true, if_false]
  unfold decimalValue
  simp only [ht, hdr, fractionDigits, afterMantissa, exponentValue, List.append_nil, hv]
  have hemp : (Nat.toDigits 10 n).isEmpty = false := by
    cases hl : Nat.toDigits 10 n with
    | nil => exact absurd hl hne
    | cons c r => rfl
  simp [hemp]

/-- The digits of a natural number, as `atof` reads them. -/
theorem atof_toDigits (n : Nat) :
    atof (Nat.toDigits 10 n) = Flt.fin (n : ℚ)
    ∧ atof ('-' :: Nat.toDigits 10 n) = Flt.fin (-(n : ℚ)) := by
  have hne := toDigits_ne_nil n
  have hd := toDigits_digits n
  have hu := unsignedFloat_toDigits n
  constructor
  · cases hl : Nat.toDigits 10 n with
    | nil => exact absurd hl hne
    | cons c r =>
      rw [hl] at hd hu
      obtain ⟨hs, hm, hp, -⟩ := isDigit_facts c (hd c (List.mem_cons_self _ _))
      unfold atof
      rw [List.dropWhile_cons_of_neg (by simp [hs])]
      simp only [hm, hp, if_false, hu]
  · unfold atof
    rw [List.dropWhile_cons_of_neg (by decide)]
    simp only [if_true, hu, Flt.neg]

theorem toFloat_decimal (v : Int) : toFloat (decimal v) = Flt.fin (v : ℚ) := by
  unfold toFloat decimal
  by_cases hneg : v < 0
  · rw [if_pos hneg, (atof_toDigits _).2]
    congr 1
    have : ((v.natAbs : Nat) : Int) = -v := by omega
    have h2 : ((v.natAbs : Nat) : ℚ) = (((v.natAbs : Nat) : Int) : ℚ) :=
      (Int.cast_natCast _).symm
    rw [h2, this]
    push_cast
    ring
  · rw [if_neg hneg, (atof_toDigits _).1]
    congr 1
    have : ((v.natAbs : Nat) : Int) = v := by omega
    have h2 : ((v.natAbs : Nat) : ℚ) = (((v.natAbs : Nat) : Int) : ℚ) :=
      (Int.cast_natCast _).symm
    rw [h2, this]

theorem decimal_chars (v : Int) : ∀ c ∈ decimal v, c = '-' ∨ c.isDigit = true := by
  intro c hc
  unfold decimal at hc
  split at hc
  · rcases List.mem_cons.1 hc with rfl | hc
    · exact Or.inl rfl
    · exact Or.inr (toDigits_digits _ c hc)
  · exact Or.inr (toDigits_digits _ c hc)

theorem plainValue_decimal (v : Int) : plainValue (decimal v) := by
  constructor
  · intro h
    rcases decimal_chars v _ h with h | h
    · exact absurd h (by decide)
    · exact absurd h (by decide)
  · intro h
    rcases decimal_chars v _ h with h | h
    · exact absurd h (by decide)
    · exact absurd h (by decide)


/-! ## The rounding of the temperature threshold to 32 bits -/

theorem roundHalfEven_intCast (z : Int) : roundHalfEven (z : ℚ) = z := by
  unfold roundHalfEven
  simp

/-- A number whose quotient by the unit of its binade is an integer is kept by
the rounding. -/
theorem toFloat32_of_quotient (q : ℚ) (z : Int) (hq : q ≠ 0)
    (hz : q / 2 ^ (Int.log 2 |q| - 23) = (z : ℚ)) :
    Flt.toFloat32 (Flt.fin q) = Flt.fin q := by
  unfold Flt.toFloat32
  dsimp only
  rw [if_neg hq, hz, roundHalfEven_intCast, ← hz]
  exact congrArg Flt.fin (div_mul_cancel₀ q (zpow_ne_zero _ (by norm_num)))

/-- The integers up to 2^24 in absolute value are kept by the rounding. -/
theorem toFloat32_intCast (t : Int) (h : |t| ≤ 2 ^ 24) :
    Flt.toFloat32 (Flt.fin (t : ℚ)) = Flt.fin (t : ℚ) := by
  by_cases h0 : t = 0
  · subst h0
    simp [Flt.toFloat32]
  have hq : (t : ℚ) ≠ 0 := by exact_mod_cast h0
  have hpos : (0 : ℚ) < |(t : ℚ)| := abs_pos.2 hq
  have habs : |(t : ℚ)| = ((|t| : Int) : ℚ) := by simp
  have hle : |(t : ℚ)| ≤ 2 ^ 24 := by
    rw [habs]; exact_mod_cast h
  have hge : (1 : ℚ) ≤ |(t : ℚ)| := by
    rw [habs]
    have : (1 : Int) ≤ |t| := Int.one_le_abs h0
    exact_mod_cast this
  have h25 : Int.log 2 |(t : ℚ)| < 25 := by
    rw [← Int.lt_zpow_iff_log_lt (by norm_num) hpos]
    calc |(t : ℚ)| ≤ 2 ^ 24 := hle
      _ < ((2 : ℕ) : ℚ) ^ (25 : ℤ) := by norm_num
  have h00 : 0 ≤ Int.log 2 |(t : ℚ)| := by
    rw [← Int.zpow_le_iff_le_log (by norm_num) hpos]
    simpa using hge
  by_cases h23 : Int.log 2 |(t : ℚ)| ≤ 23
  · obtain ⟨k, hk⟩ : ∃ k : ℕ, Int.log 2 |(t : ℚ)| - 23 = -(k : ℤ) :=
      ⟨(23 - Int.log 2 |(t : ℚ)|).toNat, by omega⟩
    refine toFloat32_of_quotient _ (t * 2 ^ k) hq ?_
    rw [hk, zpow_neg, zpow_natCast, div_inv_eq_mul]
    push_cast
    ring
  · have h24 : Int.log 2 |(t : ℚ)| = 24 := by omega
    have hlow : (2 : ℚ) ^ 24 ≤ |(t : ℚ)| := by
      have := Int.zpow_log_le_self (b := 2) (r := |(t : ℚ)|) (by norm_num) hpos
      rw [h24] at this
      have e : ((2 : ℕ) : ℚ) ^ (24 : ℤ) = (2 : ℚ) ^ 24 := by norm_num
      rw [e] at this
      exact this
    have heq : |t| = 2 ^ 24 := by
      have : ((|t| : Int) : ℚ) = 2 ^ 24 := by rw [← habs]; exact le_antisymm hle hlow
      exact_mod_cast this
    have hdiv : ∃ z : Int, t = 2 * z := by
      rcases abs_cases t with ⟨h1, -⟩ | ⟨h1, -⟩
      · refine ⟨2 ^ 23, ?_⟩
        rw [← h1, heq]
        norm_num
      · refine ⟨-2 ^ 23, ?_⟩
        have h2 : t = -(2 ^ 24) := by omega
        rw [h2]
        norm_num
    obtain ⟨z, hz⟩ := hdiv
    refine toFloat32_of_quotient _ z hq ?_
    rw [h24, hz]
    push_cast
    norm_num

theorem log_16777217 : Int.log 2 |(16777217 : ℚ)| = 24 := by
  have hpos : (0 : ℚ) < |(16777217 : ℚ)| := by norm_num
  apply le_antisymm
  · have : Int.log 2 |(16777217 : ℚ)| < 25 := by
      rw [← Int.lt_zpow_iff_log_lt (by norm_num) hpos]
      norm_num
    omega
  · rw [← Int.zpow_le_iff_le_log (by norm_num) hpos]
    norm_num

/-- The integer 2^24 + 1 lies halfway between two 32-bit floats and is rounded
to the even one, 2^24. -/
theorem toFloat32_16777217 : Flt.toFloat32 (Flt.fin 16777217) = Flt.fin 16777216 := by
  unfold Flt.toFloat32
  dsimp only
  rw [if_neg (by norm_num), log_16777217]
  have hfl : ⌊(16777217 : ℚ) / 2 ^ ((24 : ℤ) - 23)⌋ = 8388608 := by
    rw [Int.floor_eq_iff]
    norm_num
  unfold roundHalfEven
  rw [hfl]
  norm_num

/-! ## The threshold line on the sensor node -/

theorem valueText_cons (c : Char) (rest : List Char) (j : Nat) :
    valueText (c :: rest) (j + 1) = valueText rest j := by
  unfold valueText
  rw [indexOfFrom_cons]
  cases indexOfFrom rest ",".toList j with
  | none => exact substring_cons c rest j rest.length
  | some m => exact substring_cons c rest j m

theorem nodeText_cons (c : Char) (rest key : List Char) (k : Nat)
    (h : key.isPrefixOf (c :: rest) = false) :
    nodeText (c :: rest) key k = nodeText rest key k := by
  unfold nodeText
  rw [indexOf_cons c rest key h]
  cases indexOf rest key with
  | none => rfl
  | some j =>
    simp only [Option.map_some']
    rw [show j + 1 + k = (j + k) + 1 by omega, valueText_cons]

theorem nodeText_value (key v rest : List Char) (k : Nat) (hk : ',' ∉ key) (he : '=' ∈ key)
    (hv : '=' ∉ v) : nodeText (v ++ ',' :: rest) key k = nodeText rest key k := by
  induction v with
  | nil => exact nodeText_cons _ _ _ _ (isPrefixOf_value key [] rest hk he hv)
  | cons c v ih =>
    have hv2 : '=' ∉ v := fun h => hv (List.mem_cons_of_mem _ h)
    have hb : key.isPrefixOf (c :: (v ++ ',' :: rest)) = false :=
      isPrefixOf_value key (c :: v) rest hk he hv
    rw [List.cons_append, nodeText_cons _ _ _ _ hb]
    exact ih hv2

theorem indexOf_here (key w : List Char) (hne : key ≠ []) : indexOf (key ++ w) key = some 0 := by
  have h := strstr_first key [] w (not_infix_dropLast key hne)
  have hpos : ¬ 0 ≥ (key ++ w).length := by
    have h1 := List.length_pos_of_ne_nil hne
    have h2 : (key ++ w).length = key.length + w.length := List.length_append _ _
    omega
  unfold indexOf indexOfFrom
  rw [if_neg hpos]
  simp only [List.nil_append, List.length_nil] at h
  simp [h]

/-- The key stands at the head of the line and a comma ends its value. -/
theorem nodeText_here (key v post : List Char) (hne : key ≠ []) (hv : ',' ∉ v) :
    nodeText (key ++ (v ++ ',' :: post)) key key.length = some v := by
  unfold nodeText
  rw [indexOf_here key _ hne]
  simp only [Option.map_some', Nat.zero_add]
  unfold valueText indexOfFrom
  have hlen : ¬ key.length ≥ (key ++ (v ++ ',' :: post)).length := by simp
  rw [if_neg hlen, List.drop_left' rfl, show ",".toList = [','] from rfl,
    strstr_comma_value v post hv]
  simp only [Option.map_some', Option.getD_some]
  have := substring_middle key v (',' :: post) (by simp)
  rw [Nat.add_comm]
  simpa [List.append_assoc] using this

/-- The key stands at the head of the line and its value runs to the end. -/
theorem nodeText_here_end (key v : List Char) (hne : key ≠ []) (hv : ',' ∉ v) :
    nodeText (key ++ v) key key.length = some v := by
  unfold nodeText
  rw [indexOf_here key _ hne]
  simp only [Option.map_some', Nat.zero_add]
  have hnone : indexOfFrom (key ++ v) ",".toList key.length = none := by
    unfold indexOfFrom
    split
    · rfl
    · rw [List.drop_left' rfl]
      have : ¬ ",".toList <:+: v := fun hin => hv (hin.subset (by simp))
      rw [(strstr_eq_none _ _).2 this]
      rfl
  unfold valueText
  rw [hnone]
  simp only [Option.getD_none]
  have := substringFrom_eq_drop (key ++ v) key.length
  unfold substringFrom at this
  rw [this, List.drop_left' rfl]

/-- The texts that the three blocks of the sensor node convert on the line of
the hub. -/
theorem texts_of_thresholdsLine (t g s : Int) :
    startsWith (thresholdsLine t g s) "THRESHOLDS:".toList = true
    ∧ nodeText (thresholdsLine t g s) "TEMP=".toList 5 = some (decimal t)
    ∧ nodeText (thresholdsLine t g s) "GAS=".toList 4 = some (decimal g)
    ∧ nodeText (thresholdsLine t g s) "SOUND=".toList 6 = some (decimal s) := by
  have pt := plainValue_decimal t
  have pg := plainValue_decimal g
  have ps := plainValue_decimal s
  unfold thresholdsLine
  generalize decimal t = T at pt
  generalize decimal g = G at pg
  generalize decimal s = S at ps
  have nv : ∀ (key v rest : List Char) (k : Nat), ',' ∉ key → '=' ∈ key → '=' ∉ v →
      nodeText (v ++ ',' :: rest) key k = nodeText rest key k := nodeText_value
  have hT := fun v post hv => nodeText_here ['T', 'E', 'M', 'P', '='] v post (by decide) hv
  have hG := fun v post hv => nodeText_here ['G', 'A', 'S', '='] v post (by decide) hv
  have hS := fun v hv => nodeText_here_end ['S', 'O', 'U', 'N', 'D', '='] v (by decide) hv
  simp only [List.cons_append, List.nil_append, List.length_cons, List.length_nil] at hT hG hS
  have et := pt.2
  have eg := pg.2
  rw [show "THRESHOLDS:TEMP=".toList
      = ['T', 'H', 'R', 'E', 'S', 'H', 'O', 'L', 'D', 'S', ':', 'T', 'E', 'M', 'P', '='] from rfl,
    show ",GAS=".toList = [',', 'G', 'A', 'S', '='] from rfl,
    show ",SOUND=".toList = [',', 'S', 'O', 'U', 'N', 'D', '='] from rfl,
    lit_TEMP, lit_GAS, lit_SOUND]
  refine ⟨?_, ?_, ?_, ?_⟩
  · simp [startsWith, List.isPrefixOf]
  · simp [nodeText_cons, List.isPrefixOf, hT, pt.1]
  · simp [nodeText_cons, List.isPrefixOf, nv, et, hG, pg.1]
  · simp [nodeText_cons, List.isPrefixOf, nv, et, eg, hS, ps.1]

/-- Closed form of the handling of a `THRESHOLDS:` line by the sensor node. -/
theorem handleReply_thresholds (n : Node) (raw : List Char)
    (h : startsWith (trim raw) "THRESHOLDS:".toList = true) :
    n.handleReply raw
      = ({ n with
            TEMP_THRESHOLD :=
              ((nodeText (trim raw) "TEMP=".toList 5).map
                (fun v => Flt.toFloat32 (toFloat v))).getD n.TEMP_THRESHOLD
            GAS_THRESHOLD :=
              ((nodeText (trim raw) "GAS=".toList 4).map toInt).getD n.GAS_THRESHOLD
            SOUND_TRIGGER :=
              ((nodeText (trim raw) "SOUND=".toList 6).map toInt).getD n.SOUND_TRIGGER }, []) := by
  unfold Node.handleReply nodeText
  simp only [h, if_true]
  cases indexOf (trim raw) "TEMP=".toList <;> cases indexOf (trim raw) "GAS=".toList <;>
    cases indexOf (trim raw) "SOUND=".toList <;> rfl

/-- The sound trigger of the sensor node after a line of the hub. -/
theorem handleReply_sound (n : Node) (raw : List Char) :
    (n.handleReply raw).1.SOUND_TRIGGER = (soundOfReply raw).getD n.SOUND_TRIGGER := by
  by_cases h : startsWith (trim raw) "THRESHOLDS:".toList = true
  · rw [handleReply_thresholds n raw h]
    unfold soundOfReply nodeText
    rw [if_pos h]
    cases indexOf (trim raw) "SOUND=".toList <;> rfl
  · have hb : startsWith (trim raw) "THRESHOLDS:".toList = false := by simpa using h
    unfold Node.handleReply soundOfReply
    dsimp only
    rw [hb]
    simp only [Bool.false_eq_true, if_false]
    split_ifs <;> rfl

/-- The lines that the sensor node sends back on a line of the hub. -/
theorem handleReply_lines (n : Node) (raw : List Char) :
    (n.handleReply raw).2 = [] ∨ (n.handleReply raw).2 = ["PONG:ESP8266".toList] := by
  unfold Node.handleReply
  dsimp only
  split_ifs <;> simp


/-! ## The lines of a sample and their parse on the hub -/

/-- The automation leaves the hub as it is on a line that is no alert. -/
theorem automation_not_alert (c : Controller) (msg : List Char)
    (h : startsWith msg "ALERT:".toList = false) : automation c msg = c := by
  unfold automation
  rw [h]
  simp

/-- The sensor part of the hub after a received `DATA:` line. -/
theorem handleMessage_data (c : Controller) (now : Nat) (raw : List Char)
    (h : startsWith (trim raw) "DATA:".toList = true) :
    (handleMessage c now raw).hub
      = { parseSensorData c.hub (trim raw) now with isOnline := true, lastSensorUpdate := now } := by
  unfold handleMessage
  rw [automation_hub]
  simp only [logEvent_hub, h, if_true]

/-- The reading of the hub after a received `DATA:` line. -/
theorem handleMessage_data_reading (c : Controller) (now : Nat) (raw : List Char)
    (h : startsWith (trim raw) "DATA:".toList = true) :
    (handleMessage c now raw).hub.sensorData
      = (parseSensorData c.hub (trim raw) now).sensorData := by
  rw [handleMessage_data c now raw h]

theorem startsWith_dataLine (t g sd p i l d : List Char) :
    startsWith (dataLine t g sd p i l d) "DATA:".toList = true := by
  unfold dataLine
  simp [startsWith, List.isPrefixOf]

/-- The reading after the parse of the line that the sensor node builds from
texts without comma and equals sign. -/
theorem parseSensorData_dataLine (s : Hub) (now : Nat) (t g sd p i l d : List Char)
    (ht : plainValue t) (hg : plainValue g) (hsd : plainValue sd) (hp : plainValue p)
    (hi : plainValue i) (hl : plainValue l) :
    (parseSensorData s (dataLine t g sd p i l d) now).sensorData
      = { temperature := toFloat t
          gasLevel := toInt g
          soundLevel := toInt sd
          motionDetected := decide (toInt p = 1)
          irTriggered := decide (toInt p = 0)
          lightLevel := toInt l
          distance := toInt d } := by
  obtain ⟨h1, h2, h3, h4, h5, h6, h7⟩ := texts_of_dataLine t g sd p i l d ht hg hsd hp hi hl
  rw [parseSensorData_of_data s _ now (startsWith_dataLine t g sd p i l d), parseFields_eq,
    h1, h2, h3, h4, h5, h6, h7]
  rfl

/-- The lines of one sample: the alert lines of the rules that hold, then the
`DATA:` line. -/
theorem readAndSendSensorData_eq (n : Node) (floatText : Flt → List Char) (x : Sample) :
    readAndSendSensorData n floatText x
      = ((nodeAlertRules n x).filter (·.2)).map (·.1)
        ++ [dataLine (floatText x.temp) (decimal x.gas) (decimal x.sound) (decimal x.pir)
            (decimal x.ir) (decimal x.light) (decimal x.dist)] := by
  unfold readAndSendSensorData nodeAlertRules
  generalize dataLine (floatText x.temp) (decimal x.gas) (decimal x.sound) (decimal x.pir)
            (decimal x.ir) (decimal x.light) (decimal x.dist) = d
  cases Flt.lt n.TEMP_THRESHOLD x.temp <;> by_cases h2 : x.gas > n.GAS_THRESHOLD <;>
    by_cases h3 : x.sound = n.SOUND_TRIGGER <;> by_cases h4 : x.pir = 1 <;>
    by_cases h5 : x.ir = 0 <;> by_cases h6 : (0 < x.dist ∧ x.dist < n.PRESENCE_DISTANCE_CM) <;>
    by_cases h7 : x.light < n.LIGHT_THRESHOLD <;>
    simp [h2, h3, h4, h5, h6, h7]

/-- In the lines of the rules that hold, the line of a rule occurs once when
the rule holds and not at all when it does not. -/
theorem count_rule_line {α : Type} [BEq α] [LawfulBEq α] (rules : List (α × Bool))
    (hnd : (rules.map (·.1)).Nodup) (r : α × Bool) (hr : r ∈ rules) :
    (((rules.filter (·.2)).map (·.1)).count r.1) = if r.2 = true then 1 else 0 := by
  induction rules with
  | nil => simp at hr
  | cons a l ih =>
    rw [List.map_cons, List.nodup_cons] at hnd
    obtain ⟨hna, hnl⟩ := hnd
    have hsub : ∀ y, y ∈ (l.filter (·.2)).map (·.1) → y ∈ l.map (·.1) := by
      intro y hy
      obtain ⟨z, hz, rfl⟩ := List.mem_map.1 hy
      exact List.mem_map.2 ⟨z, (List.mem_filter.1 hz).1, rfl⟩
    rcases List.mem_cons.1 hr with rfl | hrl
    · have h0 : ((l.filter (·.2)).map (·.1)).count r.1 = 0 :=
        List.count_eq_zero.2 (fun h => hna (hsub _ h))
      by_cases hb : r.2 = true
      · simp [List.filter_cons, hb, h0]
      · simp [List.filter_cons, hb, h0]
    · have hne : a.1 ≠ r.1 := by
        intro h
        exact hna (h ▸ List.mem_map.2 ⟨r, hrl, rfl⟩)
      by_cases hb : a.2 = true
      · simp [List.filter_cons, hb, List.count_cons, hne, ih hnl hrl]
      · simp [List.filter_cons, hb, ih hnl hrl]

/-- The sample sends `ALERT:SOUND_EVENT` only when its sound reading equals
the sound trigger. -/
theorem sound_event_sent (n : Node) (floatText : Flt → List Char) (x : Sample)
    (h : "ALERT:SOUND_EVENT".toList ∈ readAndSendSensorData n floatText x) :
    x.sound = n.SOUND_TRIGGER := by
  rw [readAndSendSensorData_eq, List.mem_append] at h
  rcases h with h | h
  · obtain ⟨r, hr, hname⟩ := List.mem_map.1 h
    obtain ⟨hmem, hholds⟩ := List.mem_filter.1 hr
    simp only [nodeAlertRules, List.mem_cons, List.mem_singleton, List.not_mem_nil,
      or_false] at hmem
    rcases hmem with rfl | rfl | rfl | rfl | rfl | rfl | rfl
    · exact absurd (show "ALERT:TEMP_HIGH".toList = "ALERT:SOUND_EVENT".toList from hname)
        (by decide)
    · exact absurd (show "ALERT:GAS_LEAK".toList = "ALERT:SOUND_EVENT".toList from hname)
        (by decide)
    · simpa using hholds
    · exact absurd (show "ALERT:MOTION_PIR".toList = "ALERT:SOUND_EVENT".toList from hname)
        (by decide)
    · exact absurd (show "ALERT:IR_TRIGGERED".toList = "ALERT:SOUND_EVENT".toList from hname)
        (by decide)
    · exact absurd (show "ALERT:PRESENCE_DETECTED".toList = "ALERT:SOUND_EVENT".toList from hname)
        (by decide)
    · exact absurd (show "ALERT:ROOM_DARK".toList = "ALERT:SOUND_EVENT".toList from hname)
        (by decide)
  · rw [List.mem_singleton] at h
    have hdata : (dataLine (floatText x.temp) (decimal x.gas) (decimal x.sound) (decimal x.pir)
        (decimal x.ir) (decimal x.light) (decimal x.dist)).head? = some 'D' := rfl
    have := congrArg List.head? h
    rw [hdata] at this
    exact absurd this (by decide)

/-- Along quiet events a sound trigger other than 0 and 1 stays other than 0
and 1, and no `ALERT:SOUND_EVENT` is sent. -/
theorem run_quiet (floatText : Flt → List Char) (events : List NodeEvent)
    (st : Node × List (List Char))
    (hq : ∀ ev ∈ events, quietEvent ev = true)
    (htrig : st.1.SOUND_TRIGGER ≠ 0 ∧ st.1.SOUND_TRIGGER ≠ 1)
    (hout : "ALERT:SOUND_EVENT".toList ∉ st.2) :
    ((events.foldl
        (fun st ev => ((Node.step floatText st.1 ev).1, st.2 ++ (Node.step floatText st.1 ev).2))
        st).1.SOUND_TRIGGER ≠ 0
      ∧ (events.foldl
        (fun st ev => ((Node.step floatText st.1 ev).1, st.2 ++ (Node.step floatText st.1 ev).2))
        st).1.SOUND_TRIGGER ≠ 1)
    ∧ "ALERT:SOUND_EVENT".toList ∉ (events.foldl
        (fun st ev => ((Node.step floatText st.1 ev).1, st.2 ++ (Node.step floatText st.1 ev).2))
        st).2 := by
  induction events generalizing st with
  | nil => exact ⟨htrig, hout⟩
  | cons ev events ih =>
    rw [List.foldl_cons]
    apply ih
    · intro e he
      exact hq e (List.mem_cons_of_mem _ he)
    · have hev := hq ev (List.mem_cons_self _ _)
      cases ev with
      | sample x => exact htrig
      | reply raw =>
        simp only [quietEvent, decide_eq_true_eq] at hev
        show (st.1.handleReply raw).1.SOUND_TRIGGER ≠ 0 ∧ (st.1.handleReply raw).1.SOUND_TRIGGER ≠ 1
        rw [handleReply_sound]
        cases hs : soundOfReply raw with
        | none => exact htrig
        | some v =>
          rw [hs] at hev
          simp only [Option.getD_some]
          exact ⟨fun h => hev.1 (by rw [h]), fun h => hev.2 (by rw [h])⟩
    · have hev := hq ev (List.mem_cons_self _ _)
      intro hin
      rcases List.mem_append.1 hin with h | h
      · exact hout h
      · cases ev with
        | sample x =>
          simp only [quietEvent, decide_eq_true_eq] at hev
          have := sound_event_sent st.1 floatText x h
          rcases hev with h0 | h1
          · exact htrig.1 (by rw [← this, h0])
          · exact htrig.2 (by rw [← this, h1])
        | reply raw =>
          have h2 := handleReply_lines st.1 raw
          change "ALERT:SOUND_EVENT".toList ∈ (st.1.handleReply raw).2 at h
          rcases h2 with h2 | h2
          · rw [h2] at h; exact absurd h (by simp)
          · rw [h2] at h; exact absurd h (by decide)


/-- The sensor node after the line that the hub builds from the thresholds
`t`, `g` and `s`. -/
theorem handleReply_thresholdsLine (n : Node) (raw : List Char) (t g s : Int)
    (hline : trim raw = thresholdsLine t g s) :
    n.handleReply raw
      = ({ n with
            TEMP_THRESHOLD := Flt.toFloat32 (Flt.fin (t : ℚ))
            GAS_THRESHOLD := toInt (decimal g)
            SOUND_TRIGGER := toInt (decimal s) }, []) := by
  obtain ⟨h0, h1, h2, h3⟩ := texts_of_thresholdsLine t g s
  rw [handleReply_thresholds n raw (by rw [hline]; exact h0), hline, h1, h2, h3]
  simp only [Option.map_some', Option.getD_some, toFloat_decimal]

/-- A sample whose sound reading equals the sound trigger sends
`ALERT:SOUND_EVENT`. -/
theorem sound_event_of_trigger (n : Node) (floatText : Flt → List Char) (x : Sample)
    (h : x.sound = n.SOUND_TRIGGER) :
    "ALERT:SOUND_EVENT".toList ∈ readAndSendSensorData n floatText x := by
  rw [readAndSendSensorData_eq, List.mem_append]
  left
  refine List.mem_map.2 ⟨("ALERT:SOUND_EVENT".toList, decide (x.sound = n.SOUND_TRIGGER)), ?_, rfl⟩
  refine List.mem_filter.2 ⟨?_, by simpa using h⟩
  simp [nodeAlertRules]

/-! ## The chart read, the history buffers and the event log -/

theorem foldl_emit {α β : Type} (l : List α) (f : α → β) (q : β → Bool) (acc : List β) :
    l.foldl (fun out i => if q (f i) = true then out ++ [f i] else out) acc
      = acc ++ (l.map f).filter q := by
  induction l generalizing acc with
  | nil => simp
  | cons a l ih =>
    rw [List.foldl_cons, ih, List.map_cons, List.filter_cons]
    by_cases h : q (f a) = true
    · simp [h]
    · simp [h]

/-- The loop of `handleApiChart` emits, in the order of the visit, the entries
of the visited slots that pass its test. -/
theorem chartLoop_eq (hist : Nat → SensorHistoryEntry) (idx : Nat) :
    chartLoop hist idx = ((chartSlots idx).map hist).filter chartShows := by
  unfold chartLoop chartSlots
  have := foldl_emit (List.range HISTORY_SIZE) (fun i => hist ((idx + i) % HISTORY_SIZE))
    chartShows []
  simp only [chartShows, List.nil_append] at this
  rw [List.map_map]
  exact this

/-- The visit of the loop of `handleApiChart` reaches every slot once. -/
theorem chartSlots_once (idx : Nat) :
    (chartSlots idx).Nodup ∧ (chartSlots idx).length = 100
      ∧ ∀ j, j ∈ chartSlots idx ↔ j < 100 := by
  unfold chartSlots HISTORY_SIZE
  refine ⟨?_, by simp, ?_⟩
  · refine List.Nodup.map_on ?_ (List.nodup_range 100)
    intro a ha b hb hab
    rw [List.mem_range] at ha hb
    omega
  · intro j
    simp only [List.mem_map, List.mem_range]
    constructor
    · rintro ⟨i, -, rfl⟩
      exact Nat.mod_lt _ (by decide)
    · intro hj
      exact ⟨(j + 100 - idx % 100) % 100, Nat.mod_lt _ (by decide), by omega⟩

theorem historyAfter_concat (xs : List SensorHistoryEntry) (e : SensorHistoryEntry) :
    historyAfter (xs ++ [e]) = historyWrite (historyAfter xs) e := by
  unfold historyAfter
  rw [List.foldl_append]
  rfl

/-- The buffer after a sequence of writes: the write index, and the slot that
the chart read visits in its step `i`. -/
theorem historyAfter_slots (xs : List SensorHistoryEntry) :
    (historyAfter xs).2 = xs.length % 100
    ∧ ∀ i < 100, (historyAfter xs).1 ((xs.length + i) % 100)
        = (List.replicate 100 ({} : SensorHistoryEntry) ++ xs).getD (xs.length + i) {} := by
  induction xs using List.reverseRecOn with
  | nil =>
    refine ⟨rfl, ?_⟩
    intro i hi
    simp only [List.length_nil, Nat.zero_add, List.append_nil]
    rw [List.getD_eq_getElem?_getD, List.getElem?_getD_replicate_default_eq]
    rfl
  | append_singleton xs e ih =>
    obtain ⟨hidx, hslot⟩ := ih
    rw [historyAfter_concat]
    unfold historyWrite
    simp only [hidx, HISTORY_SIZE, List.length_append, List.length_singleton]
    refine ⟨by omega, ?_⟩
    intro i hi
    by_cases h99 : i = 99
    · subst h99
      have h1 : (xs.length + 1 + 99) % 100 = xs.length % 100 := by omega
      rw [if_pos h1]
      have hl : (List.replicate 100 ({} : SensorHistoryEntry) ++ xs).length
          = xs.length + 1 + 99 := by
        rw [List.length_append, List.length_replicate]
        omega
      rw [← List.append_assoc, List.getD_append_right _ _ _ _ (by omega), hl, Nat.sub_self]
      rfl
    · have h1 : ¬ (xs.length + 1 + i) % 100 = xs.length % 100 := by omega
      rw [if_neg h1]
      have h2 := hslot (i + 1) (by omega)
      have h3 : (List.replicate 100 ({} : SensorHistoryEntry) ++ xs ++ [e]).getD
            (xs.length + (i + 1)) {}
          = (List.replicate 100 ({} : SensorHistoryEntry) ++ xs).getD (xs.length + (i + 1)) {} :=
        List.getD_append _ _ _ _ (by rw [List.length_append, List.length_replicate]; omega)
      rw [show xs.length + 1 + i = xs.length + (i + 1) by omega, h2, ← List.append_assoc, h3]

theorem map_getD_range (W : List SensorHistoryEntry) (n m : Nat) (h : W.length = n + m) :
    (List.range m).map (fun i => W.getD (n + i) {}) = W.drop n := by
  apply List.ext_getElem
  · simp [h]
  · intro i h1 h2
    simp only [List.length_map, List.length_range] at h1
    simp [List.getElem?_eq_getElem (show n + i < W.length by omega)]

/-- What the chart read emits after a sequence of writes. -/
theorem chartLoop_historyAfter (xs : List SensorHistoryEntry) :
    chartLoop (historyAfter xs).1 (historyAfter xs).2
      = ((List.replicate 100 ({} : SensorHistoryEntry) ++ xs).drop xs.length).filter chartShows := by
  obtain ⟨hidx, hslot⟩ := historyAfter_slots xs
  rw [chartLoop_eq, hidx]
  unfold chartSlots HISTORY_SIZE
  rw [List.map_map]
  congr 1
  rw [← map_getD_range _ xs.length 100 (by simp)]
  apply List.map_congr_left
  intro i hi
  rw [List.mem_range] at hi
  have := hslot i hi
  simp only [Function.comp]
  rw [← this]
  have e : (xs.length % 100 + i) % 100 = (xs.length + i) % 100 := by omega
  rw [e]

/-- The log after one call of `logEvent`. -/
theorem logEvent_logEntries (c : Controller) (now : Nat) (msg : List Char) :
    (logEvent c now msg).logEntries
      = if c.logEntries.length + 1 > 100 then (c.logEntries ++ [(now / 1000, msg)]).drop 1
        else c.logEntries ++ [(now / 1000, msg)] := by
  unfold logEvent
  simp

theorem logAll_concat (c : Controller) (calls : List (Nat × List Char)) (p : Nat × List Char) :
    logAll c (calls ++ [p]) = logEvent (logAll c calls) p.1 p.2 := by
  unfold logAll
  rw [List.foldl_append]
  rfl

/-- The log after a sequence of calls of `logEvent`, from a log that holds at
most 100 entries. -/
theorem logAll_logEntries (c : Controller) (calls : List (Nat × List Char))
    (h : c.logEntries.length ≤ 100) :
    (logAll c calls).logEntries
      = (c.logEntries ++ calls.map (fun (p : Nat × List Char) => (p.1 / 1000, p.2))).drop
          (c.logEntries.length + calls.length - 100) := by
  induction calls using List.reverseRecOn with
  | nil =>
    have : c.logEntries.length - 100 = 0 := by omega
    simp [logAll, this]
  | append_singleton calls p ih =>
    rw [logAll_concat, logEvent_logEntries, ih, List.map_append, List.map_singleton,
      ← List.append_assoc, List.length_append calls, List.length_singleton]
    generalize hX : c.logEntries ++ calls.map (fun (p : Nat × List Char) => (p.1 / 1000, p.2)) = X
    have hXl : X.length = c.logEntries.length + calls.length := by
      rw [← hX, List.length_append, List.length_map]
    rw [List.length_drop, hXl]
    by_cases hfull : c.logEntries.length + calls.length < 100
    · have h1 : ¬ (c.logEntries.length + calls.length
          - (c.logEntries.length + calls.length - 100) + 1 > 100) := by omega
      have h2 : c.logEntries.length + calls.length - 100 = 0 := by omega
      have h3 : c.logEntries.length + (calls.length + 1) - 100 = 0 := by omega
      rw [if_neg h1, h2, h3]
      rfl
    · have h1 : c.logEntries.length + calls.length
          - (c.logEntries.length + calls.length - 100) + 1 > 100 := by omega
      rw [if_pos h1, List.drop_append_of_le_length (by rw [List.length_drop, hXl]; omega),
        List.drop_drop, List.drop_append_of_le_length (by rw [hXl]; omega)]
      congr 2
      omega


/-! ## Claims on persistence and on the wire formats -/

/-- C21 (the program does otherwise): the thresholds of the hub are stored as
one byte each, so the default gas threshold 350 comes back as 94 from the store
that `saveRelayStates` or `handleApiSettings` has written; the thresholds 40
and 80 come back as they were. -/
theorem C21_gas_threshold_default_comes_back_as_94 :
    ({} : Controller).hub.GAS_THRESHOLD = 350
    ∧ (loadRelayStates (saveRelayStates {})).hub.TEMP_THRESHOLD = 40
    ∧ (loadRelayStates (saveRelayStates {})).hub.GAS_THRESHOLD = 94
    ∧ (loadRelayStates (saveRelayStates {})).hub.SOUND_THRESHOLD = 80
    ∧ (handleApiSettings {} 1000 (some (some 40, some 350, some 80)) false).1.hub.GAS_THRESHOLD
        = 350
    ∧ (Controller.boot (handleApiSettings {} 1000 (some (some 40, some 350, some 80))
        false).1.eeprom).hub.GAS_THRESHOLD = 94
    ∧ (Controller.boot (handleApiSettings {} 1000 (some (some 40, some 350, some 80))
        false).1.eeprom).hub.TEMP_THRESHOLD = 40 := by
  decide

/-- C22 (as stated, refuted): the hub that is given the temperature threshold
16777217 (2^24 + 1) holds it and sends the line
`THRESHOLDS:TEMP=16777217,GAS=350,SOUND=80`; the sensor node that handles this
line holds 16777216 as its `TEMP_THRESHOLD`, which is a 32-bit float, and not
the 16777217 of the line. -/
theorem C22_large_temperature_threshold_is_rounded :
    (handleApiSettings {} 1000 (some (some 16777217, none, none)) true).2.2
        = some "THRESHOLDS:TEMP=16777217,GAS=350,SOUND=80".toList
    ∧ (handleApiSettings {} 1000 (some (some 16777217, none, none)) true).1.hub.TEMP_THRESHOLD
        = 16777217
    ∧ (Node.handleReply {} "THRESHOLDS:TEMP=16777217,GAS=350,SOUND=80".toList).1.TEMP_THRESHOLD
        = Flt.fin 16777216
    ∧ (Node.handleReply {} "THRESHOLDS:TEMP=16777217,GAS=350,SOUND=80".toList).1.TEMP_THRESHOLD
        ≠ Flt.fin 16777217 := by
  have h : (Node.handleReply {} "THRESHOLDS:TEMP=16777217,GAS=350,SOUND=80".toList).1.TEMP_THRESHOLD
      = Flt.fin 16777216 := by
    rw [handleReply_thresholdsLine {} _ 16777217 350 80 (by decide)]
    have e : ((16777217 : Int) : ℚ) = 16777217 := by norm_num
    rw [e]
    exact toFloat32_16777217
  refine ⟨by decide, by decide, h, ?_⟩
  rw [h, ne_eq, Flt.fin.injEq]
  norm_num

/-- C22 (amended): the line that `handleApiSettings` sends holds the three
thresholds of the hub as they are after the request, and the sensor node that
handles this line (with or without white space around it) takes the second as
its `GAS_THRESHOLD`, the third as its `SOUND_TRIGGER` and the first, rounded
to a 32-bit float, as its `TEMP_THRESHOLD`: the first itself when it lies
between -16777216 and 16777216 (2^24).  Its other two thresholds stay as they
are and it sends nothing back. -/
theorem C22_amended_thresholds_wire_round_trip (c : Controller) (now : Nat)
    (temp gas sound : Option Int) (n : Node) (raw : List Char) (t g s : Int)
    (hg : isLong g) (hs : isLong s) (hline : trim raw = thresholdsLine t g s) :
    (handleApiSettings c now (some (temp, gas, sound)) true).2.2
        = some (thresholdsLine (temp.getD c.hub.TEMP_THRESHOLD) (gas.getD c.hub.GAS_THRESHOLD)
            (sound.getD c.hub.SOUND_THRESHOLD))
    ∧ (handleApiSettings c now (some (temp, gas, sound)) true).1.hub.TEMP_THRESHOLD
        = temp.getD c.hub.TEMP_THRESHOLD
    ∧ (handleApiSettings c now (some (temp, gas, sound)) true).1.hub.GAS_THRESHOLD
        = gas.getD c.hub.GAS_THRESHOLD
    ∧ (handleApiSettings c now (some (temp, gas, sound)) true).1.hub.SOUND_THRESHOLD
        = sound.getD c.hub.SOUND_THRESHOLD
    ∧ (n.handleReply raw).1.TEMP_THRESHOLD = Flt.toFloat32 (Flt.fin (t : ℚ))
    ∧ (-16777216 ≤ t ∧ t ≤ 16777216 → (n.handleReply raw).1.TEMP_THRESHOLD = Flt.fin (t : ℚ))
    ∧ (n.handleReply raw).1.GAS_THRESHOLD = g
    ∧ (n.handleReply raw).1.SOUND_TRIGGER = s
    ∧ (n.handleReply raw).1.PRESENCE_DISTANCE_CM = n.PRESENCE_DISTANCE_CM
    ∧ (n.handleReply raw).1.LIGHT_THRESHOLD = n.LIGHT_THRESHOLD
    ∧ (n.handleReply raw).2 = [] := by
  refine ⟨?_, ?_, ?_, ?_, ?_⟩
  · cases temp <;> cases gas <;> cases sound <;> rfl
  · cases temp <;> cases gas <;> cases sound <;> rfl
  · cases temp <;> cases gas <;> cases sound <;> rfl
  · cases temp <;> cases gas <;> cases sound <;> rfl
  · rw [handleReply_thresholdsLine n raw t g s hline]
    refine ⟨rfl, ?_, toInt_decimal g hg, toInt_decimal s hs, rfl, rfl, rfl⟩
    intro ht
    exact toFloat32_intCast t (abs_le.2 ⟨by omega, by omega⟩)

/-- Witness of C22 (amended): the sensor node after start-up handles the line
of the thresholds 40, 350 and 80 with its line end. -/
theorem C22_amended_witness :
    (Node.handleReply {} "THRESHOLDS:TEMP=40,GAS=350,SOUND=80\r".toList).1.TEMP_THRESHOLD
        = Flt.fin ((40 : Int) : ℚ)
    ∧ (Node.handleReply {} "THRESHOLDS:TEMP=40,GAS=350,SOUND=80\r".toList).1.GAS_THRESHOLD = 350
    ∧ (Node.handleReply {} "THRESHOLDS:TEMP=40,GAS=350,SOUND=80\r".toList).1.SOUND_TRIGGER = 80 :=
  have h := C22_amended_thresholds_wire_round_trip {} 0 none none none {}
    "THRESHOLDS:TEMP=40,GAS=350,SOUND=80\r".toList 40 350 80 (by decide) (by decide)
    (by decide)
  ⟨h.2.2.2.2.2.1 (by decide), h.2.2.2.2.2.2.1, h.2.2.2.2.2.2.2.1⟩

/-- C23: the last line that `readAndSendSensorData` sends is the `DATA:` line
of the sample, and the hub that parses this line, directly or as the line
received in `loop`, reads the gas, sound, light and distance values of the
sample. -/
theorem C23_data_wire_round_trip (s : Hub) (c : Controller) (now : Nat) (n : Node)
    (floatText : Flt → List Char) (x : Sample) (raw : List Char)
    (hplain : plainValue (floatText x.temp))
    (hgas : isLong x.gas) (hsound : isLong x.sound) (hlight : isLong x.light)
    (hdist : isLong x.dist)
    (hraw : trim raw = dataLine (floatText x.temp) (decimal x.gas) (decimal x.sound)
      (decimal x.pir) (decimal x.ir) (decimal x.light) (decimal x.dist)) :
    (readAndSendSensorData n floatText x).getLast?
        = some (dataLine (floatText x.temp) (decimal x.gas) (decimal x.sound)
            (decimal x.pir) (decimal x.ir) (decimal x.light) (decimal x.dist))
    ∧ (parseSensorData s (dataLine (floatText x.temp) (decimal x.gas) (decimal x.sound)
          (decimal x.pir) (decimal x.ir) (decimal x.light) (decimal x.dist)) now).sensorData.gasLevel
        = x.gas
    ∧ (parseSensorData s (dataLine (floatText x.temp) (decimal x.gas) (decimal x.sound)
          (decimal x.pir) (decimal x.ir) (decimal x.light) (decimal x.dist)) now).sensorData.soundLevel
        = x.sound
    ∧ (parseSensorData s (dataLine (floatText x.temp) (decimal x.gas) (decimal x.sound)
          (decimal x.pir) (decimal x.ir) (decimal x.light) (decimal x.dist)) now).sensorData.lightLevel
        = x.light
    ∧ (parseSensorData s (dataLine (floatText x.temp) (decimal x.gas) (decimal x.sound)
          (decimal x.pir) (decimal x.ir) (decimal x.light) (decimal x.dist)) now).sensorData.distance
        = x.dist
    ∧ (handleMessage c now raw).hub.sensorData.gasLevel = x.gas
    ∧ (handleMessage c now raw).hub.sensorData.soundLevel = x.sound
    ∧ (handleMessage c now raw).hub.sensorData.lightLevel = x.light
    ∧ (handleMessage c now raw).hub.sensorData.distance = x.dist := by
  have hp := fun (h : Hub) => parseSensorData_dataLine h now (floatText x.temp) (decimal x.gas)
    (decimal x.sound) (decimal x.pir) (decimal x.ir) (decimal x.light) (decimal x.dist) hplain
    (plainValue_decimal _) (plainValue_decimal _) (plainValue_decimal _)
    (plainValue_decimal _) (plainValue_decimal _)
  have hm := handleMessage_data_reading c now raw
    (by rw [hraw]; exact startsWith_dataLine _ _ _ _ _ _ _)
  rw [hraw, hp c.hub] at hm
  refine ⟨?_, ?_, ?_, ?_, ?_, ?_, ?_, ?_, ?_⟩
  · rw [readAndSendSensorData_eq]
    exact List.getLast?_concat _
  · rw [hp s]; exact toInt_decimal _ hgas
  · rw [hp s]; exact toInt_decimal _ hsound
  · rw [hp s]; exact toInt_decimal _ hlight
  · rw [hp s]; exact toInt_decimal _ hdist
  · rw [hm]; exact toInt_decimal _ hgas
  · rw [hm]; exact toInt_decimal _ hsound
  · rw [hm]; exact toInt_decimal _ hlight
  · rw [hm]; exact toInt_decimal _ hdist

/-- Witness of C23: a sample with no object in range (`dist` is -1). -/
theorem C23_witness :
    (parseSensorData Hub.init
        (dataLine "24.50".toList (decimal 120) (decimal 0) (decimal 0) (decimal 1)
          (decimal 640) (decimal (-1))) 1000).sensorData.distance = -1
    ∧ (handleMessage (Controller.boot savedDefaults) 1000
        "DATA:TEMP=24.50,GAS=120,SOUND=0,PIR=0,IR=1,LIGHT=640,DIST=-1\r".toList).hub.sensorData.gasLevel
      = 120 :=
  have h := C23_data_wire_round_trip Hub.init (Controller.boot savedDefaults) 1000 {}
    (fun _ => "24.50".toList) ⟨Flt.fin (49 / 2), 120, 0, 0, 1, 640, -1⟩
    "DATA:TEMP=24.50,GAS=120,SOUND=0,PIR=0,IR=1,LIGHT=640,DIST=-1\r".toList
    (by decide) (by decide) (by decide) (by decide) (by decide) (by decide)
  ⟨h.2.2.2.2.1, h.2.2.2.2.2.1⟩

/-- C24 (the program does otherwise): the hub cuts the line `INFO:ESP8266_IP=a`
at position 15, one short of the 16 characters of `INFO:ESP8266_IP=`, so the
address that it stores is `=a`, with the equals sign in front. -/
theorem C24_announced_address_keeps_equals_sign (c : Controller) (now : Nat)
    (raw a : List Char) (hline : trim raw = "INFO:ESP8266_IP=".toList ++ a) :
    (handleMessage c now raw).esp8266_actual_ip = '=' :: a
    ∧ (handleMessage c now raw).esp8266_actual_ip ≠ a := by
  have hip : (handleMessage c now raw).esp8266_actual_ip = '=' :: a := by
    unfold handleMessage
    rw [hline]
    have h1 : startsWith ("INFO:ESP8266_IP=".toList ++ a) "DATA:".toList = false := rfl
    have h2 : startsWith ("INFO:ESP8266_IP=".toList ++ a) "INFO:ESP8266_IP=".toList = true := by
      unfold startsWith
      exact (isPrefixOf_eq_true _ _).2 (List.prefix_append _ _)
    have h3 : startsWith ("INFO:ESP8266_IP=".toList ++ a) "ALERT:".toList = false := rfl
    simp only [h1, h2, Bool.false_eq_true, if_false, if_true]
    rw [automation_not_alert _ _ h3]
    simp only [logEvent_esp8266_actual_ip]
    rw [substringFrom_eq_drop]
    rfl
  refine ⟨hip, ?_⟩
  rw [hip]
  intro h
  have := congrArg List.length h
  simp at this

/-- Witness of C24: the address `192.168.4.2` announced after start-up. -/
theorem C24_witness :
    (handleMessage (Controller.boot savedDefaults) 1000
        "INFO:ESP8266_IP=192.168.4.2\r".toList).esp8266_actual_ip = "=192.168.4.2".toList :=
  (C24_announced_address_keeps_equals_sign (Controller.boot savedDefaults) 1000
    "INFO:ESP8266_IP=192.168.4.2\r".toList "192.168.4.2".toList (by decide)).1


/-! ## Claims on the history buffers and the chart -/

/-- C25 (as stated, refuted): 150 writes of entries with the timestamps 1 to
150, of which the entry with the timestamp 121 holds the value NaN; the chart
read returns 99 entries and not the 100 most recent ones. -/
theorem C25_undefined_value_is_not_returned :
    ((List.range 150).map (fun i =>
        (⟨if i = 120 then Flt.nan else Flt.fin 20, i + 1⟩ : SensorHistoryEntry))).length = 150
    ∧ (∀ e ∈ (List.range 150).map (fun i =>
        (⟨if i = 120 then Flt.nan else Flt.fin 20, i + 1⟩ : SensorHistoryEntry)),
        e.timestamp > 0)
    ∧ (chartLoop
        (historyAfter ((List.range 150).map (fun i =>
          (⟨if i = 120 then Flt.nan else Flt.fin 20, i + 1⟩ : SensorHistoryEntry)))).1
        (historyAfter ((List.range 150).map (fun i =>
          (⟨if i = 120 then Flt.nan else Flt.fin 20, i + 1⟩ : SensorHistoryEntry)))).2).length
        = 99
    ∧ chartLoop
        (historyAfter ((List.range 150).map (fun i =>
          (⟨if i = 120 then Flt.nan else Flt.fin 20, i + 1⟩ : SensorHistoryEntry)))).1
        (historyAfter ((List.range 150).map (fun i =>
          (⟨if i = 120 then Flt.nan else Flt.fin 20, i + 1⟩ : SensorHistoryEntry)))).2
        ≠ ((List.range 150).map (fun i =>
          (⟨if i = 120 then Flt.nan else Flt.fin 20, i + 1⟩ : SensorHistoryEntry))).drop 50 := by
  have hlen : (chartLoop
        (historyAfter ((List.range 150).map (fun i =>
          (⟨if i = 120 then Flt.nan else Flt.fin 20, i + 1⟩ : SensorHistoryEntry)))).1
        (historyAfter ((List.range 150).map (fun i =>
          (⟨if i = 120 then Flt.nan else Flt.fin 20, i + 1⟩ : SensorHistoryEntry)))).2).length
        = 99 := by
    rw [chartLoop_historyAfter]
    decide!
  refine ⟨by simp, ?_, hlen, ?_⟩
  · intro e he
    obtain ⟨i, -, rfl⟩ := List.mem_map.1 he
    exact Nat.succ_pos i
  · intro h
    have := congrArg List.length h
    rw [hlen] at this
    simp at this

/-- C25 (amended): after the writes of a sequence of entries with a timestamp
greater than 0 to a buffer that starts as at start-up, the chart read emits,
in the order in which they were written, those of the last 100 entries (of all
entries when they are fewer) whose value is not NaN: the last 100 entries
themselves when none of their values is NaN.  After 150 writes these are the
entries of the 100 most recent writes whose value is not NaN, and exactly the
100 most recent entries when none of their values is NaN. -/
theorem C25_amended_history_keeps_last_100 (xs : List SensorHistoryEntry)
    (hts : ∀ e ∈ xs, e.timestamp > 0) :
    chartLoop (historyAfter xs).1 (historyAfter xs).2
        = (xs.drop (xs.length - 100)).filter (fun e => !e.value.isnan)
    ∧ (chartLoop (historyAfter xs).1 (historyAfter xs).2).length ≤ min xs.length 100
    ∧ ((∀ e ∈ xs.drop (xs.length - 100), e.value.isnan = false) →
        chartLoop (historyAfter xs).1 (historyAfter xs).2 = xs.drop (xs.length - 100)
        ∧ (chartLoop (historyAfter xs).1 (historyAfter xs).2).length = min xs.length 100)
    ∧ (xs.length = 150 →
        chartLoop (historyAfter xs).1 (historyAfter xs).2
            = (xs.drop 50).filter (fun e => !e.value.isnan)
        ∧ ((∀ e ∈ xs.drop 50, e.value.isnan = false) →
            chartLoop (historyAfter xs).1 (historyAfter xs).2 = xs.drop 50
            ∧ (chartLoop (historyAfter xs).1 (historyAfter xs).2).length = 100)) := by
  have hmain : chartLoop (historyAfter xs).1 (historyAfter xs).2
      = (xs.drop (xs.length - 100)).filter (fun e => !e.value.isnan) := by
    rw [chartLoop_historyAfter, List.drop_append_eq_append_drop, List.filter_append,
      List.length_replicate, List.drop_replicate]
    have h1 : (List.replicate (100 - xs.length) ({} : SensorHistoryEntry)).filter chartShows
        = [] := by
      rw [List.filter_eq_nil_iff]
      intro a ha
      rw [List.eq_of_mem_replicate ha]
      decide
    have h2 : (xs.drop (xs.length - 100)).filter chartShows
        = (xs.drop (xs.length - 100)).filter (fun e => !e.value.isnan) := by
      apply List.filter_congr
      intro a ha
      have p := hts a (List.mem_of_mem_drop ha)
      simp [chartShows, p]
    rw [h1, h2, List.nil_append]
  have hall : (∀ e ∈ xs.drop (xs.length - 100), e.value.isnan = false) →
      chartLoop (historyAfter xs).1 (historyAfter xs).2 = xs.drop (xs.length - 100) := by
    intro hdef
    rw [hmain, List.filter_eq_self]
    intro a ha
    simp [hdef a ha]
  have hlen : ((xs.drop (xs.length - 100)).length) = min xs.length 100 := by
    rw [List.length_drop]
    omega
  refine ⟨hmain, ?_, ?_, ?_⟩
  · rw [hmain, ← hlen]
    exact List.length_filter_le _ _
  · intro hdef
    exact ⟨hall hdef, by rw [hall hdef, hlen]⟩
  · intro h150
    have e50 : xs.length - 100 = 50 := by omega
    rw [e50] at hmain hall hlen
    refine ⟨hmain, ?_⟩
    intro hdef
    refine ⟨hall hdef, ?_⟩
    rw [hall hdef, hlen, h150]
    rfl

/-- Witness of C25 (amended): 150 writes with the timestamps 1 to 150 and the
value 20. -/
theorem C25_amended_witness :
    chartLoop (historyAfter ((List.range 150).map (fun i => ⟨Flt.fin 20, i + 1⟩))).1
        (historyAfter ((List.range 150).map (fun i => ⟨Flt.fin 20, i + 1⟩))).2
      = ((List.range 150).map (fun i => (⟨Flt.fin 20, i + 1⟩ : SensorHistoryEntry))).drop 50 :=
  (((C25_amended_history_keeps_last_100 ((List.range 150).map (fun i => ⟨Flt.fin 20, i + 1⟩))
    (fun e he => by
      obtain ⟨i, -, rfl⟩ := List.mem_map.1 he
      exact Nat.succ_pos i)).2.2.2 (by simp)).2
    (fun e he => by
      obtain ⟨i, -, rfl⟩ := List.mem_map.1 (List.mem_of_mem_drop he)
      rfl)).1

/-- C26: for every content of a history buffer and every write index, the
loop of `handleApiChart` visits the slots `(idx + i) mod 100` for `i` from 0
to 99 in this order, which is every slot of the buffer exactly once, and emits
in this order the visited entries whose value is defined and whose timestamp is
greater than 0, and nothing else: no entry with timestamp 0 and at most 100
entries.  The handler runs this loop on the buffer and the write index of the
channel that the request path names. -/
theorem C26_chart_read_visits_each_slot_once (hist : Nat → SensorHistoryEntry) (idx : Nat)
    (h : Histories) :
    chartSlots idx = (List.range 100).map (fun i => (idx + i) % 100)
    ∧ (chartSlots idx).Nodup
    ∧ (∀ j, j ∈ chartSlots idx ↔ j < 100)
    ∧ chartLoop hist idx
        = ((chartSlots idx).map hist).filter
            (fun e => !e.value.isnan && decide (e.timestamp > 0))
    ∧ (∀ e ∈ chartLoop hist idx, e.timestamp > 0 ∧ e.value.isnan = false)
    ∧ (∀ j < 100, ((hist j).timestamp > 0 ∧ (hist j).value.isnan = false) →
        hist j ∈ chartLoop hist idx)
    ∧ (chartLoop hist idx).length ≤ 100
    ∧ handleApiChart h "/api/chart/temperature".toList = chartLoop h.tempHistory h.tempHistIdx
    ∧ handleApiChart h "/api/chart/gas".toList = chartLoop h.gasHistory h.gasHistIdx
    ∧ handleApiChart h "/api/chart/light".toList = chartLoop h.lightHistory h.lightHistIdx
    ∧ handleApiChart h "/api/chart/sound".toList = chartLoop h.soundHistory h.soundHistIdx := by
  obtain ⟨hnd, hlen, hmem⟩ := chartSlots_once idx
  have heq := chartLoop_eq hist idx
  refine ⟨rfl, hnd, hmem, heq, ?_, ?_, ?_, rfl, rfl, rfl, rfl⟩
  · intro e he
    rw [heq, List.mem_filter] at he
    have := he.2
    simp only [chartShows, Bool.and_eq_true, Bool.not_eq_true', decide_eq_true_eq] at this
    exact ⟨this.2, this.1⟩
  · intro j hj hok
    rw [heq, List.mem_filter]
    refine ⟨List.mem_map.2 ⟨j, (hmem j).2 hj, rfl⟩, ?_⟩
    simp [chartShows, hok.1, hok.2]
  · rw [heq]
    refine le_trans (List.length_filter_le _ _) ?_
    rw [List.length_map, hlen]


/-! ## Claims on the sensor node, the peer address and the event log -/

/-- C27: for every sample the sensor node sends one alert line for each of its
seven conditions that holds, in the fixed order of the conditions, and then
the `DATA:` line of the sample as the last line; with the thresholds of
start-up the presence condition is `0 < dist < 100` and the darkness condition
is `light < 500`. -/
theorem C27_one_alert_line_per_condition (n : Node) (floatText : Flt → List Char)
    (x : Sample) :
    readAndSendSensorData n floatText x
      = ((nodeAlertRules n x).filter (·.2)).map (·.1)
        ++ [dataLine (floatText x.temp) (decimal x.gas) (decimal x.sound) (decimal x.pir)
            (decimal x.ir) (decimal x.light) (decimal x.dist)]
    ∧ (nodeAlertRules n x).map (·.1)
        = ["ALERT:TEMP_HIGH".toList, "ALERT:GAS_LEAK".toList, "ALERT:SOUND_EVENT".toList,
           "ALERT:MOTION_PIR".toList, "ALERT:IR_TRIGGERED".toList,
           "ALERT:PRESENCE_DETECTED".toList, "ALERT:ROOM_DARK".toList]
    ∧ (∀ r ∈ nodeAlertRules n x,
        (readAndSendSensorData n floatText x).count r.1 = if r.2 = true then 1 else 0)
    ∧ (readAndSendSensorData n floatText x).count
          (dataLine (floatText x.temp) (decimal x.gas) (decimal x.sound) (decimal x.pir)
            (decimal x.ir) (decimal x.light) (decimal x.dist)) = 1
    ∧ ({} : Node).PRESENCE_DISTANCE_CM = 100 ∧ ({} : Node).LIGHT_THRESHOLD = 500
    ∧ readAndSendSensorData {} (fun _ => "45.00".toList) ⟨Flt.fin 45, 100, 1, 0, 1, 50, 30⟩
        = ["ALERT:TEMP_HIGH".toList, "ALERT:SOUND_EVENT".toList,
           "ALERT:PRESENCE_DETECTED".toList, "ALERT:ROOM_DARK".toList,
           "DATA:TEMP=45.00,GAS=100,SOUND=1,PIR=0,IR=1,LIGHT=50,DIST=30".toList] := by
  have hnames : (nodeAlertRules n x).map (·.1)
        = ["ALERT:TEMP_HIGH".toList, "ALERT:GAS_LEAK".toList, "ALERT:SOUND_EVENT".toList,
           "ALERT:MOTION_PIR".toList, "ALERT:IR_TRIGGERED".toList,
           "ALERT:PRESENCE_DETECTED".toList, "ALERT:ROOM_DARK".toList] := rfl
  have hnd : ((nodeAlertRules n x).map (·.1)).Nodup := by rw [hnames]; decide
  have hhead : ∀ y ∈ (nodeAlertRules n x).map (·.1), y.head? = some 'A' := by
    rw [hnames]; decide
  have hdata : (dataLine (floatText x.temp) (decimal x.gas) (decimal x.sound) (decimal x.pir)
      (decimal x.ir) (decimal x.light) (decimal x.dist)).head? = some 'D' := rfl
  have hnot : dataLine (floatText x.temp) (decimal x.gas) (decimal x.sound) (decimal x.pir)
      (decimal x.ir) (decimal x.light) (decimal x.dist)
      ∉ ((nodeAlertRules n x).filter (·.2)).map (·.1) := by
    intro hin
    obtain ⟨z, hz, hzeq⟩ := List.mem_map.1 hin
    have := hhead _ (List.mem_map.2 ⟨z, (List.mem_filter.1 hz).1, rfl⟩)
    rw [hzeq, hdata] at this
    exact absurd this (by decide)
  refine ⟨readAndSendSensorData_eq n floatText x, hnames, ?_, ?_, rfl, rfl, by decide⟩
  · intro r hr
    rw [readAndSendSensorData_eq, List.count_append, count_rule_line _ hnd r hr]
    have hne : ¬ dataLine (floatText x.temp) (decimal x.gas) (decimal x.sound) (decimal x.pir)
      (decimal x.ir) (decimal x.light) (decimal x.dist) = r.1 := by
      intro h
      have := hhead r.1 (List.mem_map.2 ⟨r, hr, rfl⟩)
      rw [← h, hdata] at this
      exact absurd this (by decide)
    simp [List.count_cons, hne]
  · rw [readAndSendSensorData_eq, List.count_append, List.count_eq_zero.2 hnot]
    simp

/-- C28 (the program does otherwise): a dotted-quad address and an address
of 20 bytes come back from the store as they were saved, with their port.  But
`handleApiESP8266Config` accepts an address of any length, and the bytes of an
address of more than 20 bytes run into the two bytes of the port at the offsets
30 and 31: of the 21 bytes of `labguard-sensor.local` the last one is
overwritten by the low byte of the port 8080 (144), so `loadESP8266Settings`
does not restore the address.  An address of more than 30 bytes overwrites its
own length at the offset 40: for one of 35 bytes, 101 bytes are read back. -/
theorem C28_long_address_collides_with_port :
    (loadESP8266Settings (handleApiESP8266Config {} (fun _ => 0) true
        "192.168.4.27".toList "8081".toList).2.1).1
        = { esp8266_ip := "192.168.4.27".toList, esp8266_port := 8081 }
    ∧ (loadESP8266Settings (handleApiESP8266Config {} (fun _ => 0) true
        "sensor-node-01.local".toList "8080".toList).2.1).1
        = { esp8266_ip := "sensor-node-01.local".toList, esp8266_port := 8080 }
    ∧ (handleApiESP8266Config {} (fun _ => 0) true "labguard-sensor.local".toList
        "8080".toList).2.2 = 200
    ∧ (handleApiESP8266Config {} (fun _ => 0) true "labguard-sensor.local".toList
        "8080".toList).1 = { esp8266_ip := "labguard-sensor.local".toList, esp8266_port := 8080 }
    ∧ (loadESP8266Settings (handleApiESP8266Config {} (fun _ => 0) true
        "labguard-sensor.local".toList "8080".toList).2.1).1.esp8266_ip
        = "labguard-sensor.loca".toList ++ [Char.ofNat 144]
    ∧ (loadESP8266Settings (handleApiESP8266Config {} (fun _ => 0) true
        "labguard-sensor.local".toList "8080".toList).2.1).1.esp8266_ip
        ≠ "labguard-sensor.local".toList
    ∧ (loadESP8266Settings (handleApiESP8266Config {} (fun _ => 0) true
        "labguard-sensor.local".toList "8080".toList).2.1).1.esp8266_port = 8080
    ∧ ((loadESP8266Settings (handleApiESP8266Config {} (fun _ => 0) true
        "esp8266-sensor-node.lab.example.com".toList "8080".toList).2.1).1.esp8266_ip).length
        = 101 := by
  decide!

/-- C29: once the sensor node has handled a `THRESHOLDS:` line whose sound
value is neither 0 nor 1, such as the 80 that the hub holds at start-up, no
sample with a digital sound reading (0 or 1) sends `ALERT:SOUND_EVENT`, along
every run in which no later line of the hub sets the sound trigger to 0 or 1;
a later line that sets it to 1 lets the alert be sent again. -/
theorem C29_sound_alert_silenced_by_thresholds_line (n : Node) (floatText : Flt → List Char)
    (raw : List Char) (t g s : Int) (events : List NodeEvent)
    (hs : isLong s) (hs01 : s ≠ 0 ∧ s ≠ 1) (hline : trim raw = thresholdsLine t g s)
    (hq : ∀ ev ∈ events, quietEvent ev = true) :
    (n.handleReply raw).1.SOUND_TRIGGER = s
    ∧ "ALERT:SOUND_EVENT".toList ∉ (Node.run floatText (n.handleReply raw).1 events).2
    ∧ (Node.run floatText (n.handleReply raw).1 events).1.SOUND_TRIGGER ≠ 0
    ∧ (Node.run floatText (n.handleReply raw).1 events).1.SOUND_TRIGGER ≠ 1
    ∧ "ALERT:SOUND_EVENT".toList ∈ (Node.run (fun _ => "24.00".toList) {}
        [NodeEvent.reply "THRESHOLDS:TEMP=40,GAS=350,SOUND=80\r".toList,
         NodeEvent.reply "THRESHOLDS:TEMP=40,GAS=350,SOUND=1\r".toList,
         NodeEvent.sample ⟨Flt.fin 24, 100, 1, 0, 1, 600, 150⟩]).2 := by
  obtain ⟨h0, -, -, h3⟩ := texts_of_thresholdsLine t g s
  have htrig : (n.handleReply raw).1.SOUND_TRIGGER = s := by
    rw [handleReply_thresholds n raw (by rw [hline]; exact h0), hline, h3]
    exact toInt_decimal s hs
  have hrun := run_quiet floatText events ((n.handleReply raw).1, []) hq
    (by rw [htrig]; exact hs01) (by simp)
  refine ⟨htrig, hrun.2, hrun.1.1, hrun.1.2, ?_⟩
  unfold Node.run
  simp only [List.foldl_cons, List.foldl_nil, Node.step]
  refine List.mem_append_right _ (sound_event_of_trigger _ _ _ ?_)
  rw [handleReply_sound]
  decide

/-- Witness of C29: the thresholds line of the start-up values of the hub, then
a sample with the sound reading 1 and one with the sound reading 0. -/
theorem C29_witness :
    "ALERT:SOUND_EVENT".toList ∉ (Node.run (fun _ => "24.00".toList)
      (Node.handleReply {} "THRESHOLDS:TEMP=40,GAS=350,SOUND=80\r".toList).1
      [NodeEvent.sample ⟨Flt.fin 24, 100, 1, 0, 1, 600, 150⟩,
       NodeEvent.reply "PING:ESP32\r".toList,
       NodeEvent.sample ⟨Flt.fin 24, 100, 0, 0, 1, 600, 150⟩]).2 :=
  (C29_sound_alert_silenced_by_thresholds_line {} (fun _ => "24.00".toList)
    "THRESHOLDS:TEMP=40,GAS=350,SOUND=80\r".toList 40 350 80
    [NodeEvent.sample ⟨Flt.fin 24, 100, 1, 0, 1, 600, 150⟩,
     NodeEvent.reply "PING:ESP32\r".toList,
     NodeEvent.sample ⟨Flt.fin 24, 100, 0, 0, 1, 600, 150⟩]
    (by decide) (by decide) (by decide) (by decide)).2.1

/-- C30: from a log of at most 100 entries, and so from the empty log of
start-up, the log never holds more than 100 entries after any sequence of
calls of `logEvent`; a call on a log of 100 entries drops the oldest entry and
appends the new one last; the log holds the most recent entries, at most 100,
in the order in which they were logged. -/
theorem C30_event_log_keeps_last_100 (c : Controller) (calls : List (Nat × List Char))
    (now : Nat) (msg : List Char) (h : c.logEntries.length ≤ 100) :
    (logAll c calls).logEntries.length ≤ 100
    ∧ (logAll c calls).logEntries.length = min (c.logEntries.length + calls.length) 100
    ∧ (logAll c calls).logEntries
        = (c.logEntries ++ calls.map (fun (p : Nat × List Char) => (p.1 / 1000, p.2))).drop
            (c.logEntries.length + calls.length - 100)
    ∧ (c.logEntries = [] →
        (logAll c calls).logEntries
          = (calls.map (fun (p : Nat × List Char) => (p.1 / 1000, p.2))).drop (calls.length - 100))
    ∧ (c.logEntries.length = 100 →
        (logEvent c now msg).logEntries = c.logEntries.drop 1 ++ [(now / 1000, msg)])
    ∧ (c.logEntries.length < 100 →
        (logEvent c now msg).logEntries = c.logEntries ++ [(now / 1000, msg)]) := by
  have hall := logAll_logEntries c calls h
  have hlen : (logAll c calls).logEntries.length = min (c.logEntries.length + calls.length) 100 := by
    rw [hall]
    simp only [List.length_drop, List.length_append, List.length_map]
    omega
  refine ⟨by rw [hlen]; exact min_le_right _ _, hlen, hall, ?_, ?_, ?_⟩
  · intro hnil
    rw [hall, hnil]
    simp
  · intro h100
    rw [logEvent_logEntries, if_pos (by omega)]
    exact List.drop_append_of_le_length (by omega)
  · intro hlt
    rw [logEvent_logEntries, if_neg (by omega)]

/-- Witness of C30: 150 calls from the empty log. -/
theorem C30_witness :
    (logAll {} ((List.range 150).map (fun i => (1000 * i, "Settings updated via API".toList)))).logEntries.length
      ≤ 100 :=
  (C30_event_log_keeps_last_100 {}
    ((List.range 150).map (fun i => (1000 * i, "Settings updated via API".toList))) 0 []
    (by decide)).1

end LabGuard
